import Mathlib

/-!
Baader Planetarium dome driver (`libindi/drivers/dome/baader_dome.cpp`).

A shallow embedding of the driver's state and operations, and theorems about them.

Conventions of the embedding.

* C `double` values are rationals (`ℚ`) with exact arithmetic; the conversion of a
  `double` to `int` truncates toward zero (`truncToInt`).
* The serial line is a value of type `Tty`: the replies the device will give to the next
  transactions, and the commands handed to `tty_write` so far. `tcflush`, logging
  (`DEBUG`, `DEBUGF`), client notification (`IDSetSwitch`, `IDSetNumber`) and `SetTimer`
  do not change the driver's members and are left out.
* Character buffers are `List Char`; `cstr` is the C string a buffer holds once
  `resp[nbytes_read] = 0` has been executed.
* Members of the INDI base class used by the driver (property vectors, `isConnected()`)
  are fields of the state record.
-/

namespace BaaderDome

/-! ## Constants (lines 38-47) -/

/-- Dome command in bytes. -/
def DOME_CMD : Nat := 9

/-- Simulated shutter closes/opens in 5 seconds. -/
def SIM_SHUTTER_TIMER : ℚ := 5

/-- Simulated flap timer. -/
def SIM_FLAP_TIMER : ℚ := 5

/-- Simulated dome speed, 5.0 degrees per second. -/
def SIM_DOME_HI_SPEED : ℚ := 5

/-- Simulated dome speed, 0.5 degrees per second. -/
def SIM_DOME_LO_SPEED : ℚ := 1 / 2

/-! ## Enumerations -/

inductive DomeStatus where
  | DOME_UNKNOWN
  | DOME_CALIBRATING
  | DOME_READY
  deriving DecidableEq, Repr

inductive CalibrationStage where
  | CALIBRATION_UNKNOWN
  | CALIBRATION_STAGE1
  | CALIBRATION_STAGE2
  | CALIBRATION_STAGE3
  | CALIBRATION_COMPLETE
  deriving DecidableEq, Repr

inductive ShutterStatus where
  | SHUTTER_OPENED
  | SHUTTER_CLOSED
  | SHUTTER_MOVING
  | SHUTTER_UNKNOWN
  deriving DecidableEq, Repr

inductive ShutterOperation where
  | SHUTTER_OPEN
  | SHUTTER_CLOSE
  deriving DecidableEq, Repr

inductive FlapStatus where
  | FLAP_OPENED
  | FLAP_CLOSED
  | FLAP_MOVING
  | FLAP_UNKNOWN
  deriving DecidableEq, Repr

inductive FlapOperation where
  | FLAP_OPEN
  | FLAP_CLOSE
  deriving DecidableEq, Repr

/-- Property state of an INDI vector. -/
inductive IPState where
  | IPS_IDLE
  | IPS_OK
  | IPS_BUSY
  | IPS_ALERT
  deriving DecidableEq, Repr

/-- Switch state of an INDI switch element. -/
inductive ISState where
  | ISS_OFF
  | ISS_ON
  deriving DecidableEq, Repr

open DomeStatus CalibrationStage ShutterStatus ShutterOperation FlapStatus FlapOperation
open IPState ISState

/-! ## The serial line -/

/-- What the line does at one transaction. -/
inductive TtyReply where
  /-- The call of `tty_write` returns an error. -/
  | writeError
  /-- The write succeeds and `tty_read` returns an error (or times out). -/
  | readError
  /-- The write succeeds and `tty_read` delivers these bytes. -/
  | data (resp : List Char)
  deriving DecidableEq, Repr

/-- The byte channel: the outcomes of the coming transactions, the commands handed to
`tty_write` so far (oldest first), and the bytes an uninitialised response buffer holds. -/
structure Tty where
  replies : List TtyReply
  written : List (List Char)
  uninit : List Char
  deriving DecidableEq, Repr

/-- Call of `tty_write(PortFD, cmd, DOME_CMD, ..)`: the first `DOME_CMD` bytes of the
buffer are handed to the line and recorded; the call fails when the line's next outcome is
a write error. -/
def tty_write (t : Tty) (cmd : List Char) : Bool × Tty :=
  match t.replies with
  | TtyReply.writeError :: rest =>
      (false, { t with replies := rest, written := t.written ++ [cmd.take DOME_CMD] })
  | _ => (true, { t with written := t.written ++ [cmd.take DOME_CMD] })

/-- Call of `tty_read(PortFD, resp, DOME_CMD, DOME_TIMEOUT, ..)`: `none` is an error return;
with nothing scripted the read times out. -/
def tty_read (t : Tty) : Option (List Char) × Tty :=
  match t.replies with
  | TtyReply.data r :: rest => (some r, { t with replies := rest })
  | _ :: rest => (none, { t with replies := rest })
  | [] => (none, t)

/-- The C string in a response buffer after `resp[nbytes_read] = 0` with
`nbytes_read = DOME_CMD`: at most nine bytes, ending before the first NUL. -/
def cstr (buf : List Char) : List Char :=
  (buf.take DOME_CMD).takeWhile (fun c => c ≠ Char.ofNat 0)

/-- The exchange every command function performs (e.g. lines 743-764):
`if (!sim && tty_write(..) != TTY_OK) return ..;` then
`if (sim) resp = simResp; else if (tty_read(..) != TTY_OK) return ..;` then
`resp[nbytes_read] = 0`. The result is `none` on either error return, and the response
string otherwise. -/
def exchange (sim : Bool) (cmd simResp : List Char) (t : Tty) : Option (List Char) × Tty :=
  if sim then (some (cstr simResp), t)
  else
    let w := tty_write t cmd
    if w.1 = false then (none, w.2)
    else
      let r := tty_read w.2
      match r.1 with
      | none => (none, r.2)
      | some resp => (some (cstr resp), r.2)

/-! ## `sscanf` and `snprintf` as the driver uses them -/

/-- The C `isspace` of the "C" locale. -/
def isspace (c : Char) : Bool :=
  c = ' ' || (9 ≤ c.toNat && c.toNat ≤ 13)

/-- Matching of the literal part of a `sscanf` format (no white space, no directive):
the rest of the input when the input starts with the literal. -/
def matchLiteral : List Char → List Char → Option (List Char)
  | [], s => some s
  | _ :: _, [] => none
  | p :: ps, c :: cs => if p = c then matchLiteral ps cs else none

/-- Directive `%s`: skip white space, then the longest run of non-space characters;
`none` when the input ends first. -/
def scan_s (s : List Char) : Option (List Char) :=
  let s1 := s.dropWhile isspace
  if s1 = [] then none else some (s1.takeWhile (fun c => !isspace c))

/-- Value of a run of decimal digits. -/
def digitsValue (ds : List Char) : Nat :=
  ds.foldl (fun acc c => 10 * acc + (c.toNat - 48)) 0

/-- Directive `%hu`: skip white space, an optional sign, then a non-empty run of decimal
digits, stored in an `unsigned short`; `none` when no digit is there. -/
def scan_hu (s : List Char) : Option Nat :=
  let s1 := s.dropWhile isspace
  let neg : Bool := s1.head? = some '-'
  let s2 := if s1.head? = some '-' ∨ s1.head? = some '+' then s1.tail else s1
  let ds := s2.takeWhile Char.isDigit
  if ds = [] then none
  else
    let v := digitsValue ds % 65536
    some (if neg then (65536 - v) % 65536 else v)

/-- The call `sscanf(resp, lit "%s", status)`: `some status` when it returns more than 0. -/
def sscanf_s (lit resp : List Char) : Option (List Char) :=
  (matchLiteral lit resp).bind scan_s

/-- The call `sscanf(resp, lit "%hu", &domeAz)`: `some domeAz` when it returns more than 0. -/
def sscanf_hu (lit resp : List Char) : Option Nat :=
  (matchLiteral lit resp).bind scan_hu

/-- The decimal digit `n % 10` as a character. -/
def digitChar (n : Nat) : Char := Char.ofNat (48 + n % 10)

/-- Output of `%04d` for the value of an `unsigned short` (0 to 65535): at least four
digits, zero-padded. -/
def fmt04d (n : Nat) : List Char :=
  let low := [digitChar (n / 1000), digitChar (n / 100), digitChar (n / 10), digitChar n]
  if n < 10000 then low else digitChar (n / 10000) :: low

/-! ## Azimuth conversion (lines 571-606) -/

/-- Conversion of a `double` to `int`: truncation toward zero. -/
def truncToInt (q : ℚ) : Int := if 0 ≤ q then ⌊q⌋ else ⌈q⌉

/-- Method `BaaderDome::MountAzToDomeAz` (lines 571-586). -/
def MountAzToDomeAz (mountAz : ℚ) : Nat :=
  let domeAz0 : Int := truncToInt (mountAz * 10 - 1800)
  let domeAz1 : Int := if 0 ≤ mountAz ∧ mountAz ≤ 1799 / 10 then domeAz0 + 3600 else domeAz0
  let domeAz2 : Int := if domeAz1 > 3599 then 3599 else if domeAz1 < 0 then 0 else domeAz1
  domeAz2.toNat % 65536

/-- Method `BaaderDome::DomeAzToMountAz` (lines 591-606). -/
def DomeAzToMountAz (domeAz : Nat) : ℚ :=
  let mountAz0 : ℚ := ((domeAz + 1800 : Nat) : ℚ) / 10
  let mountAz1 : ℚ := if domeAz ≥ 1800 then mountAz0 - 360 else mountAz0
  if mountAz1 > 360 then mountAz1 - 360
  else if mountAz1 < 0 then mountAz1 + 360
  else mountAz1

/-! ## The driver's state -/

/-- The members of `BaaderDome` and of its INDI base class that the driver reads or writes. -/
structure State where
  /-- Member `sim`: simulation mode. -/
  sim : Bool
  /-- Result of the base class's `isConnected()`. -/
  connected : Bool
  targetAz : ℚ
  shutterStatus : ShutterStatus
  flapStatus : FlapStatus
  simShutterStatus : ShutterStatus
  simFlapStatus : FlapStatus
  status : DomeStatus
  targetShutter : ShutterOperation
  targetFlap : FlapOperation
  calibrationStage : CalibrationStage
  calibrationStart : ℚ
  calibrationTarget1 : ℚ
  calibrationTarget2 : ℚ
  simShutterTimer : ℚ
  simFlapTimer : ℚ
  /-- Element `DomeAbsPosN[0].value`: the current azimuth. -/
  DomeAbsPosN_value : ℚ
  /-- Element `DomeAbsPosN[0].min`. -/
  DomeAbsPosN_min : ℚ
  /-- Element `DomeAbsPosN[0].max`. -/
  DomeAbsPosN_max : ℚ
  /-- Vector state `DomeAbsPosNP.s`: busy while a move is in progress. -/
  DomeAbsPosNP_s : IPState
  DomeGotoSP_s : IPState
  DomeRelPosNP_s : IPState
  /-- Element `DomeParamN[DOME_HOME].value`. -/
  DomeParamN_HOME : ℚ
  /-- Element `DomeParamN[DOME_PARK].value`. -/
  DomeParamN_PARK : ℚ
  /-- Element `DomeParamN[DOME_AUTOSYNC].value`: the arrival tolerance. -/
  DomeParamN_AUTOSYNC : ℚ
  CalibrateSP_s : IPState
  /-- Element `CalibrateS[0].s`. -/
  CalibrateS_0 : ISState
  DomeShutterSP_s : IPState
  /-- Element `DomeShutterS[SHUTTER_OPEN].s`. -/
  DomeShutterS_OPEN : ISState
  /-- Element `DomeShutterS[SHUTTER_CLOSE].s`. -/
  DomeShutterS_CLOSE : ISState
  DomeFlapSP_s : IPState
  /-- Element `DomeFlapS[FLAP_OPEN].s`. -/
  DomeFlapS_OPEN : ISState
  /-- Element `DomeFlapS[FLAP_CLOSE].s`. -/
  DomeFlapS_CLOSE : ISState
  deriving DecidableEq, Repr

/-! ## Status and position refresh (lines 408-566, 969-1049) -/

/-- The simulated device's answer to `d#getshut` (lines 429-434); with no branch taken
the buffer keeps what it held. -/
def simShutterResp (d : State) (t : Tty) : List Char :=
  match d.simShutterStatus with
  | SHUTTER_CLOSED => "d#shutclo".toList
  | SHUTTER_OPENED => "d#shutope".toList
  | SHUTTER_MOVING => "d#shutrun".toList
  | SHUTTER_UNKNOWN => t.uninit

/-- Method `BaaderDome::UpdateShutterStatus` (lines 408-488). -/
def UpdateShutterStatus (d : State) (t : Tty) : Bool × State × Tty :=
  let x := exchange d.sim "d#getshut".toList (simShutterResp d t) t
  match x.1 with
  | none => (false, d, x.2)
  | some resp =>
    match sscanf_s "d#shut".toList resp with
    | some status =>
      let d1 := { d with DomeShutterSP_s := IPS_OK, DomeShutterS_OPEN := ISS_OFF,
                         DomeShutterS_CLOSE := ISS_OFF }
      if status = "ope".toList then
        (true, { d1 with shutterStatus := SHUTTER_OPENED, DomeShutterS_OPEN := ISS_ON }, x.2)
      else if status = "clo".toList then
        (true, { d1 with shutterStatus := SHUTTER_CLOSED, DomeShutterS_CLOSE := ISS_ON }, x.2)
      else if status = "run".toList then
        (true, { d1 with shutterStatus := SHUTTER_MOVING, DomeShutterSP_s := IPS_BUSY }, x.2)
      else
        (true, { d1 with shutterStatus := SHUTTER_UNKNOWN, DomeShutterSP_s := IPS_ALERT }, x.2)
    | none => (false, d, x.2)

/-- The simulated device's answer to `d#getflap` (lines 990-995). -/
def simFlapResp (d : State) (t : Tty) : List Char :=
  match d.simFlapStatus with
  | FLAP_CLOSED => "d#flapclo".toList
  | FLAP_OPENED => "d#flapope".toList
  | FLAP_MOVING => "d#flaprun".toList
  | FLAP_UNKNOWN => t.uninit

/-- Method `BaaderDome::UpdateFlapStatus` (lines 969-1049). -/
def UpdateFlapStatus (d : State) (t : Tty) : Bool × State × Tty :=
  let x := exchange d.sim "d#getflap".toList (simFlapResp d t) t
  match x.1 with
  | none => (false, d, x.2)
  | some resp =>
    match sscanf_s "d#flap".toList resp with
    | some status =>
      let d1 := { d with DomeFlapSP_s := IPS_OK, DomeFlapS_OPEN := ISS_OFF,
                         DomeFlapS_CLOSE := ISS_OFF }
      if status = "ope".toList then
        (true, { d1 with flapStatus := FLAP_OPENED, DomeFlapS_OPEN := ISS_ON }, x.2)
      else if status = "clo".toList then
        (true, { d1 with flapStatus := FLAP_CLOSED, DomeFlapS_CLOSE := ISS_ON }, x.2)
      else if status = "run".toList then
        (true, { d1 with flapStatus := FLAP_MOVING, DomeFlapSP_s := IPS_BUSY }, x.2)
      else
        (true, { d1 with flapStatus := FLAP_UNKNOWN, DomeFlapSP_s := IPS_ALERT }, x.2)
    | none => (false, d, x.2)

/-- The simulated device's answer to `d#getazim` (lines 514-517). -/
def simAzimResp (d : State) : List Char :=
  if d.status = DOME_READY ∨ d.calibrationStage = CALIBRATION_COMPLETE then
    "d#azr".toList ++ fmt04d (MountAzToDomeAz d.DomeAbsPosN_value)
  else
    "d#azi".toList ++ fmt04d (MountAzToDomeAz d.DomeAbsPosN_value)

/-- Method `BaaderDome::UpdatePosition` (lines 493-566). -/
def UpdatePosition (d : State) (t : Tty) : Bool × State × Tty :=
  let x := exchange d.sim "d#getazim".toList (simAzimResp d) t
  match x.1 with
  | none => (false, d, x.2)
  | some resp =>
    match sscanf_hu "d#azr".toList resp with
    | some domeAz =>
      let d1 :=
        if d.calibrationStage = CALIBRATION_UNKNOWN then
          { d with status := DOME_READY, calibrationStage := CALIBRATION_COMPLETE,
                   CalibrateSP_s := IPS_OK }
        else if d.status = DOME_CALIBRATING then
          { d with status := DOME_READY, calibrationStage := CALIBRATION_STAGE1,
                   CalibrateSP_s := IPS_OK }
        else d
      (true, { d1 with DomeAbsPosN_value := DomeAzToMountAz domeAz }, x.2)
    | none =>
      match sscanf_hu "d#azi".toList resp with
      | some domeAz => (true, { d with DomeAbsPosN_value := DomeAzToMountAz domeAz }, x.2)
      | none => (false, d, x.2)

/-! ## Motion (lines 724-810, 875-880) -/

/-- Method `BaaderDome::MoveAbsDome` (lines 724-773); the result is the returned `int`
(`return false` is 0). -/
def MoveAbsDome (d : State) (t : Tty) (az : ℚ) : Int × State × Tty :=
  if d.status = DOME_UNKNOWN then (-1, d, t)
  else
    let d1 := { d with targetAz := az }
    let cmd := "d#azi".toList ++ fmt04d (MountAzToDomeAz d1.targetAz)
    let x := exchange d1.sim cmd "d#gotmess".toList t
    match x.1 with
    | none => (0, d1, x.2)
    | some resp => if resp = "d#gotmess".toList then (1, d1, x.2) else (-1, d1, x.2)

/-- Method `BaaderDome::MoveRelDome` (lines 778-790); `cw` is `dir == DOME_CW`. -/
def MoveRelDome (d : State) (t : Tty) (cw : Bool) (azDiff : ℚ) : Int × State × Tty :=
  let d1 := { d with targetAz := d.DomeAbsPosN_value + azDiff * (if cw then 1 else -1) }
  let d2 := if d1.targetAz < d1.DomeAbsPosN_min
            then { d1 with targetAz := d1.targetAz + d1.DomeAbsPosN_max } else d1
  let d3 := if d2.targetAz > d2.DomeAbsPosN_max
            then { d2 with targetAz := d2.targetAz - d2.DomeAbsPosN_max } else d2
  MoveAbsDome d3 t d3.targetAz

/-- Method `BaaderDome::ParkDome` (lines 795-800). -/
def ParkDome (d : State) (t : Tty) : Int × State × Tty :=
  let d1 := { d with targetAz := d.DomeParamN_PARK }
  MoveAbsDome d1 t d1.targetAz

/-- Method `BaaderDome::HomeDome` (lines 805-810). -/
def HomeDome (d : State) (t : Tty) : Int × State × Tty :=
  let d1 := { d with targetAz := d.DomeParamN_HOME }
  MoveAbsDome d1 t d1.targetAz

/-- Method `BaaderDome::AbortDome` (lines 875-880). -/
def AbortDome (d : State) (t : Tty) : Bool × State × Tty :=
  let r := MoveAbsDome d t d.DomeAbsPosN_value
  (true, r.2.1, r.2.2)

/-! ## Shutter and flap commands (lines 815-870, 907-963) -/

/-- Method `BaaderDome::ControlDomeShutter` (lines 815-870); `return false` is 0. -/
def ControlDomeShutter (d : State) (t : Tty) (operation : ShutterOperation) :
    Int × State × Tty :=
  let d1 := { d with targetShutter := operation }
  let cmd := if operation = SHUTTER_OPEN then "d#opeshut".toList else "d#closhut".toList
  let x := exchange d1.sim cmd "d#gotmess".toList t
  let d2 := if d1.sim then { d1 with simShutterTimer := SIM_SHUTTER_TIMER } else d1
  match x.1 with
  | none => (0, d2, x.2)
  | some resp =>
    if resp = "d#gotmess".toList then
      (1, { d2 with simShutterStatus := SHUTTER_MOVING, shutterStatus := SHUTTER_MOVING }, x.2)
    else (-1, d2, x.2)

/-- Method `BaaderDome::ControlDomeFlap` (lines 907-963). -/
def ControlDomeFlap (d : State) (t : Tty) (operation : FlapOperation) : Int × State × Tty :=
  let d1 := { d with targetFlap := operation }
  let cmd := if operation = FLAP_OPEN then "d#opeflap".toList else "d#cloflap".toList
  let x := exchange d1.sim cmd "d#gotmess".toList t
  let d2 := if d1.sim then { d1 with simFlapTimer := SIM_FLAP_TIMER } else d1
  match x.1 with
  | none => (-1, d2, x.2)
  | some resp =>
    if resp = "d#gotmess".toList then
      (1, { d2 with simFlapStatus := FLAP_MOVING, flapStatus := FLAP_MOVING }, x.2)
    else (-1, d2, x.2)

/-! ## The poller (lines 611-719) -/

/-- Simulated advance of the dome inside `TimerHit` (lines 621-642). -/
def simAdvance (d : State) : State :=
  if d.sim then
    let speed : ℚ :=
      if |d.targetAz - d.DomeAbsPosN_value| > SIM_DOME_HI_SPEED then SIM_DOME_HI_SPEED
      else SIM_DOME_LO_SPEED
    let v1 : ℚ :=
      if d.targetAz > d.DomeAbsPosN_value then d.DomeAbsPosN_value + speed
      else if d.targetAz < d.DomeAbsPosN_value then d.DomeAbsPosN_value - speed
      else d.DomeAbsPosN_value
    let v2 : ℚ := if v1 < d.DomeAbsPosN_min then v1 + d.DomeAbsPosN_max else v1
    let v3 : ℚ := if v2 > d.DomeAbsPosN_max then v2 - d.DomeAbsPosN_max else v2
    { d with DomeAbsPosN_value := v3 }
  else d

/-- Calibration bookkeeping of `TimerHit` on arrival (lines 660-682). The value returned by
`MoveAbsDome` is not used. -/
def calibrationAdvance (d : State) (t : Tty) : State × Tty :=
  if d.status = DOME_CALIBRATING then
    if d.calibrationStage = CALIBRATION_STAGE1 then
      let d1 := { d with calibrationTarget2 := d.DomeAbsPosN_value + 2 }
      let d2 := { d1 with calibrationStage := CALIBRATION_STAGE2 }
      let r := MoveAbsDome d2 t d2.calibrationTarget2
      ({ r.2.1 with DomeAbsPosNP_s := IPS_BUSY }, r.2.2)
    else if d.calibrationStage = CALIBRATION_STAGE2 then
      let d1 := { d with calibrationStage := CALIBRATION_STAGE3 }
      let r := MoveAbsDome d1 t d1.calibrationStart
      ({ r.2.1 with DomeAbsPosNP_s := IPS_BUSY }, r.2.2)
    else if d.calibrationStage = CALIBRATION_STAGE3 then
      ({ d with calibrationStage := CALIBRATION_COMPLETE }, t)
    else (d, t)
  else (d, t)

/-- What `TimerHit` does on arrival before the calibration bookkeeping (lines 646-658): the
current azimuth becomes the target, the move and any pending goto or relative move are
marked complete. -/
def arrive (d : State) : State :=
  let d2 := { d with DomeAbsPosN_value := d.targetAz, DomeAbsPosNP_s := IPS_OK }
  let d3 := if d2.DomeGotoSP_s = IPS_BUSY then { d2 with DomeGotoSP_s := IPS_OK } else d2
  if d3.DomeRelPosNP_s = IPS_BUSY then { d3 with DomeRelPosNP_s := IPS_OK } else d3

/-- Motion part of `TimerHit` (lines 619-688): simulated advance, arrival detection and
calibration bookkeeping. -/
def timerMotion (d : State) (t : Tty) : State × Tty :=
  if d.DomeAbsPosNP_s = IPS_BUSY then
    let d1 := simAdvance d
    if |d1.targetAz - d1.DomeAbsPosN_value| < d1.DomeParamN_AUTOSYNC then
      calibrationAdvance (arrive d1) t
    else (d1, t)
  else (d, t)

/-- Simulated shutter countdown of `TimerHit` (lines 692-699). -/
def timerShutter (d : State) : State :=
  if d.sim = true ∧ d.DomeShutterSP_s = IPS_BUSY then
    let d1 := { d with simShutterTimer := d.simShutterTimer - 1 }
    if d.simShutterTimer ≤ 0 then
      { d1 with simShutterTimer := 0,
                simShutterStatus :=
                  if d1.targetShutter = SHUTTER_OPEN then SHUTTER_OPENED else SHUTTER_CLOSED }
    else d1
  else d

/-- Simulated flap countdown of `TimerHit` (lines 705-712). -/
def timerFlap (d : State) : State :=
  if d.sim = true ∧ d.DomeFlapSP_s = IPS_BUSY then
    let d1 := { d with simFlapTimer := d.simFlapTimer - 1 }
    if d.simFlapTimer ≤ 0 then
      { d1 with simFlapTimer := 0,
                simFlapStatus := if d1.targetFlap = FLAP_OPEN then FLAP_OPENED else FLAP_CLOSED }
    else d1
  else d

/-- Method `BaaderDome::TimerHit` (lines 611-719). -/
def TimerHit (d : State) (t : Tty) : State × Tty :=
  if d.connected = false then (d, t)
  else
    let p := UpdatePosition d t
    let m := timerMotion p.2.1 p.2.2
    let s := UpdateShutterStatus m.1 m.2
    let s1 := timerShutter s.2.1
    let f := UpdateFlapStatus s1 s.2.2
    let f1 := timerFlap f.2.1
    (f1, f.2.2)

/-! ## Calibration request (lines 257-306) -/

/-- The branch of `BaaderDome::ISNewSwitch` for the property `Calibrate` (lines 257-306) of
a request addressed to this device; the first component is the returned `bool`. -/
def ISNewSwitch_Calibrate (d : State) (t : Tty) : Bool × State × Tty :=
  let d0 := { d with CalibrateS_0 := ISS_OFF }
  if d0.status = DOME_READY then (true, { d0 with CalibrateSP_s := IPS_OK }, t)
  else if d0.CalibrateSP_s = IPS_BUSY then
    let a := AbortDome d0 t
    (true, { a.2.1 with status := DOME_UNKNOWN, CalibrateSP_s := IPS_IDLE }, a.2.2)
  else
    let d1 := { d0 with status := DOME_CALIBRATING, calibrationStage := CALIBRATION_STAGE1,
                        calibrationStart := d0.DomeAbsPosN_value }
    let d2 := { d1 with calibrationTarget1 := d1.calibrationStart + 179 }
    let d3 := if d2.calibrationTarget1 > 360
              then { d2 with calibrationTarget1 := d2.calibrationTarget1 - 360 } else d2
    let r := MoveAbsDome d3 t d3.calibrationTarget1
    if r.1 = 0 then
      (false, { r.2.1 with CalibrateSP_s := IPS_ALERT, status := DOME_UNKNOWN }, r.2.2)
    else
      (true, { r.2.1 with DomeAbsPosNP_s := IPS_BUSY, CalibrateSP_s := IPS_BUSY }, r.2.2)

/-! ## Saving the encoder position (lines 1054-1107) -/

/-- Method `BaaderDome::SaveEncoderPosition` (lines 1054-1095): the returned `bool` and the
line afterwards. -/
def SaveEncoderPosition (d : State) (t : Tty) : Bool × Tty :=
  let x := exchange d.sim "d#encsave".toList "d#gotmess".toList t
  match x.1 with
  | none => (false, x.2)
  | some resp => if resp = "d#gotmess".toList then (true, x.2) else (false, x.2)

/-- Method `BaaderDome::saveConfigItems` (lines 1100-1107) up to the call of the base class:
`some r` when `SaveEncoderPosition` is called and returns `r`, `none` when it is not
called; no member changes. -/
def saveConfigItems (d : State) (t : Tty) : Option Bool × Tty :=
  if d.calibrationStage = CALIBRATION_COMPLETE then
    (some (SaveEncoderPosition d t).1, (SaveEncoderPosition d t).2)
  else (none, t)

/-- The poller run `n` times in a row, with no request in between. -/
def ticks : Nat → State → Tty → State × Tty
  | 0, d, t => (d, t)
  | n + 1, d, t => ticks n (TimerHit d t).1 (TimerHit d t).2

/-- The position `TimerHit` compares with the target at line 644: the current azimuth after
this tick's position refresh and simulated advance. -/
def tickAzimuth (d : State) (t : Tty) : ℚ :=
  (simAdvance (UpdatePosition d t).2.1).DomeAbsPosN_value

/-- This tick detects arrival: the driver is connected, a move is in progress, and the
test of line 644 succeeds. -/
def arrivalDetected (d : State) (t : Tty) : Prop :=
  d.connected = true ∧ d.DomeAbsPosNP_s = IPS_BUSY ∧
    |d.targetAz - tickAzimuth d t| < d.DomeParamN_AUTOSYNC

/-! ## Construction (lines 105-131, 141-155) -/

/-- The state after the constructor (lines 105-119) and `initProperties` (lines 141-155),
in simulation mode or not and with the dome standing at azimuth `az`. The members of the
base class, which this source file does not initialise, are an azimuth range of 0 to 360,
a tolerance of 0.5 and idle vectors; members the constructor leaves unset are 0. -/
def initialState (sim : Bool) (az : ℚ) : State :=
  { sim := sim, connected := true, targetAz := 0,
    shutterStatus := SHUTTER_UNKNOWN, flapStatus := FLAP_UNKNOWN,
    simShutterStatus := SHUTTER_CLOSED, simFlapStatus := FLAP_CLOSED,
    status := DOME_UNKNOWN, targetShutter := SHUTTER_CLOSE, targetFlap := FLAP_CLOSE,
    calibrationStage := CALIBRATION_UNKNOWN,
    calibrationStart := 0, calibrationTarget1 := 0, calibrationTarget2 := 0,
    simShutterTimer := 0, simFlapTimer := 0,
    DomeAbsPosN_value := az, DomeAbsPosN_min := 0, DomeAbsPosN_max := 360,
    DomeAbsPosNP_s := IPS_IDLE, DomeGotoSP_s := IPS_IDLE, DomeRelPosNP_s := IPS_IDLE,
    DomeParamN_HOME := 0, DomeParamN_PARK := 0, DomeParamN_AUTOSYNC := 1 / 2,
    CalibrateSP_s := IPS_IDLE, CalibrateS_0 := ISS_OFF,
    DomeShutterSP_s := IPS_IDLE, DomeShutterS_OPEN := ISS_OFF, DomeShutterS_CLOSE := ISS_OFF,
    DomeFlapSP_s := IPS_OK, DomeFlapS_OPEN := ISS_OFF, DomeFlapS_CLOSE := ISS_ON }

/-- A line on which nothing has been written and nothing is scripted. -/
def idleTty : Tty := { replies := [], written := [], uninit := [] }

/-- A line that answers the coming transactions as listed. -/
def scriptedTty (replies : List TtyReply) : Tty :=
  { replies := replies, written := [], uninit := [] }

/-! ## Specification-side notions -/

/-- The remainder of an angle modulo the 360 degree period, in [0, 360). -/
def mod360 (x : ℚ) : ℚ := x - 360 * ⌊x / 360⌋

/-! ## States used in examples and normal forms -/

/-- A driver in Stage1 of a calibration started at azimuth 10, standing at `az`, shutter and
flap polled closed. With `sim` true and `az` 188.5 these are the members of the simulated
run 42 ticks after the calibration request. -/
def stage1State (sim : Bool) (az : ℚ) : State :=
  { initialState sim az with
    status := DOME_CALIBRATING, calibrationStage := CALIBRATION_STAGE1,
    calibrationStart := 10, calibrationTarget1 := 189, targetAz := 189,
    DomeAbsPosNP_s := IPS_BUSY, CalibrateSP_s := IPS_BUSY,
    shutterStatus := SHUTTER_CLOSED, flapStatus := FLAP_CLOSED,
    DomeShutterSP_s := IPS_OK, DomeShutterS_CLOSE := ISS_ON }

/-- The state in which the calibration request calls `MoveAbsDome` (lines 279-290). -/
def calibrationSetup (d : State) : State :=
  { d with CalibrateS_0 := ISS_OFF, status := DOME_CALIBRATING,
           calibrationStage := CALIBRATION_STAGE1,
           calibrationStart := d.DomeAbsPosN_value,
           calibrationTarget1 :=
             if d.DomeAbsPosN_value + 179 > 360 then d.DomeAbsPosN_value + 179 - 360
             else d.DomeAbsPosN_value + 179 }

/-- A driver in Stage2 of a calibration started at azimuth 10, standing at `az`; with `sim`
true and `az` 190.5, the simulated run 46 ticks after the request. -/
def stage2State (sim : Bool) (az : ℚ) : State :=
  { stage1State sim az with
    calibrationStage := CALIBRATION_STAGE2, calibrationTarget2 := 191, targetAz := 191 }

/-- A driver in Stage3 of a calibration started at azimuth 10, standing at `az`; with `sim`
true and `az` 10.5, the simulated run 84 ticks after the request. -/
def stage3State (sim : Bool) (az : ℚ) : State :=
  { stage2State sim az with calibrationStage := CALIBRATION_STAGE3, targetAz := 10 }

/-- A calibrated driver standing at `az` with a move to `target` in progress. -/
def movingState (sim : Bool) (az target : ℚ) : State :=
  { initialState sim az with
    status := DOME_READY, calibrationStage := CALIBRATION_COMPLETE, CalibrateSP_s := IPS_OK,
    targetAz := target, DomeAbsPosNP_s := IPS_BUSY }

/-- The state in which `TimerHit` calls `MoveAbsDome` for Stage2, Stage1 arrival having
been detected at azimuth 189 on a real line. -/
def stage2CallState : State :=
  { stage1State false 189 with
    DomeAbsPosNP_s := IPS_OK, calibrationTarget2 := 191,
    calibrationStage := CALIBRATION_STAGE2 }

/-- The state after that tick: Stage2, target 191, the move marked busy. -/
def stage2EntryState : State :=
  { stage1State false 189 with
    calibrationTarget2 := 191, calibrationStage := CALIBRATION_STAGE2, targetAz := 191 }

/-- A real line on which the given commands were written and whose coming outcomes are
as listed. -/
def usedTty (written : List String) (replies : List TtyReply) : Tty :=
  { replies := replies, written := written.map String.toList, uninit := [] }

/-- A calibrated driver standing idle at `az`, shutter and flap polled closed. -/
def readyState (sim : Bool) (az : ℚ) : State :=
  { initialState sim az with
    status := DOME_READY, calibrationStage := CALIBRATION_COMPLETE, CalibrateSP_s := IPS_OK,
    targetAz := az, DomeAbsPosNP_s := IPS_OK,
    shutterStatus := SHUTTER_CLOSED, flapStatus := FLAP_CLOSED,
    DomeShutterSP_s := IPS_OK, DomeShutterS_CLOSE := ISS_ON }


/-- The shutter status this tick's own refresh reports (line 690), for a connected driver. -/
def tickShutterStatus (d : State) (t : Tty) : ShutterStatus :=
  let m := timerMotion (UpdatePosition d t).2.1 (UpdatePosition d t).2.2
  (UpdateShutterStatus m.1 m.2).2.1.shutterStatus

/-- The flap status this tick's own refresh reports (line 703), for a connected driver. -/
def tickFlapStatus (d : State) (t : Tty) : FlapStatus :=
  let m := timerMotion (UpdatePosition d t).2.1 (UpdatePosition d t).2.2
  let s := UpdateShutterStatus m.1 m.2
  (UpdateFlapStatus (timerShutter s.2.1) s.2.2).2.1.flapStatus

/-- The driver `n` poller ticks after `ControlDomeShutter` was called with `op`. -/
def afterShutterControl (d : State) (t : Tty) (op : ShutterOperation) (n : Nat) : State × Tty :=
  ticks n (ControlDomeShutter d t op).2.1 (ControlDomeShutter d t op).2.2

/-- The driver `n` poller ticks after `ControlDomeFlap` was called with `op`. -/
def afterFlapControl (d : State) (t : Tty) (op : FlapOperation) (n : Nat) : State × Tty :=
  ticks n (ControlDomeFlap d t op).2.1 (ControlDomeFlap d t op).2.2

/-! ## Requests and runs -/

/-- Method `BaaderDome::SetupParms` (lines 160-174), run when the properties are updated
on connection. -/
def SetupParms (d : State) (t : Tty) : Bool × State × Tty :=
  let d0 := { d with targetAz := 0 }
  let p := UpdatePosition d0 t
  let s := UpdateShutterStatus p.2.1 p.2.2
  let f := UpdateFlapStatus s.2.1 s.2.2
  (true, f.2.1, f.2.2)

/-- The members of the base class a client or the framework writes around the calls of the
driver: the states of the vectors and of the switch elements (e.g. `DomeAbsPosNP.s` after
an accepted move, or lines 309-353 for the flap) and the dome parameters. -/
structure Panel where
  DomeAbsPosNP_s : IPState
  DomeGotoSP_s : IPState
  DomeRelPosNP_s : IPState
  DomeShutterSP_s : IPState
  DomeShutterS_OPEN : ISState
  DomeShutterS_CLOSE : ISState
  DomeFlapSP_s : IPState
  DomeFlapS_OPEN : ISState
  DomeFlapS_CLOSE : ISState
  DomeParamN_HOME : ℚ
  DomeParamN_PARK : ℚ
  DomeParamN_AUTOSYNC : ℚ

/-- The state with these members of the base class overwritten. -/
def setPanel (d : State) (p : Panel) : State :=
  { d with
    DomeAbsPosNP_s := p.DomeAbsPosNP_s, DomeGotoSP_s := p.DomeGotoSP_s,
    DomeRelPosNP_s := p.DomeRelPosNP_s, DomeShutterSP_s := p.DomeShutterSP_s,
    DomeShutterS_OPEN := p.DomeShutterS_OPEN, DomeShutterS_CLOSE := p.DomeShutterS_CLOSE,
    DomeFlapSP_s := p.DomeFlapSP_s, DomeFlapS_OPEN := p.DomeFlapS_OPEN,
    DomeFlapS_CLOSE := p.DomeFlapS_CLOSE, DomeParamN_HOME := p.DomeParamN_HOME,
    DomeParamN_PARK := p.DomeParamN_PARK, DomeParamN_AUTOSYNC := p.DomeParamN_AUTOSYNC }

/-- One thing that happens to the driver: a poller tick, a call of one of its entry points,
or a write of the framework to its own members. -/
inductive Request where
  /-- Call of `TimerHit`. -/
  | tick
  /-- Call of `SetupParms`. -/
  | setup
  /-- Call of `MoveAbsDome(az)`. -/
  | moveAbs (az : ℚ)
  /-- Call of `MoveRelDome(dir, azDiff)`, `cw` being `dir == DOME_CW`. -/
  | moveRel (cw : Bool) (azDiff : ℚ)
  /-- Call of `ParkDome`. -/
  | park
  /-- Call of `HomeDome`. -/
  | home
  /-- Call of `AbortDome`. -/
  | abort
  /-- Call of `ControlDomeShutter(op)`. -/
  | shutter (op : ShutterOperation)
  /-- Call of `ControlDomeFlap(op)`. -/
  | flap (op : FlapOperation)
  /-- The calibration switch is pressed (`ISNewSwitch`, lines 257-306). -/
  | calibrate
  /-- The framework writes its own members. -/
  | panel (p : Panel)

/-- The driver and the line after one request. -/
def step (r : Request) (s : State × Tty) : State × Tty :=
  match r with
  | Request.tick => TimerHit s.1 s.2
  | Request.setup => (SetupParms s.1 s.2).2
  | Request.moveAbs az => (MoveAbsDome s.1 s.2 az).2
  | Request.moveRel cw azDiff => (MoveRelDome s.1 s.2 cw azDiff).2
  | Request.park => (ParkDome s.1 s.2).2
  | Request.home => (HomeDome s.1 s.2).2
  | Request.abort => (AbortDome s.1 s.2).2
  | Request.shutter op => (ControlDomeShutter s.1 s.2 op).2
  | Request.flap op => (ControlDomeFlap s.1 s.2 op).2
  | Request.calibrate => (ISNewSwitch_Calibrate s.1 s.2).2
  | Request.panel p => (setPanel s.1 p, s.2)

/-- The driver and the line after a sequence of requests, first to last. -/
def run : List Request → State × Tty → State × Tty
  | [], s => s
  | r :: rs, s => run rs (step r s)

/-- The simulated driver in Stage1 of a calibration requested while it stood uncalibrated
at `start`, the dome having since come to `az`. -/
def simStage1 (start az : ℚ) : State :=
  { (ISNewSwitch_Calibrate (initialState true start) idleTty).2.1 with DomeAbsPosN_value := az }
/-! ## Azimuth conversion: lemmas -/

theorem truncToInt_intCast (k : Int) : truncToInt (k : ℚ) = k := by
  unfold truncToInt
  split <;> simp

/-- The device value of an integral mount azimuth. -/
theorem MountAzToDomeAz_natCast (x : Nat) (hx : x < 360) :
    MountAzToDomeAz (x : ℚ) = if x ≤ 179 then 10 * x + 1800 else 10 * x - 1800 := by
  have hcast : (x : ℚ) * 10 - 1800 = (((10 * x - 1800 : Int)) : ℚ) := by push_cast; ring
  have hcond : (0 ≤ (x : ℚ) ∧ (x : ℚ) ≤ 1799 / 10) ↔ x ≤ 179 := by
    constructor
    · rintro ⟨_, h⟩
      have h1 : (x : ℚ) * 10 ≤ 1799 := by linarith
      have h2 : x * 10 ≤ 1799 := by exact_mod_cast h1
      omega
    · intro h
      have h1 : (x : ℚ) ≤ 179 := by exact_mod_cast h
      exact ⟨by positivity, by linarith⟩
  simp only [MountAzToDomeAz, hcast, truncToInt_intCast, hcond]
  split_ifs <;> omega

/-- The mount azimuth of a device value below 3600. -/
theorem DomeAzToMountAz_eq (d : Nat) (hd : d < 3600) :
    DomeAzToMountAz d = if d < 1800 then ((d : ℚ) + 1800) / 10 else ((d : ℚ) - 1800) / 10 := by
  have h0 : (0 : ℚ) ≤ d := by positivity
  have h1 : (d : ℚ) < 3600 := by exact_mod_cast hd
  simp only [DomeAzToMountAz]
  push_cast
  by_cases h : d < 1800
  · have h2 : (d : ℚ) < 1800 := by exact_mod_cast h
    have h3 : ¬ d ≥ 1800 := by omega
    simp only [h3, h, if_true, if_false]
    rw [if_neg (by linarith), if_neg (by linarith)]
  · have h2 : (1800 : ℚ) ≤ d := by exact_mod_cast (not_lt.mp h)
    have h3 : d ≥ 1800 := by omega
    simp only [h3, h, if_true, if_false]
    rw [if_neg (by linarith), if_neg (by linarith)]
    ring

/-- The clamp of lines 580-583 bounds the device value for every argument. -/
theorem MountAzToDomeAz_le (x : ℚ) : MountAzToDomeAz x ≤ 3599 := by
  simp only [MountAzToDomeAz]
  split_ifs <;> omega

/-- The device value of a mount azimuth given in tenths of a degree. -/
theorem MountAzToDomeAz_tenths (k : Int) :
    MountAzToDomeAz ((k : ℚ) / 10) =
      (if (if 0 ≤ k ∧ k ≤ 1799 then k - 1800 + 3600 else k - 1800) > 3599 then 3599
       else if (if 0 ≤ k ∧ k ≤ 1799 then k - 1800 + 3600 else k - 1800) < 0 then 0
       else (if 0 ≤ k ∧ k ≤ 1799 then k - 1800 + 3600 else k - 1800)).toNat % 65536 := by
  have hcast : (k : ℚ) / 10 * 10 - 1800 = (((k - 1800 : Int)) : ℚ) := by push_cast; ring
  have hcond : (0 ≤ (k : ℚ) / 10 ∧ (k : ℚ) / 10 ≤ 1799 / 10) ↔ (0 ≤ k ∧ k ≤ 1799) := by
    constructor
    · rintro ⟨h1, h2⟩
      have h3 : (0 : ℚ) ≤ k := by linarith
      have h4 : (k : ℚ) ≤ 1799 := by linarith
      exact ⟨by exact_mod_cast h3, by exact_mod_cast h4⟩
    · rintro ⟨h1, h2⟩
      have h3 : (0 : ℚ) ≤ k := by exact_mod_cast h1
      have h4 : (k : ℚ) ≤ 1799 := by exact_mod_cast h2
      exact ⟨by linarith, by linarith⟩
  simp only [MountAzToDomeAz, hcast, truncToInt_intCast, hcond]

/-- Mount to device and back is the identity on integral mount azimuths below 360. -/
theorem DomeAzToMountAz_MountAzToDomeAz_natCast (x : Nat) (hx : x < 360) :
    DomeAzToMountAz (MountAzToDomeAz (x : ℚ)) = (x : ℚ) := by
  rw [MountAzToDomeAz_natCast x hx]
  by_cases h : x ≤ 179
  · rw [if_pos h, DomeAzToMountAz_eq _ (by omega), if_neg (by omega)]
    push_cast
    ring
  · rw [if_neg h, DomeAzToMountAz_eq _ (by omega), if_pos (by omega)]
    have h2 : 1800 ≤ 10 * x := by omega
    push_cast [Nat.cast_sub h2]
    ring

/-! ## C1, C2: azimuth conversion -/

/-- C1: for every integer mount azimuth `x` with `0 ≤ x < 360`,
`DomeAzToMountAz (MountAzToDomeAz x) = x` exactly; `MountAzToDomeAz` maps 0, 180, 200, 359
to 1800, 0, 200, 1790 and `DomeAzToMountAz` maps these back to 0, 180, 200, 359. -/
theorem C1_roundtrip_integral_mount_azimuth (x : Nat) (hx : x < 360) :
    DomeAzToMountAz (MountAzToDomeAz (x : ℚ)) = (x : ℚ) ∧
    MountAzToDomeAz 0 = 1800 ∧ MountAzToDomeAz 180 = 0 ∧
    MountAzToDomeAz 200 = 200 ∧ MountAzToDomeAz 359 = 1790 ∧
    DomeAzToMountAz 1800 = 0 ∧ DomeAzToMountAz 0 = 180 ∧
    DomeAzToMountAz 200 = 200 ∧ DomeAzToMountAz 1790 = 359 := by
  have e0 := MountAzToDomeAz_natCast 0 (by decide)
  have e1 := MountAzToDomeAz_natCast 180 (by decide)
  have e2 := MountAzToDomeAz_natCast 200 (by decide)
  have e3 := MountAzToDomeAz_natCast 359 (by decide)
  norm_num at e0 e1 e2 e3
  refine ⟨DomeAzToMountAz_MountAzToDomeAz_natCast x hx, e0, e1, e2, e3, ?_, ?_, ?_, ?_⟩
  all_goals norm_num [DomeAzToMountAz]

/-- C1 at the mount azimuth 359. -/
theorem C1_roundtrip_integral_mount_azimuth_witness :
    359 < 360 ∧ DomeAzToMountAz (MountAzToDomeAz ((359 : Nat) : ℚ)) = ((359 : Nat) : ℚ) :=
  ⟨by decide, (C1_roundtrip_integral_mount_azimuth 359 (by decide)).1⟩

/-- C2: for every rational mount azimuth `x` with `0 ≤ x < 360`, `MountAzToDomeAz x` is an
integer between 0 and 3599. -/
theorem C2_device_azimuth_in_range (x : ℚ) (h0 : 0 ≤ x) (h360 : x < 360) :
    0 ≤ MountAzToDomeAz x ∧ MountAzToDomeAz x ≤ 3599 :=
  ⟨Nat.zero_le _, MountAzToDomeAz_le x⟩

/-- C2 at the mount azimuth 359.95, whose unclamped device value is 1799. -/
theorem C2_device_azimuth_in_range_witness :
    (0 : ℚ) ≤ 7199 / 20 ∧ (7199 / 20 : ℚ) < 360 ∧
    0 ≤ MountAzToDomeAz (7199 / 20) ∧ MountAzToDomeAz (7199 / 20) ≤ 3599 :=
  ⟨by norm_num, by norm_num, C2_device_azimuth_in_range (7199 / 20) (by norm_num) (by norm_num)⟩

/-! ## C3: a move while the dome is not calibrated -/

/-- C3: every `MoveAbsDome az` call made while `DomeStatus = Unknown` returns -1, hands no
command to the byte channel (the line is as before), and leaves `targetAz` and every other
member unchanged. -/
theorem C3_move_rejected_when_unknown (d : State) (t : Tty) (az : ℚ)
    (h : d.status = DOME_UNKNOWN) :
    MoveAbsDome d t az = (-1, d, t) := by
  simp [MoveAbsDome, h]

/-- C3 on the freshly constructed driver, asked to move to azimuth 90. -/
theorem C3_move_rejected_when_unknown_witness :
    (initialState false 10).status = DOME_UNKNOWN ∧
    MoveAbsDome (initialState false 10) idleTty 90 = (-1, initialState false 10, idleTty) :=
  ⟨rfl, C3_move_rejected_when_unknown (initialState false 10) idleTty 90 rfl⟩

/-! ## C4: the Stage1 target -/

theorem mod360_of_lt (x : ℚ) (h0 : 0 ≤ x) (h1 : x < 360) : mod360 x = x := by
  have hf : ⌊x / 360⌋ = 0 := by
    rw [Int.floor_eq_iff]
    constructor
    · simp only [Int.cast_zero]; positivity
    · simp only [Int.cast_zero, zero_add]; rw [div_lt_one (by norm_num)]; exact h1
  simp [mod360, hf]

theorem mod360_of_ge (x : ℚ) (h0 : 360 ≤ x) (h1 : x < 720) : mod360 x = x - 360 := by
  have hf : ⌊x / 360⌋ = 1 := by
    rw [Int.floor_eq_iff]
    constructor
    · simp only [Int.cast_one]; rw [one_le_div (by norm_num)]; exact h0
    · simp only [Int.cast_one]; rw [div_lt_iff₀ (by norm_num)]; linarith
  simp [mod360, hf]

/-- Past its guard `MoveAbsDome` changes `targetAz` and nothing else. -/
theorem MoveAbsDome_state (d : State) (t : Tty) (az : ℚ) (h : d.status ≠ DOME_UNKNOWN) :
    (MoveAbsDome d t az).2.1 = { d with targetAz := az } := by
  simp only [MoveAbsDome, if_neg h]
  split
  · rfl
  · split_ifs <;> rfl

/-- The members after the calibration request has set up Stage1 and called `MoveAbsDome`. -/
theorem ISNewSwitch_Calibrate_start (d : State) (t : Tty)
    (hr : d.status ≠ DOME_READY) (hb : d.CalibrateSP_s ≠ IPS_BUSY) :
    (ISNewSwitch_Calibrate d t).2.1.calibrationStart = d.DomeAbsPosN_value ∧
    (ISNewSwitch_Calibrate d t).2.1.calibrationTarget1 =
      (if d.DomeAbsPosN_value + 179 > 360 then d.DomeAbsPosN_value + 179 - 360
       else d.DomeAbsPosN_value + 179) ∧
    (ISNewSwitch_Calibrate d t).2.1.targetAz =
      (ISNewSwitch_Calibrate d t).2.1.calibrationTarget1 ∧
    (ISNewSwitch_Calibrate d t).2.1.calibrationStage = CALIBRATION_STAGE1 := by
  simp only [ISNewSwitch_Calibrate, hr, hb, if_false]
  by_cases hgt : d.DomeAbsPosN_value + 179 > 360
  · simp only [hgt, if_true]
    split_ifs <;> (rw [MoveAbsDome_state _ _ _ (by simp)]; simp)
  · simp only [hgt, if_false]
    split_ifs <;> (rw [MoveAbsDome_state _ _ _ (by simp)]; simp)

/-- C4 (counterexample): the driver is on a real line, not calibrated, standing at azimuth
181, and the device acknowledges the move. The calibration request computes and commands
the Stage1 target 360, while (181 + 179) mod 360 = 0. -/
theorem C4_stage1_target_at_181 :
    (ISNewSwitch_Calibrate (initialState false 181)
        (scriptedTty [TtyReply.data "d#gotmess".toList])).2.1.calibrationStart = 181 ∧
    (ISNewSwitch_Calibrate (initialState false 181)
        (scriptedTty [TtyReply.data "d#gotmess".toList])).2.1.calibrationTarget1 = 360 ∧
    (ISNewSwitch_Calibrate (initialState false 181)
        (scriptedTty [TtyReply.data "d#gotmess".toList])).2.1.targetAz = 360 ∧
    mod360 (181 + 179) = 0 ∧
    (ISNewSwitch_Calibrate (initialState false 181)
        (scriptedTty [TtyReply.data "d#gotmess".toList])).2.1.targetAz ≠ mod360 (181 + 179) := by
  have h := ISNewSwitch_Calibrate_start (initialState false 181)
    (scriptedTty [TtyReply.data "d#gotmess".toList]) (by decide) (by decide)
  have hm : mod360 (181 + 179) = 0 := by
    rw [mod360_of_ge _ (by norm_num) (by norm_num)]; norm_num
  obtain ⟨h0, h1, h2, _⟩ := h
  have h3 : (ISNewSwitch_Calibrate (initialState false 181)
        (scriptedTty [TtyReply.data "d#gotmess".toList])).2.1.calibrationTarget1 = 360 := by
    rw [h1]; norm_num [initialState]
  refine ⟨h0, h3, by rw [h2, h3], hm, ?_⟩
  rw [h2, h3, hm]; norm_num

/-- C4 (amended): for every calibrationStart `s` in [0, 360) - the current azimuth when the
calibration request arrives with the dome not Ready and the calibration control not busy -
the Stage1 target, and the `targetAz` commanded, is `s + 179` when `s + 179 ≤ 360` and
`s + 179 - 360` otherwise; this is `(s + 179) mod 360` for every `s` other than 181, where
it is 360; for `s = 10` it is 189. -/
theorem C4_stage1_target (d : State) (t : Tty)
    (hr : d.status ≠ DOME_READY) (hb : d.CalibrateSP_s ≠ IPS_BUSY)
    (h0 : 0 ≤ d.DomeAbsPosN_value) (h360 : d.DomeAbsPosN_value < 360) :
    (ISNewSwitch_Calibrate d t).2.1.calibrationStart = d.DomeAbsPosN_value ∧
    (ISNewSwitch_Calibrate d t).2.1.targetAz =
      (ISNewSwitch_Calibrate d t).2.1.calibrationTarget1 ∧
    (ISNewSwitch_Calibrate d t).2.1.calibrationTarget1 =
      (if d.DomeAbsPosN_value + 179 ≤ 360 then d.DomeAbsPosN_value + 179
       else d.DomeAbsPosN_value + 179 - 360) ∧
    (d.DomeAbsPosN_value ≠ 181 →
      (ISNewSwitch_Calibrate d t).2.1.calibrationTarget1 = mod360 (d.DomeAbsPosN_value + 179)) ∧
    (d.DomeAbsPosN_value = 181 → (ISNewSwitch_Calibrate d t).2.1.calibrationTarget1 = 360) ∧
    (d.DomeAbsPosN_value = 10 → (ISNewSwitch_Calibrate d t).2.1.calibrationTarget1 = 189) := by
  obtain ⟨h1, h2, h3, _⟩ := ISNewSwitch_Calibrate_start d t hr hb
  refine ⟨h1, h3, ?_, ?_, ?_, ?_⟩
  · rw [h2]; split_ifs <;> first | rfl | (exfalso; linarith)
  · intro hne
    rw [h2]
    rcases lt_trichotomy (d.DomeAbsPosN_value + 179) 360 with hlt | heq | hgt
    · rw [if_neg (by linarith), mod360_of_lt _ (by linarith) hlt]
    · exact absurd (by linarith) hne
    · rw [if_pos hgt, mod360_of_ge _ (by linarith) (by linarith)]
  · intro h; rw [h2, h]; norm_num
  · intro h; rw [h2, h]; norm_num

/-- C4 (amended) on the freshly constructed simulated driver standing at azimuth 10. -/
theorem C4_stage1_target_witness :
    (ISNewSwitch_Calibrate (initialState true 10) idleTty).2.1.calibrationTarget1 = 189 :=
  (C4_stage1_target (initialState true 10) idleTty (by decide) (by decide)
    (by norm_num [initialState]) (by norm_num [initialState])).2.2.2.2.2 rfl

/-! ## C7: the calibration request while calibrating -/

/-- C7: in every state with `DomeStatus = Calibrating` and the calibration control busy, the
calibration request does not restart Stage1: it sets `DomeStatus = Unknown`, sets `targetAz`
to the current azimuth, marks the calibration control idle, and leaves the calibration
stage, `calibrationStart` and `calibrationTarget1` unchanged. -/
theorem C7_calibrate_while_calibrating_aborts (d : State) (t : Tty)
    (hs : d.status = DOME_CALIBRATING) (hb : d.CalibrateSP_s = IPS_BUSY) :
    (ISNewSwitch_Calibrate d t).1 = true ∧
    (ISNewSwitch_Calibrate d t).2.1.status = DOME_UNKNOWN ∧
    (ISNewSwitch_Calibrate d t).2.1.targetAz = d.DomeAbsPosN_value ∧
    (ISNewSwitch_Calibrate d t).2.1.CalibrateSP_s = IPS_IDLE ∧
    (ISNewSwitch_Calibrate d t).2.1.calibrationStage = d.calibrationStage ∧
    (ISNewSwitch_Calibrate d t).2.1.calibrationStart = d.calibrationStart ∧
    (ISNewSwitch_Calibrate d t).2.1.calibrationTarget1 = d.calibrationTarget1 := by
  have hr : d.status ≠ DOME_READY := by simp [hs]
  simp only [ISNewSwitch_Calibrate, AbortDome, hr, hb, if_true, if_false]
  rw [MoveAbsDome_state _ _ _ (by simp [hs])]
  simp

/-- C7 on a simulated driver in Stage1, standing at azimuth 40. -/
theorem C7_calibrate_while_calibrating_aborts_witness :
    (ISNewSwitch_Calibrate (stage1State true 40) idleTty).2.1.status = DOME_UNKNOWN ∧
    (ISNewSwitch_Calibrate (stage1State true 40) idleTty).2.1.targetAz = 40 ∧
    (ISNewSwitch_Calibrate (stage1State true 40) idleTty).2.1.calibrationStage =
      CALIBRATION_STAGE1 :=
  have h := C7_calibrate_while_calibrating_aborts (stage1State true 40) idleTty rfl rfl
  ⟨h.2.1, h.2.2.1, h.2.2.2.2.1⟩

/-! ## C8: failure of the initial calibration move -/

/-- In simulation mode the exchange consults no line. -/
theorem exchange_sim (cmd simResp : List Char) (t : Tty) :
    exchange true cmd simResp t = (some (cstr simResp), t) := rfl

/-- On a real line whose next outcome is a delivered response. -/
theorem exchange_data (cmd simResp resp : List Char) (t : Tty) (rest : List TtyReply)
    (h : t.replies = TtyReply.data resp :: rest) :
    exchange false cmd simResp t =
      (some (cstr resp), { t with replies := rest, written := t.written ++ [cmd.take DOME_CMD] }) := by
  simp [exchange, tty_write, tty_read, h]

/-- On a real line whose next outcome is a write error. -/
theorem exchange_writeError (cmd simResp : List Char) (t : Tty) (rest : List TtyReply)
    (h : t.replies = TtyReply.writeError :: rest) :
    exchange false cmd simResp t =
      (none, { t with replies := rest, written := t.written ++ [cmd.take DOME_CMD] }) := by
  simp [exchange, tty_write, h]

/-- On a real line whose next outcome is a read error. -/
theorem exchange_readError (cmd simResp : List Char) (t : Tty) (rest : List TtyReply)
    (h : t.replies = TtyReply.readError :: rest) :
    exchange false cmd simResp t =
      (none, { t with replies := rest, written := t.written ++ [cmd.take DOME_CMD] }) := by
  simp [exchange, tty_write, tty_read, h]

/-- On a real line with nothing scripted the read times out. -/
theorem exchange_nil (cmd simResp : List Char) (t : Tty) (h : t.replies = []) :
    exchange false cmd simResp t =
      (none, { t with written := t.written ++ [cmd.take DOME_CMD] }) := by
  simp [exchange, tty_write, tty_read, h]

/-- The value `MoveAbsDome` returns past its guard. -/
theorem MoveAbsDome_code (d : State) (t : Tty) (az : ℚ) (h : d.status ≠ DOME_UNKNOWN) :
    (MoveAbsDome d t az).1 =
      match (exchange d.sim ("d#azi".toList ++ fmt04d (MountAzToDomeAz az))
               "d#gotmess".toList t).1 with
      | none => 0
      | some resp => if resp = "d#gotmess".toList then 1 else -1 := by
  simp only [MoveAbsDome, if_neg h]
  split
  · rfl
  · split_ifs <;> rfl

/-- The line after `MoveAbsDome`, past its guard. -/
theorem MoveAbsDome_tty (d : State) (t : Tty) (az : ℚ) (h : d.status ≠ DOME_UNKNOWN) :
    (MoveAbsDome d t az).2.2 =
      (exchange d.sim ("d#azi".toList ++ fmt04d (MountAzToDomeAz az)) "d#gotmess".toList t).2 := by
  simp only [MoveAbsDome, if_neg h]
  split
  · rfl
  · split_ifs <;> rfl

/-- The calibration request past its two guards, by the value `MoveAbsDome` returns. -/
theorem ISNewSwitch_Calibrate_eq (d : State) (t : Tty)
    (hr : d.status ≠ DOME_READY) (hb : d.CalibrateSP_s ≠ IPS_BUSY) :
    ISNewSwitch_Calibrate d t =
      if (MoveAbsDome (calibrationSetup d) t (calibrationSetup d).calibrationTarget1).1 = 0 then
        (false,
         { calibrationSetup d with targetAz := (calibrationSetup d).calibrationTarget1,
                                   CalibrateSP_s := IPS_ALERT, status := DOME_UNKNOWN },
         (MoveAbsDome (calibrationSetup d) t (calibrationSetup d).calibrationTarget1).2.2)
      else
        (true,
         { calibrationSetup d with targetAz := (calibrationSetup d).calibrationTarget1,
                                   DomeAbsPosNP_s := IPS_BUSY, CalibrateSP_s := IPS_BUSY },
         (MoveAbsDome (calibrationSetup d) t (calibrationSetup d).calibrationTarget1).2.2) := by
  have hd3 : (if d.DomeAbsPosN_value + 179 > 360 then
        ({ d with CalibrateS_0 := ISS_OFF, status := DOME_CALIBRATING,
                  calibrationStage := CALIBRATION_STAGE1,
                  calibrationStart := d.DomeAbsPosN_value,
                  calibrationTarget1 := d.DomeAbsPosN_value + 179 - 360 } : State)
      else { d with CalibrateS_0 := ISS_OFF, status := DOME_CALIBRATING,
                    calibrationStage := CALIBRATION_STAGE1,
                    calibrationStart := d.DomeAbsPosN_value,
                    calibrationTarget1 := d.DomeAbsPosN_value + 179 }) = calibrationSetup d := by
    unfold calibrationSetup; split_ifs <;> rfl
  simp only [ISNewSwitch_Calibrate, hr, hb, if_false, hd3]
  rw [MoveAbsDome_state _ _ _ (by simp [calibrationSetup])]

/-- When the device answers the Stage1 move command with a string other than "d#gotmess",
`MoveAbsDome` returns -1, the test `== false` of line 292 does not fire, and the
calibration request returns true with `DomeStatus = Calibrating` and the control busy. -/
theorem calibrate_protocol_failure (d : State) (t : Tty) (resp : List Char)
    (rest : List TtyReply)
    (hr : d.status ≠ DOME_READY) (hb : d.CalibrateSP_s ≠ IPS_BUSY) (hsim : d.sim = false)
    (hrep : t.replies = TtyReply.data resp :: rest) (hresp : cstr resp ≠ "d#gotmess".toList) :
    (MoveAbsDome (calibrationSetup d) t (calibrationSetup d).calibrationTarget1).1 = -1 ∧
    (ISNewSwitch_Calibrate d t).1 = true ∧
    (ISNewSwitch_Calibrate d t).2.1.status = DOME_CALIBRATING ∧
    (ISNewSwitch_Calibrate d t).2.1.CalibrateSP_s = IPS_BUSY ∧
    (ISNewSwitch_Calibrate d t).2.1.calibrationStage = CALIBRATION_STAGE1 := by
  have hm : (MoveAbsDome (calibrationSetup d) t (calibrationSetup d).calibrationTarget1).1
      = -1 := by
    rw [MoveAbsDome_code _ _ _ (by simp [calibrationSetup])]
    have hs : (calibrationSetup d).sim = false := by simp [calibrationSetup, hsim]
    rw [hs, exchange_data _ _ resp t rest hrep]
    exact if_neg hresp
  refine ⟨hm, ?_⟩
  rw [ISNewSwitch_Calibrate_eq d t hr hb, hm]
  simp [calibrationSetup]

/-- When the write or the read of the Stage1 move fails, the calibration request returns
false with `DomeStatus = Unknown` and the calibration control in alert. -/
theorem calibrate_transport_failure (d : State) (t : Tty)
    (hr : d.status ≠ DOME_READY) (hb : d.CalibrateSP_s ≠ IPS_BUSY) (hsim : d.sim = false)
    (hfail : ∀ cmd, (exchange false cmd "d#gotmess".toList t).1 = none) :
    (ISNewSwitch_Calibrate d t).1 = false ∧
    (ISNewSwitch_Calibrate d t).2.1.status = DOME_UNKNOWN ∧
    (ISNewSwitch_Calibrate d t).2.1.CalibrateSP_s = IPS_ALERT := by
  have hm : (MoveAbsDome (calibrationSetup d) t (calibrationSetup d).calibrationTarget1).1
      = 0 := by
    rw [MoveAbsDome_code _ _ _ (by simp [calibrationSetup])]
    have hs : (calibrationSetup d).sim = false := by simp [calibrationSetup, hsim]
    rw [hs, hfail]
  rw [ISNewSwitch_Calibrate_eq d t hr hb, hm]
  simp

/-- C8 (the code at the failing input): the driver is on a real line, not calibrated, the
calibration control idle, and the device answers the Stage1 move command with the nine
bytes "d#unknown". `MoveAbsDome` returns -1 and the calibration request returns true with
`DomeStatus = Calibrating`, the calibration control busy and the stage Stage1, where the
claim has failure, Unknown and alert. -/
theorem C8_protocol_failure_not_detected :
    (ISNewSwitch_Calibrate (initialState false 10)
        (scriptedTty [TtyReply.data "d#unknown".toList])).1 = true ∧
    (ISNewSwitch_Calibrate (initialState false 10)
        (scriptedTty [TtyReply.data "d#unknown".toList])).2.1.status = DOME_CALIBRATING ∧
    (ISNewSwitch_Calibrate (initialState false 10)
        (scriptedTty [TtyReply.data "d#unknown".toList])).2.1.CalibrateSP_s = IPS_BUSY ∧
    (ISNewSwitch_Calibrate (initialState false 10)
        (scriptedTty [TtyReply.data "d#unknown".toList])).2.1.calibrationStage =
      CALIBRATION_STAGE1 :=
  (calibrate_protocol_failure (initialState false 10)
    (scriptedTty [TtyReply.data "d#unknown".toList]) "d#unknown".toList []
    (by decide) (by decide) rfl rfl (by decide)).2

/-! ## Frame lemmas: what each step of the poller leaves alone -/

/-- Function `UpdatePosition` writes only the status, the stage, the calibration control and the
current azimuth. -/
theorem UpdatePosition_frame (d : State) (t : Tty) :
    ∃ s c cs v, (UpdatePosition d t).2.1 =
      { d with status := s, calibrationStage := c, CalibrateSP_s := cs,
               DomeAbsPosN_value := v } := by
  simp only [UpdatePosition]
  split
  · exact ⟨_, _, _, _, rfl⟩
  · split
    · split_ifs <;> exact ⟨_, _, _, _, rfl⟩
    · split <;> exact ⟨_, _, _, _, rfl⟩

/-- Function `UpdatePosition` either keeps status and stage, or sets the status to Ready. -/
theorem UpdatePosition_status (d : State) (t : Tty) :
    ((UpdatePosition d t).2.1.status = d.status ∧
      (UpdatePosition d t).2.1.calibrationStage = d.calibrationStage) ∨
    (UpdatePosition d t).2.1.status = DOME_READY := by
  simp only [UpdatePosition]
  split
  · exact Or.inl ⟨rfl, rfl⟩
  · split
    · split_ifs
      · exact Or.inr rfl
      · exact Or.inr rfl
      · exact Or.inl ⟨rfl, rfl⟩
    · split <;> exact Or.inl ⟨rfl, rfl⟩

/-- Function `UpdateShutterStatus` writes only the shutter's status and switch vector. -/
theorem UpdateShutterStatus_frame (d : State) (t : Tty) :
    ∃ a b c e, (UpdateShutterStatus d t).2.1 =
      { d with shutterStatus := a, DomeShutterSP_s := b, DomeShutterS_OPEN := c,
               DomeShutterS_CLOSE := e } := by
  simp only [UpdateShutterStatus]
  split
  · exact ⟨_, _, _, _, rfl⟩
  · split
    · split_ifs <;> exact ⟨_, _, _, _, rfl⟩
    · exact ⟨_, _, _, _, rfl⟩

/-- Function `UpdateFlapStatus` writes only the flap's status and switch vector. -/
theorem UpdateFlapStatus_frame (d : State) (t : Tty) :
    ∃ a b c e, (UpdateFlapStatus d t).2.1 =
      { d with flapStatus := a, DomeFlapSP_s := b, DomeFlapS_OPEN := c,
               DomeFlapS_CLOSE := e } := by
  simp only [UpdateFlapStatus]
  split
  · exact ⟨_, _, _, _, rfl⟩
  · split
    · split_ifs <;> exact ⟨_, _, _, _, rfl⟩
    · exact ⟨_, _, _, _, rfl⟩

/-- The shutter countdown writes only the simulated shutter. -/
theorem timerShutter_frame (d : State) :
    ∃ a b, timerShutter d = { d with simShutterTimer := a, simShutterStatus := b } := by
  simp only [timerShutter]
  split_ifs <;> exact ⟨_, _, rfl⟩

/-- The flap countdown writes only the simulated flap. -/
theorem timerFlap_frame (d : State) :
    ∃ a b, timerFlap d = { d with simFlapTimer := a, simFlapStatus := b } := by
  simp only [timerFlap]
  split_ifs <;> exact ⟨_, _, rfl⟩

/-- After the motion part, `TimerHit` writes only shutter and flap members. -/
theorem TimerHit_frame (d : State) (t : Tty) (hc : d.connected = true) :
    ∃ a1 a2 a3 a4 a5 a6 b1 b2 b3 b4 b5 b6, (TimerHit d t).1 =
      { (timerMotion (UpdatePosition d t).2.1 (UpdatePosition d t).2.2).1 with
        shutterStatus := a1, DomeShutterSP_s := a2, DomeShutterS_OPEN := a3,
        DomeShutterS_CLOSE := a4, simShutterTimer := a5, simShutterStatus := a6,
        flapStatus := b1, DomeFlapSP_s := b2, DomeFlapS_OPEN := b3,
        DomeFlapS_CLOSE := b4, simFlapTimer := b5, simFlapStatus := b6 } := by
  simp only [TimerHit, hc, Bool.true_eq_false, if_false]
  generalize timerMotion (UpdatePosition d t).2.1 (UpdatePosition d t).2.2 = m
  obtain ⟨a1, a2, a3, a4, h1⟩ := UpdateShutterStatus_frame m.1 m.2
  generalize UpdateShutterStatus m.1 m.2 = s at h1 ⊢
  obtain ⟨a5, a6, h2⟩ := timerShutter_frame s.2.1
  obtain ⟨b1, b2, b3, b4, h3⟩ := UpdateFlapStatus_frame (timerShutter s.2.1) s.2.2
  generalize UpdateFlapStatus (timerShutter s.2.1) s.2.2 = f at h3 ⊢
  obtain ⟨b5, b6, h4⟩ := timerFlap_frame f.2.1
  refine ⟨a1, a2, a3, a4, a5, a6, b1, b2, b3, b4, b5, b6, ?_⟩
  rw [h4, h3, h2, h1]

/-- The simulated advance writes only the current azimuth. -/
theorem simAdvance_frame (d : State) :
    simAdvance d = { d with DomeAbsPosN_value := (simAdvance d).DomeAbsPosN_value } := by
  simp only [simAdvance]
  split_ifs <;> rfl

/-- On arrival the current azimuth becomes the target, the move is marked complete, and
only the goto and relative-move indicators change besides. -/
theorem arrive_frame (d : State) :
    ∃ g r, arrive d = { d with DomeAbsPosN_value := d.targetAz, DomeAbsPosNP_s := IPS_OK,
                               DomeGotoSP_s := g, DomeRelPosNP_s := r } := by
  simp only [arrive]
  split_ifs <;> exact ⟨_, _, rfl⟩

/-! ## Formatting and scanning of the four-digit device value -/

/-- Facts about a decimal digit character: it is no space, no sign, not NUL, a digit, and
its code is 48 plus the digit. -/
theorem digitChar_facts (n : Nat) :
    isspace (digitChar n) = false ∧ digitChar n ≠ '-' ∧ digitChar n ≠ '+' ∧
    digitChar n ≠ Char.ofNat 0 ∧ (digitChar n).isDigit = true ∧
    (digitChar n).toNat - 48 = n % 10 := by
  have h : n % 10 < 10 := Nat.mod_lt _ (by decide)
  unfold digitChar
  generalize n % 10 = m at h ⊢
  interval_cases m <;> decide

/-- For a value below 10000, `%04d` prints exactly four digits. -/
theorem fmt04d_lt (n : Nat) (h : n < 10000) :
    fmt04d n = [digitChar (n / 1000), digitChar (n / 100), digitChar (n / 10), digitChar n] := by
  simp [fmt04d, h]

/-- The frame `lit ++ "%04d"` of five bytes and four digits is its own C string. -/
theorem cstr_frame (a b c e f : Char) (n : Nat) (h : n < 10000)
    (ha : a ≠ Char.ofNat 0) (hb : b ≠ Char.ofNat 0) (hc : c ≠ Char.ofNat 0)
    (he : e ≠ Char.ofNat 0) (hf : f ≠ Char.ofNat 0) :
    cstr ([a, b, c, e, f] ++ fmt04d n) = [a, b, c, e, f] ++ fmt04d n := by
  rw [fmt04d_lt n h]
  have h1 := (digitChar_facts (n / 1000)).2.2.2.1
  have h2 := (digitChar_facts (n / 100)).2.2.2.1
  have h3 := (digitChar_facts (n / 10)).2.2.2.1
  have h4 := (digitChar_facts n).2.2.2.1
  simp [cstr, DOME_CMD, List.takeWhile, ha, hb, hc, he, hf, h1, h2, h3, h4]

/-- Scanning four printed digits with `%hu` gives the value back. -/
theorem scan_hu_fmt04d (n : Nat) (h : n < 10000) : scan_hu (fmt04d n) = some n := by
  rw [fmt04d_lt n h]
  obtain ⟨s1, m1, p1, -, d1, v1⟩ := digitChar_facts (n / 1000)
  obtain ⟨s2, -, -, -, d2, v2⟩ := digitChar_facts (n / 100)
  obtain ⟨s3, -, -, -, d3, v3⟩ := digitChar_facts (n / 10)
  obtain ⟨s4, -, -, -, d4, v4⟩ := digitChar_facts n
  simp only [scan_hu, List.dropWhile, s1, List.head?, Option.some.injEq, m1, p1, or_self,
    if_false, List.takeWhile, d1, d2, d3, d4, digitsValue, List.foldl, v1, v2, v3, v4,
    decide_False, Bool.false_eq_true]
  simp only [reduceCtorEq, if_false, Option.some.injEq]
  have h1 : n / 100 / 10 = n / 1000 := by rw [Nat.div_div_eq_div_mul]
  have h2 : n / 10 / 10 = n / 100 := by rw [Nat.div_div_eq_div_mul]
  have h3 : n / 1000 / 10 = 0 := by rw [Nat.div_div_eq_div_mul]; exact Nat.div_eq_of_lt h
  omega

/-- The simulated synced answer is read by the first `sscanf` of `UpdatePosition`. -/
theorem sscanf_azr_azr (n : Nat) (h : n < 10000) :
    sscanf_hu "d#azr".toList (cstr ("d#azr".toList ++ fmt04d n)) = some n := by
  have hc := cstr_frame 'd' '#' 'a' 'z' 'r' n h (by decide) (by decide) (by decide)
    (by decide) (by decide)
  have hl : "d#azr".toList = ['d', '#', 'a', 'z', 'r'] := rfl
  rw [hl, hc]
  simp only [sscanf_hu, List.cons_append, List.nil_append, matchLiteral, if_true,
    Option.bind]
  exact scan_hu_fmt04d n h

/-- The simulated unsynced answer is rejected by the first `sscanf` of `UpdatePosition`. -/
theorem sscanf_azr_azi (n : Nat) (h : n < 10000) :
    sscanf_hu "d#azr".toList (cstr ("d#azi".toList ++ fmt04d n)) = none := by
  have hc := cstr_frame 'd' '#' 'a' 'z' 'i' n h (by decide) (by decide) (by decide)
    (by decide) (by decide)
  have hl : "d#azi".toList = ['d', '#', 'a', 'z', 'i'] := rfl
  have hr : "d#azr".toList = ['d', '#', 'a', 'z', 'r'] := rfl
  rw [hl, hr, hc]
  simp [sscanf_hu, matchLiteral]

/-- The simulated unsynced answer is read by the second `sscanf` of `UpdatePosition`. -/
theorem sscanf_azi_azi (n : Nat) (h : n < 10000) :
    sscanf_hu "d#azi".toList (cstr ("d#azi".toList ++ fmt04d n)) = some n := by
  have hc := cstr_frame 'd' '#' 'a' 'z' 'i' n h (by decide) (by decide) (by decide)
    (by decide) (by decide)
  have hl : "d#azi".toList = ['d', '#', 'a', 'z', 'i'] := rfl
  rw [hl, hc]
  simp only [sscanf_hu, List.cons_append, List.nil_append, matchLiteral, if_true,
    Option.bind]
  exact scan_hu_fmt04d n h

/-! ## The position refresh in simulation mode -/

/-- In simulation mode, with the dome neither Ready nor the stage Complete, the refresh
answers "d#azi" and only re-reads the current azimuth through the device encoding. -/
theorem UpdatePosition_sim_unsynced (d : State) (t : Tty) (hsim : d.sim = true)
    (hu : ¬ (d.status = DOME_READY ∨ d.calibrationStage = CALIBRATION_COMPLETE)) :
    UpdatePosition d t =
      (true, { d with DomeAbsPosN_value :=
                 DomeAzToMountAz (MountAzToDomeAz d.DomeAbsPosN_value) }, t) := by
  have hn : MountAzToDomeAz d.DomeAbsPosN_value < 10000 :=
    lt_of_le_of_lt (MountAzToDomeAz_le _) (by decide)
  simp only [UpdatePosition, hsim, exchange_sim, simAzimResp, hu, if_false,
    sscanf_azr_azi _ hn, sscanf_azi_azi _ hn]

/-- In simulation mode, with the dome Ready or the stage Complete, the refresh answers
"d#azr": the branches of lines 535-550 apply and the azimuth is re-read. -/
theorem UpdatePosition_sim_synced (d : State) (t : Tty) (hsim : d.sim = true)
    (hs : d.status = DOME_READY ∨ d.calibrationStage = CALIBRATION_COMPLETE) :
    UpdatePosition d t =
      (true,
       { (if d.calibrationStage = CALIBRATION_UNKNOWN then
            { d with status := DOME_READY, calibrationStage := CALIBRATION_COMPLETE,
                     CalibrateSP_s := IPS_OK }
          else if d.status = DOME_CALIBRATING then
            { d with status := DOME_READY, calibrationStage := CALIBRATION_STAGE1,
                     CalibrateSP_s := IPS_OK }
          else d) with
         DomeAbsPosN_value := DomeAzToMountAz (MountAzToDomeAz d.DomeAbsPosN_value) }, t) := by
  have hn : MountAzToDomeAz d.DomeAbsPosN_value < 10000 :=
    lt_of_le_of_lt (MountAzToDomeAz_le _) (by decide)
  simp only [UpdatePosition, hsim, exchange_sim, simAzimResp, hs, if_true,
    sscanf_azr_azr _ hn]

/-- The value `MoveAbsDome` returns in simulation mode, past its guard, is 1. -/
theorem MoveAbsDome_sim (d : State) (t : Tty) (az : ℚ) (h : d.status ≠ DOME_UNKNOWN)
    (hsim : d.sim = true) : MoveAbsDome d t az = (1, { d with targetAz := az }, t) := by
  have hg : cstr "d#gotmess".toList = "d#gotmess".toList := by decide
  simp only [MoveAbsDome, if_neg h, hsim, exchange_sim, hg, if_true]

/-- In simulation mode a Ready dome whose stage is not Unknown only re-reads its azimuth. -/
theorem UpdatePosition_sim_ready (d : State) (t : Tty) (hsim : d.sim = true)
    (hr : d.status = DOME_READY) (hst : d.calibrationStage ≠ CALIBRATION_UNKNOWN) :
    UpdatePosition d t =
      (true, { d with DomeAbsPosN_value :=
                 DomeAzToMountAz (MountAzToDomeAz d.DomeAbsPosN_value) }, t) := by
  rw [UpdatePosition_sim_synced d t hsim (Or.inl hr), if_neg hst,
    if_neg (by rw [hr]; decide)]

/-! ## The motion part of the poller -/

/-- The motion part of `TimerHit`, with the test of line 644 written on the members the
simulated advance leaves alone. -/
theorem timerMotion_eq (d : State) (t : Tty) :
    timerMotion d t =
      if d.DomeAbsPosNP_s = IPS_BUSY then
        if |d.targetAz - (simAdvance d).DomeAbsPosN_value| < d.DomeParamN_AUTOSYNC then
          calibrationAdvance (arrive (simAdvance d)) t
        else (simAdvance d, t)
      else (d, t) := by
  have h := simAdvance_frame d
  have h1 : (simAdvance d).targetAz = d.targetAz := by rw [h]
  have h2 : (simAdvance d).DomeParamN_AUTOSYNC = d.DomeParamN_AUTOSYNC := by rw [h]
  simp only [timerMotion, h1, h2]

/-- The motion part of `TimerHit` in a tick, on the members of the state before the tick. -/
theorem timerMotion_tick (d : State) (t : Tty) :
    timerMotion (UpdatePosition d t).2.1 (UpdatePosition d t).2.2 =
      if d.DomeAbsPosNP_s = IPS_BUSY then
        if |d.targetAz - tickAzimuth d t| < d.DomeParamN_AUTOSYNC then
          calibrationAdvance (arrive (simAdvance (UpdatePosition d t).2.1))
            (UpdatePosition d t).2.2
        else (simAdvance (UpdatePosition d t).2.1, (UpdatePosition d t).2.2)
      else ((UpdatePosition d t).2.1, (UpdatePosition d t).2.2) := by
  obtain ⟨s, c, cs, v, h⟩ := UpdatePosition_frame d t
  have h1 : (UpdatePosition d t).2.1.targetAz = d.targetAz := by rw [h]
  have h2 : (UpdatePosition d t).2.1.DomeParamN_AUTOSYNC = d.DomeParamN_AUTOSYNC := by rw [h]
  have h3 : (UpdatePosition d t).2.1.DomeAbsPosNP_s = d.DomeAbsPosNP_s := by rw [h]
  rw [timerMotion_eq, h1, h2, h3]
  rfl

/-- With no calibration active the bookkeeping of lines 660-682 does nothing. -/
theorem calibrationAdvance_idle (d : State) (t : Tty) (h : d.status ≠ DOME_CALIBRATING) :
    calibrationAdvance d t = (d, t) := by
  simp [calibrationAdvance, h]

/-- On Stage1 arrival (lines 662-669). -/
theorem calibrationAdvance_stage1 (d : State) (t : Tty) (h : d.status = DOME_CALIBRATING)
    (hs : d.calibrationStage = CALIBRATION_STAGE1) :
    (calibrationAdvance d t).1 =
      { d with calibrationTarget2 := d.DomeAbsPosN_value + 2,
               calibrationStage := CALIBRATION_STAGE2,
               targetAz := d.DomeAbsPosN_value + 2, DomeAbsPosNP_s := IPS_BUSY } := by
  simp only [calibrationAdvance, h, hs, if_true]
  rw [MoveAbsDome_state _ _ _ (by simp [h])]

/-- On Stage2 arrival (lines 670-676). -/
theorem calibrationAdvance_stage2 (d : State) (t : Tty) (h : d.status = DOME_CALIBRATING)
    (hs : d.calibrationStage = CALIBRATION_STAGE2) :
    (calibrationAdvance d t).1 =
      { d with calibrationStage := CALIBRATION_STAGE3,
               targetAz := d.calibrationStart, DomeAbsPosNP_s := IPS_BUSY } := by
  simp only [calibrationAdvance, h, hs, if_true, reduceCtorEq, if_false]
  rw [MoveAbsDome_state _ _ _ (by simp [h])]

/-- On Stage3 arrival (lines 677-681). -/
theorem calibrationAdvance_stage3 (d : State) (t : Tty) (h : d.status = DOME_CALIBRATING)
    (hs : d.calibrationStage = CALIBRATION_STAGE3) :
    calibrationAdvance d t = ({ d with calibrationStage := CALIBRATION_COMPLETE }, t) := by
  simp [calibrationAdvance, h, hs]

/-- Status and stage at the test of line 660 are those after the position refresh. -/
theorem arrive_simAdvance_status (d : State) :
    (arrive (simAdvance d)).status = d.status ∧
    (arrive (simAdvance d)).calibrationStage = d.calibrationStage ∧
    (arrive (simAdvance d)).DomeAbsPosN_value = d.targetAz ∧
    (arrive (simAdvance d)).targetAz = d.targetAz ∧
    (arrive (simAdvance d)).calibrationStart = d.calibrationStart ∧
    (arrive (simAdvance d)).DomeAbsPosNP_s = IPS_OK ∧
    (arrive (simAdvance d)).sim = d.sim ∧
    (arrive (simAdvance d)).connected = d.connected := by
  obtain ⟨g, r, h⟩ := arrive_frame (simAdvance d)
  have h1 := simAdvance_frame d
  rw [h, h1]
  exact ⟨rfl, rfl, rfl, rfl, rfl, rfl, rfl, rfl⟩


/-- The members of the state after a tick that the shutter and flap parts leave alone are
those after the motion part. -/
theorem TimerHit_motion_members (d : State) (t : Tty) (hc : d.connected = true) :
    (TimerHit d t).1.status =
      (timerMotion (UpdatePosition d t).2.1 (UpdatePosition d t).2.2).1.status ∧
    (TimerHit d t).1.calibrationStage =
      (timerMotion (UpdatePosition d t).2.1 (UpdatePosition d t).2.2).1.calibrationStage ∧
    (TimerHit d t).1.targetAz =
      (timerMotion (UpdatePosition d t).2.1 (UpdatePosition d t).2.2).1.targetAz ∧
    (TimerHit d t).1.DomeAbsPosN_value =
      (timerMotion (UpdatePosition d t).2.1 (UpdatePosition d t).2.2).1.DomeAbsPosN_value ∧
    (TimerHit d t).1.DomeAbsPosNP_s =
      (timerMotion (UpdatePosition d t).2.1 (UpdatePosition d t).2.2).1.DomeAbsPosNP_s ∧
    (TimerHit d t).1.sim =
      (timerMotion (UpdatePosition d t).2.1 (UpdatePosition d t).2.2).1.sim ∧
    (TimerHit d t).1.connected =
      (timerMotion (UpdatePosition d t).2.1 (UpdatePosition d t).2.2).1.connected := by
  obtain ⟨a1, a2, a3, a4, a5, a6, b1, b2, b3, b4, b5, b6, hT⟩ := TimerHit_frame d t hc
  rw [hT]
  exact ⟨rfl, rfl, rfl, rfl, rfl, rfl, rfl⟩

/-- The motion part of a tick that detects arrival. -/
theorem timerMotion_arrival (d : State) (t : Tty) (harr : arrivalDetected d t) :
    timerMotion (UpdatePosition d t).2.1 (UpdatePosition d t).2.2 =
      calibrationAdvance (arrive (simAdvance (UpdatePosition d t).2.1))
        (UpdatePosition d t).2.2 := by
  rw [timerMotion_tick, if_pos harr.2.1, if_pos harr.2.2]

/-- The position refresh leaves the target and the calibration start alone. -/
theorem UpdatePosition_keeps (d : State) (t : Tty) :
    (UpdatePosition d t).2.1.targetAz = d.targetAz ∧
    (UpdatePosition d t).2.1.calibrationStart = d.calibrationStart ∧
    (UpdatePosition d t).2.1.sim = d.sim ∧
    (UpdatePosition d t).2.1.connected = d.connected := by
  obtain ⟨s, c, cs, v, hU⟩ := UpdatePosition_frame d t
  rw [hU]
  exact ⟨rfl, rfl, rfl, rfl⟩

/-! ## C5: Stage2 and Stage3 targets -/

/-- The azimuth compared at line 644 in simulation mode, the dome not yet reported synced. -/
theorem tickAzimuth_sim_unsynced (d : State) (t : Tty) (hsim : d.sim = true)
    (hu : ¬ (d.status = DOME_READY ∨ d.calibrationStage = CALIBRATION_COMPLETE)) :
    tickAzimuth d t =
      (simAdvance
        { d with
          DomeAbsPosN_value := DomeAzToMountAz (MountAzToDomeAz d.DomeAbsPosN_value) }
      ).DomeAbsPosN_value := by
  rw [tickAzimuth, UpdatePosition_sim_unsynced d t hsim hu]

/-- Device encoding and decoding of the azimuths of the simulated run used below. -/
theorem roundtrip_run_values :
    DomeAzToMountAz (MountAzToDomeAz (377 / 2)) = 377 / 2 ∧
    DomeAzToMountAz (MountAzToDomeAz (381 / 2)) = 381 / 2 ∧
    DomeAzToMountAz (MountAzToDomeAz (21 / 2)) = 21 / 2 := by
  have h1 := MountAzToDomeAz_tenths 1885
  have h2 := MountAzToDomeAz_tenths 1905
  have h3 := MountAzToDomeAz_tenths 105
  norm_num at h1 h2 h3
  have e1 : Int.toNat 85 % 65536 = 85 := by decide
  have e2 : Int.toNat 105 % 65536 = 105 := by decide
  have e3 : Int.toNat 1905 % 65536 = 1905 := by decide
  rw [h1, h2, h3, e1, e2, e3]
  norm_num [DomeAzToMountAz]

/-- At 10.5 in Stage3 the simulated dome advances by the low speed to the target 10. -/
theorem tickAzimuth_stage3 : tickAzimuth (stage3State true (21 / 2)) idleTty = 10 := by
  rw [tickAzimuth_sim_unsynced _ _ rfl (by decide)]
  have h := roundtrip_run_values.2.2
  have ha : |(1 / 2 : ℚ)| = 1 / 2 := abs_of_pos (by norm_num)
  norm_num [stage3State, stage2State, stage1State, initialState, simAdvance, h,
    SIM_DOME_HI_SPEED, SIM_DOME_LO_SPEED, ha]

/-- The calibration bookkeeping writes only the Stage2 target, the stage, the target and the
motion state. -/
theorem calibrationAdvance_frame (d : State) (t : Tty) :
    ∃ c2 cs ta b, (calibrationAdvance d t).1 =
      { d with calibrationTarget2 := c2, calibrationStage := cs, targetAz := ta,
               DomeAbsPosNP_s := b } := by
  by_cases h : d.status = DOME_CALIBRATING
  · by_cases h1 : d.calibrationStage = CALIBRATION_STAGE1
    · exact ⟨_, _, _, _, calibrationAdvance_stage1 d t h h1⟩
    · by_cases h2 : d.calibrationStage = CALIBRATION_STAGE2
      · exact ⟨_, _, _, _, calibrationAdvance_stage2 d t h h2⟩
      · by_cases h3 : d.calibrationStage = CALIBRATION_STAGE3
        · rw [calibrationAdvance_stage3 d t h h3]; exact ⟨_, _, _, _, rfl⟩
        · have hk : calibrationAdvance d t = (d, t) := by
            simp [calibrationAdvance, h1, h2, h3]
          rw [hk]; exact ⟨_, _, _, _, rfl⟩
  · rw [calibrationAdvance_idle d t h]; exact ⟨_, _, _, _, rfl⟩

/-- The motion part of `TimerHit` changes neither the status nor the mode. -/
theorem timerMotion_status (d : State) (t : Tty) :
    (timerMotion d t).1.status = d.status ∧ (timerMotion d t).1.sim = d.sim ∧
    (timerMotion d t).1.connected = d.connected := by
  rw [timerMotion_eq]
  have hS := simAdvance_frame d
  split_ifs
  · obtain ⟨c2, cs, ta, b, h⟩ := calibrationAdvance_frame (arrive (simAdvance d)) t
    obtain ⟨e1, -, -, -, -, -, e7, e8⟩ := arrive_simAdvance_status d
    rw [h]
    exact ⟨e1, e7, e8⟩
  · rw [hS]; exact ⟨rfl, rfl, rfl⟩
  · exact ⟨rfl, rfl, rfl⟩

/-- The status after a tick is the status after the tick's position refresh. -/
theorem TimerHit_status (d : State) (t : Tty) (hc : d.connected = true) :
    (TimerHit d t).1.status = (UpdatePosition d t).2.1.status ∧
    (TimerHit d t).1.sim = d.sim ∧ (TimerHit d t).1.connected = true := by
  obtain ⟨m1, -, -, -, -, m6, m7⟩ := TimerHit_motion_members d t hc
  obtain ⟨s1, s2, s3⟩ := timerMotion_status (UpdatePosition d t).2.1 (UpdatePosition d t).2.2
  obtain ⟨-, -, k3, k4⟩ := UpdatePosition_keeps d t
  exact ⟨m1.trans s1, (m6.trans s2).trans k3, ((m7.trans s3).trans k4).trans hc⟩

/-- A connected driver that is Ready stays Ready under any number of ticks. -/
theorem ticks_ready (n : Nat) (d : State) (t : Tty) (hc : d.connected = true)
    (hr : d.status = DOME_READY) : (ticks n d t).1.status = DOME_READY := by
  induction n generalizing d t with
  | zero => exact hr
  | succ n ih =>
    obtain ⟨h1, -, h3⟩ := TimerHit_status d t hc
    have hr1 : (TimerHit d t).1.status = DOME_READY := by
      rw [h1]
      rcases UpdatePosition_status d t with ⟨h, _⟩ | h
      · rw [h]; exact hr
      · exact h
    exact ih (TimerHit d t).1 (TimerHit d t).2 h3 hr1

/-- The tick of a simulated driver that detects Stage3 arrival ends with the stage
Complete and the status still Calibrating. -/
theorem stage3_arrival_tick (d : State) (t : Tty) (hsim : d.sim = true)
    (hs : d.status = DOME_CALIBRATING) (hst : d.calibrationStage = CALIBRATION_STAGE3)
    (harr : arrivalDetected d t) :
    (TimerHit d t).1.calibrationStage = CALIBRATION_COMPLETE ∧
    (TimerHit d t).1.status = DOME_CALIBRATING ∧
    (TimerHit d t).1.sim = true ∧ (TimerHit d t).1.connected = true := by
  have hu : ¬ (d.status = DOME_READY ∨ d.calibrationStage = CALIBRATION_COMPLETE) := by
    rw [hs, hst]; decide
  have hU := UpdatePosition_sim_unsynced d t hsim hu
  have p1 : (UpdatePosition d t).2.1.status = DOME_CALIBRATING := by rw [hU]; exact hs
  have p2 : (UpdatePosition d t).2.1.calibrationStage = CALIBRATION_STAGE3 := by
    rw [hU]; exact hst
  obtain ⟨-, m2, -, -, -, -, -⟩ := TimerHit_motion_members d t harr.1
  obtain ⟨e1, e2, -, -, -, -, -, -⟩ := arrive_simAdvance_status (UpdatePosition d t).2.1
  obtain ⟨h1, h2, h3⟩ := TimerHit_status d t harr.1
  rw [timerMotion_arrival d t harr,
    calibrationAdvance_stage3 _ _ (e1.trans p1) (e2.trans p2)] at m2
  exact ⟨m2, h1.trans p1, h2.trans hsim, h3⟩

/-- The tick of a simulated driver that starts with the stage Complete and the status
Calibrating ends with the status Ready. -/
theorem complete_tick_ready (d : State) (t : Tty) (hsim : d.sim = true)
    (hc : d.connected = true) (hs : d.status = DOME_CALIBRATING)
    (hst : d.calibrationStage = CALIBRATION_COMPLETE) :
    (TimerHit d t).1.status = DOME_READY ∧ (TimerHit d t).1.connected = true := by
  obtain ⟨h1, -, h3⟩ := TimerHit_status d t hc
  refine ⟨?_, h3⟩
  rw [h1, UpdatePosition_sim_synced d t hsim (Or.inr hst)]
  simp [hs, hst]

/-- C6 (counterexample): the simulated calibration started at azimuth 10, in Stage3 at
azimuth 10.5. The tick advances to 10, detects Stage3 arrival and ends with the stage
Complete but with `DomeStatus = Calibrating`, not Ready. -/
theorem C6_not_ready_at_stage3_arrival :
    arrivalDetected (stage3State true (21 / 2)) idleTty ∧
    (stage3State true (21 / 2)).status = DOME_CALIBRATING ∧
    (stage3State true (21 / 2)).calibrationStage = CALIBRATION_STAGE3 ∧
    (TimerHit (stage3State true (21 / 2)) idleTty).1.status = DOME_CALIBRATING ∧
    ¬ ((TimerHit (stage3State true (21 / 2)) idleTty).1.status = DOME_READY ∧
       (TimerHit (stage3State true (21 / 2)) idleTty).1.calibrationStage = CALIBRATION_COMPLETE) := by
  have a3 : arrivalDetected (stage3State true (21 / 2)) idleTty := by
    refine ⟨rfl, rfl, ?_⟩
    rw [tickAzimuth_stage3]; norm_num [stage3State, stage2State, stage1State, initialState]
  have h := stage3_arrival_tick (stage3State true (21 / 2)) idleTty rfl rfl rfl a3
  refine ⟨a3, rfl, rfl, h.2.1, ?_⟩
  rw [h.2.1]
  exact fun hc => absurd hc.1 (by decide)

/-- C6 (amended): for a calibration run in simulation mode, at the end of the poller tick
that detects Stage3 arrival the stage is Complete while `DomeStatus` is still Calibrating;
at the end of every later tick, as long as no further request is made, `DomeStatus = Ready`
holds. -/
theorem C6_complete_then_ready (d : State) (t : Tty) (hsim : d.sim = true)
    (hs : d.status = DOME_CALIBRATING) (hst : d.calibrationStage = CALIBRATION_STAGE3)
    (harr : arrivalDetected d t) :
    (TimerHit d t).1.calibrationStage = CALIBRATION_COMPLETE ∧
    (TimerHit d t).1.status = DOME_CALIBRATING ∧
    ∀ n, 1 ≤ n → (ticks n (TimerHit d t).1 (TimerHit d t).2).1.status = DOME_READY := by
  obtain ⟨h1, h2, h3, h4⟩ := stage3_arrival_tick d t hsim hs hst harr
  refine ⟨h1, h2, ?_⟩
  intro n hn
  obtain ⟨k, rfl⟩ : ∃ k, n = k + 1 := ⟨n - 1, by omega⟩
  obtain ⟨r1, r2⟩ := complete_tick_ready (TimerHit d t).1 (TimerHit d t).2 h3 h4 h2 h1
  exact ticks_ready k _ _ r2 r1

/-- C6 (amended) on the simulated calibration started at azimuth 10, in Stage3 at azimuth
10.5: the arrival tick ends Calibrating and Complete, the ticks after it end Ready. -/
theorem C6_complete_then_ready_witness :
    (TimerHit (stage3State true (21 / 2)) idleTty).1.calibrationStage = CALIBRATION_COMPLETE ∧
    (TimerHit (stage3State true (21 / 2)) idleTty).1.status = DOME_CALIBRATING ∧
    (ticks 1 (TimerHit (stage3State true (21 / 2)) idleTty).1
      (TimerHit (stage3State true (21 / 2)) idleTty).2).1.status = DOME_READY ∧
    (ticks 3 (TimerHit (stage3State true (21 / 2)) idleTty).1
      (TimerHit (stage3State true (21 / 2)) idleTty).2).1.status = DOME_READY := by
  have a3 : arrivalDetected (stage3State true (21 / 2)) idleTty := by
    refine ⟨rfl, rfl, ?_⟩
    rw [tickAzimuth_stage3]; norm_num [stage3State, stage2State, stage1State, initialState]
  have h := C6_complete_then_ready (stage3State true (21 / 2)) idleTty rfl rfl rfl a3
  exact ⟨h.1, h.2.1, h.2.2 1 (by decide), h.2.2 3 (by decide)⟩

/-! ## C9: failure of a move inside the calibration -/

/-- The line after the calibration bookkeeping on Stage1 arrival is the line after its
`MoveAbsDome` call. -/
theorem calibrationAdvance_stage1_tty (d : State) (t : Tty) (h : d.status = DOME_CALIBRATING)
    (hs : d.calibrationStage = CALIBRATION_STAGE1) :
    (calibrationAdvance d t).2 =
      (MoveAbsDome { d with calibrationTarget2 := d.DomeAbsPosN_value + 2,
                            calibrationStage := CALIBRATION_STAGE2 } t
        (d.DomeAbsPosN_value + 2)).2.2 := by
  simp only [calibrationAdvance, h, hs, if_true]

/-- A status refresh on a real line that delivers nothing changes no member. -/
theorem UpdateShutterStatus_timeout (d : State) (t : Tty) (hsim : d.sim = false)
    (h : t.replies = []) :
    UpdateShutterStatus d t =
      (false, d, { t with written := t.written ++ ["d#getshut".toList] }) := by
  simp only [UpdateShutterStatus, hsim, exchange_nil _ _ t h]
  rfl

/-- A flap refresh on a real line that delivers nothing changes no member. -/
theorem UpdateFlapStatus_timeout (d : State) (t : Tty) (hsim : d.sim = false)
    (h : t.replies = []) :
    UpdateFlapStatus d t =
      (false, d, { t with written := t.written ++ ["d#getflap".toList] }) := by
  simp only [UpdateFlapStatus, hsim, exchange_nil _ _ t h]
  rfl

/-- Outside simulation mode the shutter countdown does nothing. -/
theorem timerShutter_real (d : State) (h : d.sim = false) : timerShutter d = d := by
  simp [timerShutter, h]

/-- Outside simulation mode the flap countdown does nothing. -/
theorem timerFlap_real (d : State) (h : d.sim = false) : timerFlap d = d := by
  simp [timerFlap, h]

/-- The rest of a tick on a real line that delivers nothing more: two status queries are
written and no member changes. -/
theorem TimerHit_tail_timeout (d : State) (t : Tty) (hsim : d.sim = false)
    (h : t.replies = []) :
    (timerFlap (UpdateFlapStatus (timerShutter (UpdateShutterStatus d t).2.1)
        (UpdateShutterStatus d t).2.2).2.1,
      (UpdateFlapStatus (timerShutter (UpdateShutterStatus d t).2.1)
        (UpdateShutterStatus d t).2.2).2.2) =
    (d, { t with written := t.written ++ ["d#getshut".toList, "d#getflap".toList] }) := by
  rw [UpdateShutterStatus_timeout d t hsim h]
  simp only []
  rw [timerShutter_real d hsim,
    UpdateFlapStatus_timeout d { t with written := t.written ++ ["d#getshut".toList] } hsim h]
  simp only []
  rw [timerFlap_real d hsim]
  simp

/-- The position refresh of the failing tick: the device reports 0090, azimuth 189. -/
theorem UpdatePosition_at_189 :
    UpdatePosition (stage1State false 180)
        (scriptedTty [TtyReply.data "d#azi0090".toList, TtyReply.writeError]) =
      (true, stage1State false 189, usedTty ["d#getazim"] [TtyReply.writeError]) := by
  have s1 : sscanf_hu "d#azr".toList (cstr "d#azi0090".toList) = none := by decide
  have s2 : sscanf_hu "d#azi".toList (cstr "d#azi0090".toList) = some 90 := by decide
  have s3 : DomeAzToMountAz 90 = 189 := by norm_num [DomeAzToMountAz]
  simp only [UpdatePosition]
  rw [show (stage1State false 180).sim = false from rfl,
    exchange_data _ _ "d#azi0090".toList _ [TtyReply.writeError] rfl]
  simp only [s1, s2, s3]
  rfl

/-- The Stage2 move of the failing tick: `tty_write` fails and `MoveAbsDome` returns 0. -/
theorem MoveAbsDome_at_191 :
    MoveAbsDome stage2CallState (usedTty ["d#getazim"] [TtyReply.writeError]) 191 =
      (0, { stage2CallState with targetAz := 191 },
       usedTty ["d#getazim", "d#azi0110"] []) := by
  have hm : MountAzToDomeAz 191 = 110 := by
    have h := MountAzToDomeAz_natCast 191 (by decide)
    norm_num at h
    exact h
  have hf : ("d#azi".toList ++ fmt04d 110).take DOME_CMD = "d#azi0110".toList := by decide
  simp only [MoveAbsDome]
  rw [if_neg (by decide)]
  simp only [hm]
  rw [show stage2CallState.sim = false from rfl, exchange_writeError _ _ _ [] rfl, hf]
  rfl

/-- The motion part of the failing tick: arrival at 189 is detected, the stage becomes
Stage2, the target 191, and the move is marked busy although its command was not sent. -/
theorem timerMotion_at_189 :
    timerMotion (stage1State false 189) (usedTty ["d#getazim"] [TtyReply.writeError]) =
      (stage2EntryState, usedTty ["d#getazim", "d#azi0110"] []) := by
  have hs : simAdvance (stage1State false 189) = stage1State false 189 := by
    simp [simAdvance, stage1State, initialState]
  have ha : arrive (stage1State false 189) =
      { stage1State false 189 with DomeAbsPosNP_s := IPS_OK } := by
    simp [arrive, stage1State, initialState]
  have hv : (189 : ℚ) + 2 = 191 := by norm_num
  have hlt : |(stage1State false 189).targetAz - (stage1State false 189).DomeAbsPosN_value|
      < (stage1State false 189).DomeParamN_AUTOSYNC := by
    norm_num [stage1State, initialState]
  have hc : calibrationAdvance { stage1State false 189 with DomeAbsPosNP_s := IPS_OK }
      (usedTty ["d#getazim"] [TtyReply.writeError]) =
      ({ (MoveAbsDome stage2CallState (usedTty ["d#getazim"] [TtyReply.writeError]) 191).2.1
           with DomeAbsPosNP_s := IPS_BUSY },
       (MoveAbsDome stage2CallState (usedTty ["d#getazim"] [TtyReply.writeError]) 191).2.2) := by
    have h1 : (stage1State false 189).status = DOME_CALIBRATING := rfl
    have h2 : (stage1State false 189).calibrationStage = CALIBRATION_STAGE1 := rfl
    have h3 : (stage1State false 189).DomeAbsPosN_value = 189 := rfl
    simp only [calibrationAdvance, h1, h2, h3, hv, if_true]
    rfl
  have hb : (stage1State false 189).DomeAbsPosNP_s = IPS_BUSY := rfl
  rw [timerMotion_eq, if_pos hb, hs, if_pos hlt, ha, hc, MoveAbsDome_at_191]
  rfl

/-- C9 (the code at the failing input): the driver is on a real line in Stage1 of a
calibration, target 189, last seen at azimuth 180. In this tick the device reports azimuth
189 ("d#azi0090"), so arrival is detected, and the write of the Stage2 move command
"d#azi0110" fails: `MoveAbsDome` returns 0. `TimerHit` does not use that value: after the
tick `DomeStatus` is still Calibrating, the stage is Stage2 and the move is marked busy,
where the claim has the calibration aborted and `DomeStatus = Unknown`. -/
theorem C9_stage2_move_failure_ignored :
    (MoveAbsDome stage2CallState (usedTty ["d#getazim"] [TtyReply.writeError]) 191).1 = 0 ∧
    TimerHit (stage1State false 180)
        (scriptedTty [TtyReply.data "d#azi0090".toList, TtyReply.writeError]) =
      (stage2EntryState,
       usedTty ["d#getazim", "d#azi0110", "d#getshut", "d#getflap"] []) ∧
    stage2EntryState.status = DOME_CALIBRATING ∧
    stage2EntryState.calibrationStage = CALIBRATION_STAGE2 ∧
    stage2EntryState.DomeAbsPosNP_s = IPS_BUSY := by
  refine ⟨by rw [MoveAbsDome_at_191], ?_, rfl, rfl, rfl⟩
  simp only [TimerHit]
  rw [if_neg (by decide), UpdatePosition_at_189]
  simp only [timerMotion_at_189]
  rw [TimerHit_tail_timeout _ _ rfl rfl]
  rfl

/-! ## C10: arrival tolerance -/

/-- C10: in a poller tick with a move in progress and no calibration active, the move is
marked complete (the motion state leaves busy and the current azimuth is set to
`targetAz`) if and only if `|targetAz - current| < tolerance`, where `current` is the
azimuth after that tick's refresh and simulated advance; when the difference equals the
tolerance exactly the move stays in progress. -/
theorem C10_arrival_iff_within_tolerance (d : State) (t : Tty)
    (hc : d.connected = true) (hb : d.DomeAbsPosNP_s = IPS_BUSY)
    (hn : d.status ≠ DOME_CALIBRATING) :
    (((TimerHit d t).1.DomeAbsPosNP_s ≠ IPS_BUSY ∧
        (TimerHit d t).1.DomeAbsPosN_value = (TimerHit d t).1.targetAz) ↔
      |d.targetAz - tickAzimuth d t| < d.DomeParamN_AUTOSYNC) ∧
    (|d.targetAz - tickAzimuth d t| < d.DomeParamN_AUTOSYNC →
      (TimerHit d t).1.DomeAbsPosNP_s = IPS_OK) ∧
    (|d.targetAz - tickAzimuth d t| = d.DomeParamN_AUTOSYNC →
      (TimerHit d t).1.DomeAbsPosNP_s = IPS_BUSY ∧
      (TimerHit d t).1.DomeAbsPosN_value = tickAzimuth d t) ∧
    (TimerHit d t).1.targetAz = d.targetAz := by
  obtain ⟨a1, a2, a3, a4, a5, a6, b1, b2, b3, b4, b5, b6, hT⟩ := TimerHit_frame d t hc
  have hm := timerMotion_tick d t
  rw [if_pos hb] at hm
  have hn1 : (UpdatePosition d t).2.1.status ≠ DOME_CALIBRATING := by
    rcases UpdatePosition_status d t with ⟨h, _⟩ | h
    · rw [h]; exact hn
    · rw [h]; decide
  obtain ⟨s, c, cs, v, hU⟩ := UpdatePosition_frame d t
  have hUt : (UpdatePosition d t).2.1.targetAz = d.targetAz := by rw [hU]
  have hUb : (UpdatePosition d t).2.1.DomeAbsPosNP_s = d.DomeAbsPosNP_s := by rw [hU]
  have hS := simAdvance_frame (UpdatePosition d t).2.1
  by_cases harr : |d.targetAz - tickAzimuth d t| < d.DomeParamN_AUTOSYNC
  · rw [if_pos harr] at hm
    obtain ⟨e1, -, e3, e4, -, e6, -, -⟩ := arrive_simAdvance_status (UpdatePosition d t).2.1
    rw [calibrationAdvance_idle _ _ (by rw [e1]; exact hn1)] at hm
    rw [hm] at hT
    have r1 : (TimerHit d t).1.DomeAbsPosNP_s = IPS_OK := by rw [hT]; exact e6
    have r2 : (TimerHit d t).1.DomeAbsPosN_value = d.targetAz := by
      rw [hT]; exact e3.trans hUt
    have r3 : (TimerHit d t).1.targetAz = d.targetAz := by rw [hT]; exact e4.trans hUt
    refine ⟨⟨fun _ => harr, fun _ => ⟨by rw [r1]; decide, by rw [r2, r3]⟩⟩, fun _ => r1,
      fun he => absurd harr (by rw [he]; exact lt_irrefl _), r3⟩
  · rw [if_neg harr] at hm
    rw [hm] at hT
    have r1 : (TimerHit d t).1.DomeAbsPosNP_s = IPS_BUSY := by
      rw [hT]; show (simAdvance (UpdatePosition d t).2.1).DomeAbsPosNP_s = IPS_BUSY
      rw [hS]; exact hUb.trans hb
    have r2 : (TimerHit d t).1.DomeAbsPosN_value = tickAzimuth d t := by rw [hT]; rfl
    have r3 : (TimerHit d t).1.targetAz = d.targetAz := by
      rw [hT]; show (simAdvance (UpdatePosition d t).2.1).targetAz = d.targetAz
      rw [hS]; exact hUt
    refine ⟨⟨fun h => absurd r1 h.1, fun h => absurd h harr⟩, fun h => absurd h harr,
      fun _ => ⟨r1, r2⟩, r3⟩

/-- A calibrated simulated dome at 100 moving to 101 advances by the low speed to 100.5. -/
theorem tickAzimuth_moving_to_101 :
    tickAzimuth (movingState true 100 101) idleTty = 201 / 2 := by
  rw [tickAzimuth, UpdatePosition_sim_ready _ _ rfl rfl (by decide)]
  have h := DomeAzToMountAz_MountAzToDomeAz_natCast 100 (by decide)
  norm_num at h
  norm_num [movingState, initialState, simAdvance, h, SIM_DOME_HI_SPEED, SIM_DOME_LO_SPEED]

/-- A calibrated simulated dome at 100 with target 100 stays at 100. -/
theorem tickAzimuth_moving_to_100 :
    tickAzimuth (movingState true 100 100) idleTty = 100 := by
  rw [tickAzimuth, UpdatePosition_sim_ready _ _ rfl rfl (by decide)]
  have h := DomeAzToMountAz_MountAzToDomeAz_natCast 100 (by decide)
  norm_num at h
  norm_num [movingState, initialState, simAdvance, h, SIM_DOME_HI_SPEED, SIM_DOME_LO_SPEED]

/-- C10 on the calibrated simulated driver with tolerance 0.5: moving from 100 to 101 the
tick reaches 100.5, the difference equals the tolerance and the move stays busy; with the
target 100 the difference is 0 and the move is marked complete. -/
theorem C10_arrival_iff_within_tolerance_witness :
    ((TimerHit (movingState true 100 101) idleTty).1.DomeAbsPosNP_s = IPS_BUSY ∧
      (TimerHit (movingState true 100 101) idleTty).1.DomeAbsPosN_value = 201 / 2) ∧
    ((TimerHit (movingState true 100 100) idleTty).1.DomeAbsPosNP_s ≠ IPS_BUSY ∧
      (TimerHit (movingState true 100 100) idleTty).1.DomeAbsPosN_value =
        (TimerHit (movingState true 100 100) idleTty).1.targetAz) := by
  have h1 := C10_arrival_iff_within_tolerance (movingState true 100 101) idleTty rfl rfl
    (by decide)
  have h2 := C10_arrival_iff_within_tolerance (movingState true 100 100) idleTty rfl rfl
    (by decide)
  rw [tickAzimuth_moving_to_101] at h1
  rw [tickAzimuth_moving_to_100] at h2
  exact ⟨h1.2.2.1 (by norm_num [movingState, initialState]),
    h2.1.mpr (by norm_num [movingState, initialState])⟩

/-! ## The position refresh on a real line -/

/-- A nine-byte command is handed to `tty_write` whole. -/
theorem take_getazim : ("d#getazim".toList).take DOME_CMD = "d#getazim".toList := by decide

/-- On a real line, the unsynced reply "d#azi" with the four digits of `n`: only the current
azimuth changes, and only the query is written. -/
theorem UpdatePosition_real_azi (d : State) (t : Tty) (n : Nat) (rest : List TtyReply)
    (hsim : d.sim = false) (hn : n < 10000)
    (hrep : t.replies = TtyReply.data ("d#azi".toList ++ fmt04d n) :: rest) :
    UpdatePosition d t =
      (true, { d with DomeAbsPosN_value := DomeAzToMountAz n },
       { t with replies := rest, written := t.written ++ ["d#getazim".toList] }) := by
  simp only [UpdatePosition, hsim, exchange_data _ _ _ t rest hrep, sscanf_azr_azi n hn,
    sscanf_azi_azi n hn, take_getazim]

/-- On a real line, the synced reply "d#azr" with the four digits of `n`: the branches of
lines 535-550 apply, the current azimuth is set, and only the query is written. -/
theorem UpdatePosition_real_azr (d : State) (t : Tty) (n : Nat) (rest : List TtyReply)
    (hsim : d.sim = false) (hn : n < 10000)
    (hrep : t.replies = TtyReply.data ("d#azr".toList ++ fmt04d n) :: rest) :
    UpdatePosition d t =
      (true,
       { (if d.calibrationStage = CALIBRATION_UNKNOWN then
            { d with status := DOME_READY, calibrationStage := CALIBRATION_COMPLETE,
                     CalibrateSP_s := IPS_OK }
          else if d.status = DOME_CALIBRATING then
            { d with status := DOME_READY, calibrationStage := CALIBRATION_STAGE1,
                     CalibrateSP_s := IPS_OK }
          else d) with
         DomeAbsPosN_value := DomeAzToMountAz n },
       { t with replies := rest, written := t.written ++ ["d#getazim".toList] }) := by
  simp only [UpdatePosition, hsim, exchange_data _ _ _ t rest hrep, sscanf_azr_azr n hn,
    take_getazim]

/-! ## C19, C20: device values and mount azimuths -/

/-- Mount to device and back is the identity on the multiples of 0.1 in [0, 360). -/
theorem DomeAzToMountAz_MountAzToDomeAz_tenths (k : Nat) (hk : k < 3600) :
    DomeAzToMountAz (MountAzToDomeAz ((k : ℚ) / 10)) = (k : ℚ) / 10 ∧
    MountAzToDomeAz ((k : ℚ) / 10) = (if k ≤ 1799 then k + 1800 else k - 1800) := by
  have hm : MountAzToDomeAz ((k : ℚ) / 10) = (if k ≤ 1799 then k + 1800 else k - 1800) := by
    have h := MountAzToDomeAz_tenths (k : Int)
    rw [Int.cast_natCast] at h
    rw [h]
    split_ifs <;> omega
  refine ⟨?_, hm⟩
  rw [hm]
  by_cases h : k ≤ 1799
  · rw [if_pos h, DomeAzToMountAz_eq _ (by omega), if_neg (by omega)]
    push_cast
    ring
  · rw [if_neg h, DomeAzToMountAz_eq _ (by omega), if_pos (by omega)]
    have h2 : 1800 ≤ k := by omega
    push_cast [Nat.cast_sub h2]
    ring

/-- The mount azimuth of a device value up to 3599 is a multiple of 0.1 in [0, 360). -/
theorem DomeAzToMountAz_range (d : Nat) (hd : d ≤ 3599) :
    0 ≤ DomeAzToMountAz d ∧ DomeAzToMountAz d < 360 ∧
    ∃ k : Nat, k < 3600 ∧ DomeAzToMountAz d = (k : ℚ) / 10 := by
  rw [DomeAzToMountAz_eq d (by omega)]
  have h0 : (0 : ℚ) ≤ d := by positivity
  have h1 : (d : ℚ) ≤ 3599 := by exact_mod_cast hd
  by_cases h : d < 1800
  · rw [if_pos h]
    have h2 : (d : ℚ) < 1800 := by exact_mod_cast h
    refine ⟨by positivity, ?_, d + 1800, by omega, by push_cast; ring⟩
    rw [div_lt_iff₀ (by norm_num)]; linarith
  · rw [if_neg h]
    have h2 : (1800 : ℚ) ≤ d := by exact_mod_cast (not_lt.mp h)
    refine ⟨div_nonneg (by linarith) (by norm_num), ?_, d - 1800, by omega, ?_⟩
    · rw [div_lt_iff₀ (by norm_num)]; linarith
    · have h3 : 1800 ≤ d := by omega
      push_cast [Nat.cast_sub h3]
      ring

/-- The shutter refresh by the string `sscanf` reads after the prefix. -/
theorem UpdateShutterStatus_word (d : State) (t : Tty) (resp status : List Char)
    (hx : (exchange d.sim "d#getshut".toList (simShutterResp d t) t).1 = some resp)
    (hs : sscanf_s "d#shut".toList resp = some status) :
    UpdateShutterStatus d t =
      (true,
       (if status = "ope".toList then
          { d with DomeShutterSP_s := IPS_OK, DomeShutterS_CLOSE := ISS_OFF,
                   shutterStatus := SHUTTER_OPENED, DomeShutterS_OPEN := ISS_ON }
        else if status = "clo".toList then
          { d with DomeShutterSP_s := IPS_OK, DomeShutterS_OPEN := ISS_OFF,
                   shutterStatus := SHUTTER_CLOSED, DomeShutterS_CLOSE := ISS_ON }
        else if status = "run".toList then
          { d with DomeShutterS_OPEN := ISS_OFF, DomeShutterS_CLOSE := ISS_OFF,
                   shutterStatus := SHUTTER_MOVING, DomeShutterSP_s := IPS_BUSY }
        else
          { d with DomeShutterS_OPEN := ISS_OFF, DomeShutterS_CLOSE := ISS_OFF,
                   shutterStatus := SHUTTER_UNKNOWN, DomeShutterSP_s := IPS_ALERT }),
       (exchange d.sim "d#getshut".toList (simShutterResp d t) t).2) := by
  simp only [UpdateShutterStatus, hx, hs]
  split_ifs <;> rfl

/-- The flap refresh by the string `sscanf` reads after the prefix. -/
theorem UpdateFlapStatus_word (d : State) (t : Tty) (resp status : List Char)
    (hx : (exchange d.sim "d#getflap".toList (simFlapResp d t) t).1 = some resp)
    (hs : sscanf_s "d#flap".toList resp = some status) :
    UpdateFlapStatus d t =
      (true,
       (if status = "ope".toList then
          { d with DomeFlapSP_s := IPS_OK, DomeFlapS_CLOSE := ISS_OFF,
                   flapStatus := FLAP_OPENED, DomeFlapS_OPEN := ISS_ON }
        else if status = "clo".toList then
          { d with DomeFlapSP_s := IPS_OK, DomeFlapS_OPEN := ISS_OFF,
                   flapStatus := FLAP_CLOSED, DomeFlapS_CLOSE := ISS_ON }
        else if status = "run".toList then
          { d with DomeFlapS_OPEN := ISS_OFF, DomeFlapS_CLOSE := ISS_OFF,
                   flapStatus := FLAP_MOVING, DomeFlapSP_s := IPS_BUSY }
        else
          { d with DomeFlapS_OPEN := ISS_OFF, DomeFlapS_CLOSE := ISS_OFF,
                   flapStatus := FLAP_UNKNOWN, DomeFlapSP_s := IPS_ALERT }),
       (exchange d.sim "d#getflap".toList (simFlapResp d t) t).2) := by
  simp only [UpdateFlapStatus, hx, hs]
  split_ifs <;> rfl

/-- C12: for every prior state, in either mode, `UpdateShutterStatus` on the response
"d#shutope", "d#shutclo", "d#shutrun" returns true and sets `shutterStatus` to Opened,
Closed, Moving, and `UpdateFlapStatus` does the same on "d#flapope", "d#flapclo",
"d#flaprun"; previous status and target play no part. -/
theorem C12_status_from_suffix (d : State) (t : Tty) (resp : List Char) :
    ((exchange d.sim "d#getshut".toList (simShutterResp d t) t).1 = some resp →
      (resp = "d#shutope".toList →
        (UpdateShutterStatus d t).1 = true ∧
        (UpdateShutterStatus d t).2.1.shutterStatus = SHUTTER_OPENED) ∧
      (resp = "d#shutclo".toList →
        (UpdateShutterStatus d t).1 = true ∧
        (UpdateShutterStatus d t).2.1.shutterStatus = SHUTTER_CLOSED) ∧
      (resp = "d#shutrun".toList →
        (UpdateShutterStatus d t).1 = true ∧
        (UpdateShutterStatus d t).2.1.shutterStatus = SHUTTER_MOVING)) ∧
    ((exchange d.sim "d#getflap".toList (simFlapResp d t) t).1 = some resp →
      (resp = "d#flapope".toList →
        (UpdateFlapStatus d t).1 = true ∧
        (UpdateFlapStatus d t).2.1.flapStatus = FLAP_OPENED) ∧
      (resp = "d#flapclo".toList →
        (UpdateFlapStatus d t).1 = true ∧
        (UpdateFlapStatus d t).2.1.flapStatus = FLAP_CLOSED) ∧
      (resp = "d#flaprun".toList →
        (UpdateFlapStatus d t).1 = true ∧
        (UpdateFlapStatus d t).2.1.flapStatus = FLAP_MOVING)) := by
  constructor
  · intro hx
    refine ⟨fun h => ?_, fun h => ?_, fun h => ?_⟩
    · rw [UpdateShutterStatus_word d t resp "ope".toList hx (by rw [h]; decide)]
      exact ⟨rfl, rfl⟩
    · rw [UpdateShutterStatus_word d t resp "clo".toList hx (by rw [h]; decide)]
      exact ⟨rfl, rfl⟩
    · rw [UpdateShutterStatus_word d t resp "run".toList hx (by rw [h]; decide)]
      exact ⟨rfl, rfl⟩
  · intro hx
    refine ⟨fun h => ?_, fun h => ?_, fun h => ?_⟩
    · rw [UpdateFlapStatus_word d t resp "ope".toList hx (by rw [h]; decide)]
      exact ⟨rfl, rfl⟩
    · rw [UpdateFlapStatus_word d t resp "clo".toList hx (by rw [h]; decide)]
      exact ⟨rfl, rfl⟩
    · rw [UpdateFlapStatus_word d t resp "run".toList hx (by rw [h]; decide)]
      exact ⟨rfl, rfl⟩

/-- C12 on a real line: a driver whose shutter is known closed, target close, reads
"d#shutope" and reports Opened. -/
theorem C12_status_from_suffix_witness :
    (UpdateShutterStatus (stage1State false 40)
        (scriptedTty [TtyReply.data "d#shutope".toList])).1 = true ∧
    (UpdateShutterStatus (stage1State false 40)
        (scriptedTty [TtyReply.data "d#shutope".toList])).2.1.shutterStatus =
      SHUTTER_OPENED :=
  (C12_status_from_suffix (stage1State false 40)
    (scriptedTty [TtyReply.data "d#shutope".toList]) "d#shutope".toList).1
    (by rw [show (stage1State false 40).sim = false from rfl,
          exchange_data _ _ "d#shutope".toList _ [] rfl]; decide)
    |>.1 rfl

/-! ## C15: synced and unsynced position replies -/

/-- C15: on a real line, `UpdatePosition` on the synced reply "d#azrNNNN" received while the
stage is Unknown returns true, sets `DomeStatus = Ready` and the stage Complete (and the
calibration control to ok), sets the current azimuth to `DomeAzToMountAz NNNN`, writes
only the query "d#getazim" and leaves `targetAz` and all other members unchanged; on the
unsynced reply "d#aziNNNN" it only sets the current azimuth to `DomeAzToMountAz NNNN`. -/
theorem C15_synced_and_unsynced_reply (d : State) (t : Tty) (n : Nat)
    (rest : List TtyReply) (hsim : d.sim = false) (hn : n < 10000) :
    (t.replies = TtyReply.data ("d#azr".toList ++ fmt04d n) :: rest →
      d.calibrationStage = CALIBRATION_UNKNOWN →
      UpdatePosition d t =
        (true,
         { d with status := DOME_READY, calibrationStage := CALIBRATION_COMPLETE,
                  CalibrateSP_s := IPS_OK, DomeAbsPosN_value := DomeAzToMountAz n },
         { t with replies := rest, written := t.written ++ ["d#getazim".toList] }) ∧
      (UpdatePosition d t).2.1.targetAz = d.targetAz) ∧
    (t.replies = TtyReply.data ("d#azi".toList ++ fmt04d n) :: rest →
      UpdatePosition d t =
        (true, { d with DomeAbsPosN_value := DomeAzToMountAz n },
         { t with replies := rest, written := t.written ++ ["d#getazim".toList] }) ∧
      (UpdatePosition d t).2.1.status = d.status ∧
      (UpdatePosition d t).2.1.calibrationStage = d.calibrationStage ∧
      (UpdatePosition d t).2.1.targetAz = d.targetAz) := by
  constructor
  · intro hrep hst
    have h := UpdatePosition_real_azr d t n rest hsim hn hrep
    rw [if_pos hst] at h
    rw [h]
    exact ⟨rfl, rfl⟩
  · intro hrep
    rw [UpdatePosition_real_azi d t n rest hsim hn hrep]
    exact ⟨rfl, rfl, rfl, rfl⟩

/-- C15 on the freshly constructed driver on a real line: the reply "d#azr1800" makes it
Ready and Complete at azimuth 0 with the target untouched; the reply "d#azi1800" leaves it
Unknown. -/
theorem C15_synced_and_unsynced_reply_witness :
    ((UpdatePosition (initialState false 10)
        (scriptedTty [TtyReply.data "d#azr1800".toList])).2.1.status = DOME_READY ∧
      (UpdatePosition (initialState false 10)
        (scriptedTty [TtyReply.data "d#azr1800".toList])).2.1.calibrationStage =
        CALIBRATION_COMPLETE ∧
      (UpdatePosition (initialState false 10)
        (scriptedTty [TtyReply.data "d#azr1800".toList])).2.1.DomeAbsPosN_value =
        DomeAzToMountAz 1800 ∧
      (UpdatePosition (initialState false 10)
        (scriptedTty [TtyReply.data "d#azr1800".toList])).2.2.written =
        ["d#getazim".toList]) ∧
    ((UpdatePosition (initialState false 10)
        (scriptedTty [TtyReply.data "d#azi1800".toList])).2.1.status = DOME_UNKNOWN ∧
      (UpdatePosition (initialState false 10)
        (scriptedTty [TtyReply.data "d#azi1800".toList])).2.1.DomeAbsPosN_value =
        DomeAzToMountAz 1800) := by
  have h1 := (C15_synced_and_unsynced_reply (initialState false 10)
    (scriptedTty [TtyReply.data "d#azr1800".toList]) 1800 [] rfl (by decide)).1
    (by decide) rfl
  have h2 := (C15_synced_and_unsynced_reply (initialState false 10)
    (scriptedTty [TtyReply.data "d#azi1800".toList]) 1800 [] rfl (by decide)).2
    (by decide)
  rw [h1.1, h2.1]
  exact ⟨⟨rfl, rfl, rfl, rfl⟩, rfl, rfl⟩

/-! ## C17: the move command -/

/-- A nine-byte response reads as "d#gotmess" exactly when it is "d#gotmess". -/
theorem cstr_eq_gotmess (resp : List Char) (h : resp.length = 9) :
    cstr resp = "d#gotmess".toList ↔ resp = "d#gotmess".toList := by
  constructor
  · intro hc
    have ht : resp.take DOME_CMD = resp := List.take_of_length_le (by rw [h]; decide)
    have hp : cstr resp <+: resp := by
      unfold cstr
      rw [ht]
      exact List.takeWhile_prefix _
    have hl : (cstr resp).length = resp.length := by rw [hc, h]; decide
    rw [← hc]
    exact (hp.eq_of_length hl).symm
  · intro hr
    rw [hr]
    decide

/-- The move command for a device value up to 3599: "d#azi" and four digits, nine bytes,
handed to `tty_write` whole. -/
theorem move_command (n : Nat) (hn : n ≤ 3599) :
    ("d#azi".toList ++ fmt04d n).take DOME_CMD =
      "d#azi".toList ++
        [digitChar (n / 1000), digitChar (n / 100), digitChar (n / 10), digitChar n] ∧
    ("d#azi".toList ++
        [digitChar (n / 1000), digitChar (n / 100), digitChar (n / 10), digitChar n]).length
      = 9 := by
  rw [fmt04d_lt n (by omega)]
  exact ⟨rfl, rfl⟩

/-- C17: for every azimuth `az` passed to `MoveAbsDome` while `DomeStatus` is not Unknown,
`targetAz` is set to `az` and the device value `MountAzToDomeAz az` is in [0, 3599]. On a
real line the command handed to the byte channel is exactly nine bytes, "d#azi" followed
by the four zero-padded decimal digits of that value; the call returns 1 exactly when the
nine-byte response is "d#gotmess", and 0 when the write or the read fails. In simulation
mode nothing is handed to the line and the call returns 1. -/
theorem C17_move_command_and_result (d : State) (t : Tty) (az : ℚ)
    (hs : d.status ≠ DOME_UNKNOWN) :
    (MoveAbsDome d t az).2.1.targetAz = az ∧
    MountAzToDomeAz az ≤ 3599 ∧
    (d.sim = false →
      (MoveAbsDome d t az).2.2.written =
        t.written ++
          ["d#azi".toList ++
            [digitChar (MountAzToDomeAz az / 1000), digitChar (MountAzToDomeAz az / 100),
             digitChar (MountAzToDomeAz az / 10), digitChar (MountAzToDomeAz az)]] ∧
      ("d#azi".toList ++
            [digitChar (MountAzToDomeAz az / 1000), digitChar (MountAzToDomeAz az / 100),
             digitChar (MountAzToDomeAz az / 10), digitChar (MountAzToDomeAz az)]).length
        = 9 ∧
      scan_hu [digitChar (MountAzToDomeAz az / 1000), digitChar (MountAzToDomeAz az / 100),
               digitChar (MountAzToDomeAz az / 10), digitChar (MountAzToDomeAz az)]
        = some (MountAzToDomeAz az) ∧
      (∀ resp rest, t.replies = TtyReply.data resp :: rest → resp.length = 9 →
        ((MoveAbsDome d t az).1 = 1 ↔ resp = "d#gotmess".toList)) ∧
      ((t.replies = [] ∨ (∃ rest, t.replies = TtyReply.writeError :: rest) ∨
          (∃ rest, t.replies = TtyReply.readError :: rest)) →
        (MoveAbsDome d t az).1 = 0)) ∧
    (d.sim = true → MoveAbsDome d t az = (1, { d with targetAz := az }, t)) := by
  have hn := MountAzToDomeAz_le az
  obtain ⟨hcmd, hlen⟩ := move_command (MountAzToDomeAz az) hn
  have hscan := scan_hu_fmt04d (MountAzToDomeAz az) (by omega)
  rw [fmt04d_lt _ (by omega)] at hscan
  refine ⟨by rw [MoveAbsDome_state d t az hs], hn, ?_, fun hsim => MoveAbsDome_sim d t az hs hsim⟩
  intro hsim
  have hw : (MoveAbsDome d t az).2.2.written =
      t.written ++ [("d#azi".toList ++ fmt04d (MountAzToDomeAz az)).take DOME_CMD] := by
    rw [MoveAbsDome_tty d t az hs, hsim]
    rcases hr : t.replies with _ | ⟨r, rest⟩
    · rw [exchange_nil _ _ t hr]
    · cases r with
      | writeError => rw [exchange_writeError _ _ t rest hr]
      | readError => rw [exchange_readError _ _ t rest hr]
      | data resp => rw [exchange_data _ _ resp t rest hr]
  refine ⟨by rw [hw, hcmd], hlen, hscan, ?_, ?_⟩
  · intro resp rest hr hl
    rw [MoveAbsDome_code d t az hs, hsim, exchange_data _ _ resp t rest hr,
      ← cstr_eq_gotmess resp hl]
    simp only []
    split_ifs with h
    · exact ⟨fun _ => h, fun _ => rfl⟩
    · exact ⟨fun hc => absurd hc (by decide), fun hc => absurd hc h⟩
  · intro hf
    rw [MoveAbsDome_code d t az hs, hsim]
    rcases hf with h | ⟨rest, h⟩ | ⟨rest, h⟩
    · rw [exchange_nil _ _ t h]
    · rw [exchange_writeError _ _ t rest h]
    · rw [exchange_readError _ _ t rest h]

/-- C17 on a Ready driver on a real line asked to move to azimuth 189: the command is
"d#azi0090", and the call returns 1 on the response "d#gotmess". -/
theorem C17_move_command_and_result_witness :
    (MoveAbsDome (movingState false 100 101)
        (scriptedTty [TtyReply.data "d#gotmess".toList]) 189).2.2.written =
      ["d#azi0090".toList] ∧
    (MoveAbsDome (movingState false 100 101)
        (scriptedTty [TtyReply.data "d#gotmess".toList]) 189).1 = 1 ∧
    (MoveAbsDome (movingState false 100 101)
        (scriptedTty [TtyReply.data "d#gotmess".toList]) 189).2.1.targetAz = 189 := by
  have h := C17_move_command_and_result (movingState false 100 101)
    (scriptedTty [TtyReply.data "d#gotmess".toList]) 189 (by decide)
  have hm : MountAzToDomeAz 189 = 90 := by
    have e := MountAzToDomeAz_natCast 189 (by decide)
    norm_num at e
    exact e
  obtain ⟨h1, -, h3, -⟩ := h
  obtain ⟨w1, -, -, w4, -⟩ := h3 rfl
  refine ⟨?_, (w4 "d#gotmess".toList [] rfl rfl).mpr rfl, h1⟩
  rw [w1, hm]
  decide

/-! ## C14: the target of a relative move -/

theorem mod360_of_neg (x : ℚ) (h0 : -360 ≤ x) (h1 : x < 0) : mod360 x = x + 360 := by
  have hf : ⌊x / 360⌋ = -1 := by
    rw [Int.floor_eq_iff]
    constructor
    · simp only [Int.cast_neg, Int.cast_one]; rw [le_div_iff₀ (by norm_num)]; linarith
    · simp only [Int.cast_neg, Int.cast_one]; rw [div_lt_iff₀ (by norm_num)]; linarith
  simp only [mod360, hf]
  push_cast
  ring

/-- The target `MoveRelDome` leaves in the state, whatever `MoveAbsDome` then does. -/
theorem MoveRelDome_target (d : State) (t : Tty) (cw : Bool) (azDiff : ℚ) :
    (MoveRelDome d t cw azDiff).2.1.targetAz =
      (if (if d.DomeAbsPosN_value + azDiff * (if cw then 1 else -1) < d.DomeAbsPosN_min
           then d.DomeAbsPosN_value + azDiff * (if cw then 1 else -1) + d.DomeAbsPosN_max
           else d.DomeAbsPosN_value + azDiff * (if cw then 1 else -1)) > d.DomeAbsPosN_max
       then (if d.DomeAbsPosN_value + azDiff * (if cw then 1 else -1) < d.DomeAbsPosN_min
           then d.DomeAbsPosN_value + azDiff * (if cw then 1 else -1) + d.DomeAbsPosN_max
           else d.DomeAbsPosN_value + azDiff * (if cw then 1 else -1)) - d.DomeAbsPosN_max
       else (if d.DomeAbsPosN_value + azDiff * (if cw then 1 else -1) < d.DomeAbsPosN_min
           then d.DomeAbsPosN_value + azDiff * (if cw then 1 else -1) + d.DomeAbsPosN_max
           else d.DomeAbsPosN_value + azDiff * (if cw then 1 else -1))) := by
  have hm : ∀ (s : State), (MoveAbsDome s t s.targetAz).2.1.targetAz = s.targetAz := by
    intro s
    by_cases h : s.status = DOME_UNKNOWN
    · simp [MoveAbsDome, h]
    · rw [MoveAbsDome_state s t _ h]
  simp only [MoveRelDome]
  rw [hm]
  split_ifs <;> rfl

/-- C14 (counterexample): a calibrated driver standing at azimuth 180 is asked to move 180
degrees clockwise; the target becomes 360, which is not in [0, 360). -/
theorem C14_relative_target_360 :
    (MoveRelDome (readyState true 180) idleTty true 180).2.1.targetAz = 360 ∧
    ¬ ((MoveRelDome (readyState true 180) idleTty true 180).2.1.targetAz < 360) := by
  have h : (MoveRelDome (readyState true 180) idleTty true 180).2.1.targetAz = 360 := by
    rw [MoveRelDome_target]
    norm_num [readyState, initialState]
  rw [h]
  exact ⟨rfl, lt_irrefl _⟩

/-- The target of a clockwise relative move with the azimuth range 0 to 360. -/
theorem MoveRelDome_target_cw (d : State) (t : Tty) (delta : ℚ)
    (hmin : d.DomeAbsPosN_min = 0) (hmax : d.DomeAbsPosN_max = 360)
    (hc0 : 0 ≤ d.DomeAbsPosN_value) (hd0 : 0 ≤ delta) :
    (MoveRelDome d t true delta).2.1.targetAz =
      (if d.DomeAbsPosN_value + delta > 360 then d.DomeAbsPosN_value + delta - 360
       else d.DomeAbsPosN_value + delta) := by
  rw [MoveRelDome_target, hmin, hmax]
  simp only [if_true, mul_one]
  have h : ¬ d.DomeAbsPosN_value + delta < 0 := by linarith
  simp only [h, if_false]

/-- The target of a counter-clockwise relative move with the azimuth range 0 to 360. -/
theorem MoveRelDome_target_ccw (d : State) (t : Tty) (delta : ℚ)
    (hmin : d.DomeAbsPosN_min = 0) (hmax : d.DomeAbsPosN_max = 360)
    (hc1 : d.DomeAbsPosN_value < 360) (hd0 : 0 ≤ delta) :
    (MoveRelDome d t false delta).2.1.targetAz =
      (if d.DomeAbsPosN_value - delta < 0 then d.DomeAbsPosN_value - delta + 360
       else d.DomeAbsPosN_value - delta) := by
  rw [MoveRelDome_target, hmin, hmax]
  have hs : d.DomeAbsPosN_value + delta * -1 = d.DomeAbsPosN_value - delta := by ring
  simp only [Bool.false_eq_true, if_false, hs]
  by_cases h : d.DomeAbsPosN_value - delta < 0
  · simp only [h, if_true]
    rw [if_neg (by linarith)]
  · simp only [h, if_false]
    rw [if_neg (by linarith)]

/-- C14 (amended): with the azimuth range 0 to 360, for every current azimuth `c` in
[0, 360), every direction and every `delta` in [0, 360), `MoveRelDome` sets `targetAz` to
`c + delta` (clockwise) or `c - delta` (counter-clockwise), plus 360 when that is below 0
and minus 360 when it is above 360. The target lies in [0, 360]; it is 360 exactly when the
move is clockwise with `c + delta = 360`, and otherwise it is `(c ± delta) mod 360`, in
[0, 360). -/
theorem C14_relative_target (d : State) (t : Tty) (cw : Bool) (delta : ℚ)
    (hmin : d.DomeAbsPosN_min = 0) (hmax : d.DomeAbsPosN_max = 360)
    (hc0 : 0 ≤ d.DomeAbsPosN_value) (hc1 : d.DomeAbsPosN_value < 360)
    (hd0 : 0 ≤ delta) (hd1 : delta < 360) :
    (cw = true →
      (MoveRelDome d t cw delta).2.1.targetAz =
        (if d.DomeAbsPosN_value + delta > 360 then d.DomeAbsPosN_value + delta - 360
         else d.DomeAbsPosN_value + delta)) ∧
    (cw = false →
      (MoveRelDome d t cw delta).2.1.targetAz =
        (if d.DomeAbsPosN_value - delta < 0 then d.DomeAbsPosN_value - delta + 360
         else d.DomeAbsPosN_value - delta)) ∧
    0 ≤ (MoveRelDome d t cw delta).2.1.targetAz ∧
    (MoveRelDome d t cw delta).2.1.targetAz ≤ 360 ∧
    ((MoveRelDome d t cw delta).2.1.targetAz = 360 ↔
      (cw = true ∧ d.DomeAbsPosN_value + delta = 360)) ∧
    (¬ (cw = true ∧ d.DomeAbsPosN_value + delta = 360) →
      (MoveRelDome d t cw delta).2.1.targetAz < 360 ∧
      (MoveRelDome d t cw delta).2.1.targetAz =
        mod360 (d.DomeAbsPosN_value + delta * (if cw then 1 else -1))) := by
  cases cw with
  | true =>
    have hT := MoveRelDome_target_cw d t delta hmin hmax hc0 hd0
    refine ⟨fun _ => hT, fun h => absurd h (by decide), ?_⟩
    rw [hT]
    simp only [if_true, mul_one, true_and]
    rcases lt_trichotomy (d.DomeAbsPosN_value + delta) 360 with h | h | h
    · rw [if_neg (by linarith)]
      refine ⟨by linarith, by linarith, ?_, ?_⟩
      · exact ⟨fun e => absurd e (ne_of_lt h), fun e => absurd e (ne_of_lt h)⟩
      · intro _
        exact ⟨h, (mod360_of_lt _ (by linarith) h).symm⟩
    · rw [if_neg (by linarith)]
      refine ⟨by linarith, by linarith, ?_, ?_⟩
      · exact ⟨fun _ => h, fun _ => h⟩
      · intro hn; exact absurd h hn
    · rw [if_pos h]
      refine ⟨by linarith, by linarith, ?_, ?_⟩
      · exact ⟨fun e => by linarith, fun e => by linarith⟩
      · intro _
        exact ⟨by linarith, (mod360_of_ge _ (by linarith) (by linarith)).symm⟩
  | false =>
    have hT := MoveRelDome_target_ccw d t delta hmin hmax hc1 hd0
    refine ⟨fun h => absurd h (by decide), fun _ => hT, ?_⟩
    rw [hT]
    have hs : d.DomeAbsPosN_value + delta * -1 = d.DomeAbsPosN_value - delta := by ring
    simp only [Bool.false_eq_true, if_false, false_and, iff_false, not_false_eq_true,
      true_implies, hs]
    by_cases h : d.DomeAbsPosN_value - delta < 0
    · rw [if_pos h]
      refine ⟨by linarith, by linarith, by intro e; linarith, by linarith, ?_⟩
      exact (mod360_of_neg _ (by linarith) h).symm
    · rw [if_neg h]
      refine ⟨by linarith, by linarith, by intro e; linarith, by linarith, ?_⟩
      exact (mod360_of_lt _ (by linarith) (by linarith)).symm

/-- C14 (amended) on a calibrated driver standing at azimuth 350: 20 degrees clockwise
give the target 10, 20 degrees counter-clockwise give the target 330. -/
theorem C14_relative_target_witness :
    (MoveRelDome (readyState true 350) idleTty true 20).2.1.targetAz = 10 ∧
    (MoveRelDome (readyState true 350) idleTty false 20).2.1.targetAz = 330 := by
  have h1 := (C14_relative_target (readyState true 350) idleTty true 20 rfl rfl
    (by norm_num [readyState, initialState]) (by norm_num [readyState, initialState])
    (by norm_num) (by norm_num)).1 rfl
  have h2 := (C14_relative_target (readyState true 350) idleTty false 20 rfl rfl
    (by norm_num [readyState, initialState]) (by norm_num [readyState, initialState])
    (by norm_num) (by norm_num)).2.1 rfl
  rw [h1, h2]
  norm_num [readyState, initialState]

/-! ## C18: result codes of the shutter and flap commands -/

/-- The value `ControlDomeShutter` returns: 0 when the write or the read fails. -/
theorem ControlDomeShutter_code (d : State) (t : Tty) (op : ShutterOperation) :
    (ControlDomeShutter d t op).1 =
      match (exchange d.sim
               (if op = SHUTTER_OPEN then "d#opeshut".toList else "d#closhut".toList)
               "d#gotmess".toList t).1 with
      | none => 0
      | some resp => if resp = "d#gotmess".toList then 1 else -1 := by
  rcases hx : (exchange d.sim
      (if op = SHUTTER_OPEN then "d#opeshut".toList else "d#closhut".toList)
      "d#gotmess".toList t).1 with _ | resp
  · simp only [ControlDomeShutter, hx]
  · simp only [ControlDomeShutter, hx]
    split_ifs <;> rfl

/-- The value `ControlDomeFlap` returns: -1 when the write or the read fails. -/
theorem ControlDomeFlap_code (d : State) (t : Tty) (op : FlapOperation) :
    (ControlDomeFlap d t op).1 =
      match (exchange d.sim
               (if op = FLAP_OPEN then "d#opeflap".toList else "d#cloflap".toList)
               "d#gotmess".toList t).1 with
      | none => -1
      | some resp => if resp = "d#gotmess".toList then 1 else -1 := by
  rcases hx : (exchange d.sim
      (if op = FLAP_OPEN then "d#opeflap".toList else "d#cloflap".toList)
      "d#gotmess".toList t).1 with _ | resp
  · simp only [ControlDomeFlap, hx]
  · simp only [ControlDomeFlap, hx]
    split_ifs <;> rfl

/-- When the device answers, the shutter and the flap command return the same code: 1 on
"d#gotmess" and -1 on any other response. -/
theorem control_codes_on_response (d : State) (t : Tty) (so : ShutterOperation)
    (fo : FlapOperation) (resp : List Char) (rest : List TtyReply) (hsim : d.sim = false)
    (hrep : t.replies = TtyReply.data resp :: rest) :
    (ControlDomeShutter d t so).1 = (if cstr resp = "d#gotmess".toList then 1 else -1) ∧
    (ControlDomeFlap d t fo).1 = (if cstr resp = "d#gotmess".toList then 1 else -1) := by
  rw [ControlDomeShutter_code, ControlDomeFlap_code, hsim,
    exchange_data _ _ resp t rest hrep, exchange_data _ _ resp t rest hrep]
  exact ⟨rfl, rfl⟩

/-- When the write or the read fails, the shutter command returns 0 and the flap
command -1. -/
theorem control_codes_on_transport_failure (d : State) (t : Tty) (so : ShutterOperation)
    (fo : FlapOperation) (hsim : d.sim = false)
    (hf : t.replies = [] ∨ (∃ rest, t.replies = TtyReply.writeError :: rest) ∨
      (∃ rest, t.replies = TtyReply.readError :: rest)) :
    (ControlDomeShutter d t so).1 = 0 ∧ (ControlDomeFlap d t fo).1 = -1 := by
  rw [ControlDomeShutter_code, ControlDomeFlap_code, hsim]
  rcases hf with h | ⟨rest, h⟩ | ⟨rest, h⟩
  · rw [exchange_nil _ _ t h, exchange_nil _ _ t h]; exact ⟨rfl, rfl⟩
  · rw [exchange_writeError _ _ t rest h, exchange_writeError _ _ t rest h]; exact ⟨rfl, rfl⟩
  · rw [exchange_readError _ _ t rest h, exchange_readError _ _ t rest h]; exact ⟨rfl, rfl⟩

/-- C18 (the code at the failing input): a calibrated driver on a real line is asked to open
the shutter and the write fails. `ControlDomeShutter` returns 0 (`return false`), the
framework's code for a completed operation, where `ControlDomeFlap` on the same line
returns -1; the same holds when the read fails. The claim has both return the same error
code, distinct from 0 and 1. -/
theorem C18_shutter_transport_failure_returns_zero :
    (ControlDomeShutter (readyState false 100) (scriptedTty [TtyReply.writeError])
      SHUTTER_OPEN).1 = 0 ∧
    (ControlDomeFlap (readyState false 100) (scriptedTty [TtyReply.writeError])
      FLAP_OPEN).1 = -1 ∧
    (ControlDomeShutter (readyState false 100) (scriptedTty [TtyReply.readError])
      SHUTTER_OPEN).1 = 0 ∧
    (ControlDomeFlap (readyState false 100) (scriptedTty [TtyReply.readError])
      FLAP_OPEN).1 = -1 ∧
    (ControlDomeShutter (readyState false 100) (scriptedTty [TtyReply.writeError])
      SHUTTER_OPEN).2.1.targetShutter = SHUTTER_OPEN := by
  have h1 := control_codes_on_transport_failure (readyState false 100)
    (scriptedTty [TtyReply.writeError]) SHUTTER_OPEN FLAP_OPEN rfl
    (Or.inr (Or.inl ⟨[], rfl⟩))
  have h2 := control_codes_on_transport_failure (readyState false 100)
    (scriptedTty [TtyReply.readError]) SHUTTER_OPEN FLAP_OPEN rfl
    (Or.inr (Or.inr ⟨[], rfl⟩))
  refine ⟨h1.1, h1.2, h2.1, h2.2, ?_⟩
  simp only [ControlDomeShutter]
  split
  · split_ifs <;> rfl
  · split_ifs <;> rfl

/-! ## C13: unrecognised status replies -/

/-- A matched literal is a prefix of the input. -/
theorem matchLiteral_some (lit s r : List Char) (h : matchLiteral lit s = some r) :
    s = lit ++ r := by
  induction lit generalizing s with
  | nil => simp only [matchLiteral, Option.some.injEq] at h; simp [h]
  | cons p ps ih =>
    cases s with
    | nil => simp [matchLiteral] at h
    | cons c cs =>
      simp only [matchLiteral] at h
      split_ifs at h with hpc
      rw [hpc, ih cs h]
      rfl

/-- The C string of a response buffer is a prefix of the buffer. -/
theorem cstr_prefix (resp : List Char) : cstr resp <+: resp :=
  (List.takeWhile_prefix _).trans (List.take_prefix _ _)

/-- A response that does not start with the literal is rejected by `sscanf`. -/
theorem sscanf_s_none_of_prefix (lit resp : List Char) (h : resp.take lit.length ≠ lit) :
    sscanf_s lit (cstr resp) = none := by
  unfold sscanf_s
  cases hm : matchLiteral lit (cstr resp) with
  | none => rfl
  | some r =>
    exfalso
    apply h
    have h1 := matchLiteral_some lit (cstr resp) r hm
    obtain ⟨u, hu⟩ := cstr_prefix resp
    rw [← hu, h1, List.append_assoc, List.take_left']
    rfl

/-- A response made of the literal and a three-byte word without white space or NUL is read
by `sscanf` as that word. -/
theorem sscanf_s_word (lit : List Char) (a b c : Char) (hl : lit.length = 6)
    (hlit : ∀ x ∈ lit, x ≠ Char.ofNat 0)
    (ha : isspace a = false ∧ a ≠ Char.ofNat 0) (hb : isspace b = false ∧ b ≠ Char.ofNat 0)
    (hc : isspace c = false ∧ c ≠ Char.ofNat 0) :
    sscanf_s lit (cstr (lit ++ [a, b, c])) = some [a, b, c] := by
  have hcs : cstr (lit ++ [a, b, c]) = lit ++ [a, b, c] := by
    unfold cstr
    rw [List.take_of_length_le (by simp [hl, DOME_CMD])]
    rw [List.takeWhile_eq_self_iff]
    intro x hx
    rw [List.mem_append] at hx
    rcases hx with hx | hx
    · simpa using hlit x hx
    · simp only [List.mem_cons, List.mem_singleton, List.not_mem_nil, or_false] at hx
      rcases hx with rfl | rfl | rfl
      · simpa using ha.2
      · simpa using hb.2
      · simpa using hc.2
  have hm : ∀ (l r : List Char), matchLiteral l (l ++ r) = some r := by
    intro l r
    induction l with
    | nil => cases r <;> rfl
    | cons p ps ih => simp [matchLiteral, ih]
  rw [hcs]
  simp only [sscanf_s, hm, Option.bind, scan_s, List.dropWhile, ha.1, hb.1, hc.1,
    List.takeWhile, Bool.not_false, reduceCtorEq, if_false]

/-- The shutter refresh when `sscanf` reads nothing: false is returned and no member
changes. -/
theorem UpdateShutterStatus_no_word (d : State) (t : Tty) (resp : List Char)
    (hx : (exchange d.sim "d#getshut".toList (simShutterResp d t) t).1 = some resp)
    (hs : sscanf_s "d#shut".toList resp = none) :
    (UpdateShutterStatus d t).1 = false ∧ (UpdateShutterStatus d t).2.1 = d := by
  constructor <;> simp only [UpdateShutterStatus, hx, hs]

/-- The flap refresh when `sscanf` reads nothing: false is returned and no member
changes. -/
theorem UpdateFlapStatus_no_word (d : State) (t : Tty) (resp : List Char)
    (hx : (exchange d.sim "d#getflap".toList (simFlapResp d t) t).1 = some resp)
    (hs : sscanf_s "d#flap".toList resp = none) :
    (UpdateFlapStatus d t).1 = false ∧ (UpdateFlapStatus d t).2.1 = d := by
  constructor <;> simp only [UpdateFlapStatus, hx, hs]

/-- C13 (counterexample): a driver on a real line whose shutter is known closed reads the
nine bytes "d#flapope" in answer to the shutter query. The prefix is not the expected
one: the refresh returns false, and the shutter stays Closed with its control ok, not
Unknown and in alert. -/
theorem C13_wrong_prefix_leaves_state :
    (UpdateShutterStatus (stage1State false 40)
        (scriptedTty [TtyReply.data "d#flapope".toList])).1 = false ∧
    (UpdateShutterStatus (stage1State false 40)
        (scriptedTty [TtyReply.data "d#flapope".toList])).2.1.shutterStatus =
      SHUTTER_CLOSED ∧
    (UpdateShutterStatus (stage1State false 40)
        (scriptedTty [TtyReply.data "d#flapope".toList])).2.1.DomeShutterSP_s = IPS_OK ∧
    ¬ ((UpdateShutterStatus (stage1State false 40)
          (scriptedTty [TtyReply.data "d#flapope".toList])).2.1.shutterStatus =
        SHUTTER_UNKNOWN ∧
       (UpdateShutterStatus (stage1State false 40)
          (scriptedTty [TtyReply.data "d#flapope".toList])).2.1.DomeShutterSP_s =
        IPS_ALERT) := by
  have h := UpdateShutterStatus_no_word (stage1State false 40)
    (scriptedTty [TtyReply.data "d#flapope".toList]) (cstr "d#flapope".toList)
    (by rw [show (stage1State false 40).sim = false from rfl,
          exchange_data _ _ "d#flapope".toList _ [] rfl])
    (by decide)
  rw [h.2]
  exact ⟨h.1, rfl, rfl, fun hc => absurd hc.1 (by decide)⟩

/-- C13 (amended): on a real line, for every response to a shutter (resp. flap) status
query that starts with "d#shut" (resp. "d#flap") and carries after it a status word other
than "ope", "clo", "run" - in particular a three-byte suffix without white space or NUL
other than these - the refresh returns true, sets that actuator's state to Unknown and
marks its control as alert; for every response that does not start with the expected
prefix, or carries no status word, the refresh returns false and leaves every member,
the actuator's state and its control included, unchanged. -/
theorem C13_unrecognised_reply (d : State) (t : Tty) (resp : List Char)
    (rest : List TtyReply) (hsim : d.sim = false)
    (hrep : t.replies = TtyReply.data resp :: rest) :
    ((∀ w, sscanf_s "d#shut".toList (cstr resp) = some w →
        w ≠ "ope".toList → w ≠ "clo".toList → w ≠ "run".toList →
        (UpdateShutterStatus d t).1 = true ∧
        (UpdateShutterStatus d t).2.1.shutterStatus = SHUTTER_UNKNOWN ∧
        (UpdateShutterStatus d t).2.1.DomeShutterSP_s = IPS_ALERT) ∧
      (∀ a b c, resp = "d#shut".toList ++ [a, b, c] →
        (isspace a = false ∧ a ≠ Char.ofNat 0) → (isspace b = false ∧ b ≠ Char.ofNat 0) →
        (isspace c = false ∧ c ≠ Char.ofNat 0) →
        sscanf_s "d#shut".toList (cstr resp) = some [a, b, c]) ∧
      (sscanf_s "d#shut".toList (cstr resp) = none →
        (UpdateShutterStatus d t).1 = false ∧ (UpdateShutterStatus d t).2.1 = d) ∧
      (resp.take 6 ≠ "d#shut".toList → sscanf_s "d#shut".toList (cstr resp) = none)) ∧
    ((∀ w, sscanf_s "d#flap".toList (cstr resp) = some w →
        w ≠ "ope".toList → w ≠ "clo".toList → w ≠ "run".toList →
        (UpdateFlapStatus d t).1 = true ∧
        (UpdateFlapStatus d t).2.1.flapStatus = FLAP_UNKNOWN ∧
        (UpdateFlapStatus d t).2.1.DomeFlapSP_s = IPS_ALERT) ∧
      (∀ a b c, resp = "d#flap".toList ++ [a, b, c] →
        (isspace a = false ∧ a ≠ Char.ofNat 0) → (isspace b = false ∧ b ≠ Char.ofNat 0) →
        (isspace c = false ∧ c ≠ Char.ofNat 0) →
        sscanf_s "d#flap".toList (cstr resp) = some [a, b, c]) ∧
      (sscanf_s "d#flap".toList (cstr resp) = none →
        (UpdateFlapStatus d t).1 = false ∧ (UpdateFlapStatus d t).2.1 = d) ∧
      (resp.take 6 ≠ "d#flap".toList → sscanf_s "d#flap".toList (cstr resp) = none)) := by
  have hxs : (exchange d.sim "d#getshut".toList (simShutterResp d t) t).1 =
      some (cstr resp) := by rw [hsim, exchange_data _ _ resp t rest hrep]
  have hxf : (exchange d.sim "d#getflap".toList (simFlapResp d t) t).1 =
      some (cstr resp) := by rw [hsim, exchange_data _ _ resp t rest hrep]
  refine ⟨⟨?_, ?_, ?_, ?_⟩, ⟨?_, ?_, ?_, ?_⟩⟩
  · intro w hw h1 h2 h3
    rw [UpdateShutterStatus_word d t (cstr resp) w hxs hw, if_neg h1, if_neg h2, if_neg h3]
    exact ⟨rfl, rfl, rfl⟩
  · intro a b c hr ha hb hc
    rw [hr]
    exact sscanf_s_word _ a b c rfl (by decide) ha hb hc
  · intro hn
    exact UpdateShutterStatus_no_word d t (cstr resp) hxs hn
  · intro hp
    exact sscanf_s_none_of_prefix _ resp hp
  · intro w hw h1 h2 h3
    rw [UpdateFlapStatus_word d t (cstr resp) w hxf hw, if_neg h1, if_neg h2, if_neg h3]
    exact ⟨rfl, rfl, rfl⟩
  · intro a b c hr ha hb hc
    rw [hr]
    exact sscanf_s_word _ a b c rfl (by decide) ha hb hc
  · intro hn
    exact UpdateFlapStatus_no_word d t (cstr resp) hxf hn
  · intro hp
    exact sscanf_s_none_of_prefix _ resp hp

/-- C13 (amended) on a driver on a real line whose shutter is known closed: the reply
"d#shutxyz" makes the shutter Unknown with its control in alert. -/
theorem C13_unrecognised_reply_witness :
    (UpdateShutterStatus (stage1State false 40)
        (scriptedTty [TtyReply.data "d#shutxyz".toList])).1 = true ∧
    (UpdateShutterStatus (stage1State false 40)
        (scriptedTty [TtyReply.data "d#shutxyz".toList])).2.1.shutterStatus =
      SHUTTER_UNKNOWN ∧
    (UpdateShutterStatus (stage1State false 40)
        (scriptedTty [TtyReply.data "d#shutxyz".toList])).2.1.DomeShutterSP_s =
      IPS_ALERT :=
  (C13_unrecognised_reply (stage1State false 40)
    (scriptedTty [TtyReply.data "d#shutxyz".toList]) "d#shutxyz".toList [] rfl rfl).1.1
    "xyz".toList (by decide) (by decide) (by decide) (by decide)

/-! ## C16: saving the encoder position -/

/-- With no calibration active the motion part of `TimerHit` leaves the stage alone. -/
theorem timerMotion_stage_idle (d : State) (t : Tty) (h : d.status ≠ DOME_CALIBRATING) :
    (timerMotion d t).1.calibrationStage = d.calibrationStage := by
  rw [timerMotion_eq]
  obtain ⟨e1, e2, -, -, -, -, -, -⟩ := arrive_simAdvance_status d
  have hS := simAdvance_frame d
  split_ifs
  · rw [calibrationAdvance_idle _ _ (by rw [e1]; exact h)]
    exact e2
  · rw [hS]
  · rfl

/-- The tick of a simulated driver that starts with the stage Complete and the status
Calibrating ends with the status Ready and the stage Stage1 (line 546). -/
theorem complete_tick_stage1 (d : State) (t : Tty) (hsim : d.sim = true)
    (hc : d.connected = true) (hs : d.status = DOME_CALIBRATING)
    (hst : d.calibrationStage = CALIBRATION_COMPLETE) :
    (TimerHit d t).1.status = DOME_READY ∧
    (TimerHit d t).1.calibrationStage = CALIBRATION_STAGE1 ∧
    (TimerHit d t).1.sim = true ∧ (TimerHit d t).1.connected = true := by
  obtain ⟨h1, h2, h3⟩ := TimerHit_status d t hc
  obtain ⟨-, m2, -, -, -, -, -⟩ := TimerHit_motion_members d t hc
  have hU := UpdatePosition_sim_synced d t hsim (Or.inr hst)
  rw [if_neg (by rw [hst]; decide), if_pos hs] at hU
  have p1 : (UpdatePosition d t).2.1.status = DOME_READY := by rw [hU]
  have p2 : (UpdatePosition d t).2.1.calibrationStage = CALIBRATION_STAGE1 := by rw [hU]
  refine ⟨h1.trans p1, ?_, h2.trans hsim, h3⟩
  rw [m2, timerMotion_stage_idle _ _ (by rw [p1]; decide)]
  exact p2

/-- A simulated driver that is Ready with the stage Stage1 stays so under any number of
ticks. -/
theorem ticks_ready_stage1 (n : Nat) (d : State) (t : Tty) (hsim : d.sim = true)
    (hc : d.connected = true) (hr : d.status = DOME_READY)
    (hst : d.calibrationStage = CALIBRATION_STAGE1) :
    (ticks n d t).1.status = DOME_READY ∧
    (ticks n d t).1.calibrationStage = CALIBRATION_STAGE1 := by
  induction n generalizing d t with
  | zero => exact ⟨hr, hst⟩
  | succ n ih =>
    obtain ⟨h1, h2, h3⟩ := TimerHit_status d t hc
    obtain ⟨-, m2, -, -, -, -, -⟩ := TimerHit_motion_members d t hc
    have hU := UpdatePosition_sim_ready d t hsim hr (by rw [hst]; decide)
    have p1 : (UpdatePosition d t).2.1.status = DOME_READY := by rw [hU]; exact hr
    have p2 : (UpdatePosition d t).2.1.calibrationStage = CALIBRATION_STAGE1 := by
      rw [hU]; exact hst
    have q2 : (TimerHit d t).1.calibrationStage = CALIBRATION_STAGE1 := by
      rw [m2, timerMotion_stage_idle _ _ (by rw [p1]; decide)]
      exact p2
    exact ih (TimerHit d t).1 (TimerHit d t).2 (h2.trans hsim) h3 (h1.trans p1) q2

/-- When the stage is not Complete, `saveConfigItems` does not call
`SaveEncoderPosition` and the line is left alone. -/
theorem saveConfigItems_not_complete (d : State) (t : Tty)
    (h : d.calibrationStage ≠ CALIBRATION_COMPLETE) : saveConfigItems d t = (none, t) := by
  simp [saveConfigItems, h]

/-- When the stage is Complete, `saveConfigItems` calls `SaveEncoderPosition`; on a real
line the command "d#encsave" is handed to `tty_write`. -/
theorem saveConfigItems_complete (d : State) (t : Tty)
    (h : d.calibrationStage = CALIBRATION_COMPLETE) :
    (saveConfigItems d t).1 = some (SaveEncoderPosition d t).1 ∧
    (d.sim = false → (saveConfigItems d t).2.written = t.written ++ ["d#encsave".toList]) := by
  have hk : ("d#encsave".toList).take DOME_CMD = "d#encsave".toList := by decide
  refine ⟨by simp [saveConfigItems, h], ?_⟩
  intro hsim
  simp only [saveConfigItems, h, if_true, SaveEncoderPosition, hsim]
  rcases hr : t.replies with _ | ⟨r, rest⟩
  · rw [exchange_nil _ _ t hr, hk]
  · cases r with
    | writeError => rw [exchange_writeError _ _ t rest hr, hk]
    | readError => rw [exchange_readError _ _ t rest hr, hk]
    | data resp =>
      rw [exchange_data _ _ resp t rest hr, hk]
      simp only []
      split_ifs <;> rfl

/-- After a calibration run in simulation mode, from the tick after the one that detects
Stage3 arrival on, the dome is Ready with the stage Stage1 and `saveConfigItems` does not
call `SaveEncoderPosition`. -/
theorem no_save_after_calibration (d : State) (t : Tty) (hsim : d.sim = true)
    (hs : d.status = DOME_CALIBRATING) (hst : d.calibrationStage = CALIBRATION_STAGE3)
    (harr : arrivalDetected d t) (n : Nat) (hn : 1 ≤ n) (t1 : Tty) :
    (ticks n (TimerHit d t).1 (TimerHit d t).2).1.status = DOME_READY ∧
    (ticks n (TimerHit d t).1 (TimerHit d t).2).1.calibrationStage = CALIBRATION_STAGE1 ∧
    saveConfigItems (ticks n (TimerHit d t).1 (TimerHit d t).2).1 t1 = (none, t1) := by
  obtain ⟨h1, h2, h3, h4⟩ := stage3_arrival_tick d t hsim hs hst harr
  obtain ⟨k, rfl⟩ : ∃ k, n = k + 1 := ⟨n - 1, by omega⟩
  obtain ⟨r1, r2, r3, r4⟩ := complete_tick_stage1 (TimerHit d t).1 (TimerHit d t).2 h3 h4 h2 h1
  obtain ⟨q1, q2⟩ := ticks_ready_stage1 k _ _ r3 r4 r1 r2
  have q1' : (ticks (k + 1) (TimerHit d t).1 (TimerHit d t).2).1.status = DOME_READY := q1
  have q2' : (ticks (k + 1) (TimerHit d t).1 (TimerHit d t).2).1.calibrationStage =
      CALIBRATION_STAGE1 := q2
  exact ⟨q1', q2', saveConfigItems_not_complete _ _ (by rw [q2']; decide)⟩

/-- C16 (the code at the failing input): the simulated calibration started at azimuth 10,
in Stage3 at azimuth 10.5. After the tick that detects Stage3 arrival and one further tick
(and after five further ticks) the dome is Ready, but the stage is Stage1, not Complete,
and `saveConfigItems` does not call `SaveEncoderPosition`: no "d#encsave" is issued, where
the claim has it issued in every Ready state reached after a completed calibration. -/
theorem C16_no_encsave_after_user_calibration :
    (ticks 2 (stage3State true (21 / 2)) idleTty).1.status = DOME_READY ∧
    (ticks 2 (stage3State true (21 / 2)) idleTty).1.calibrationStage = CALIBRATION_STAGE1 ∧
    saveConfigItems (ticks 2 (stage3State true (21 / 2)) idleTty).1 idleTty =
      (none, idleTty) ∧
    (ticks 6 (stage3State true (21 / 2)) idleTty).1.status = DOME_READY ∧
    saveConfigItems (ticks 6 (stage3State true (21 / 2)) idleTty).1 idleTty =
      (none, idleTty) := by
  have a3 : arrivalDetected (stage3State true (21 / 2)) idleTty := by
    refine ⟨rfl, rfl, ?_⟩
    rw [tickAzimuth_stage3]; norm_num [stage3State, stage2State, stage1State, initialState]
  have h1 := no_save_after_calibration (stage3State true (21 / 2)) idleTty rfl rfl rfl a3 1
    (by decide) idleTty
  have h5 := no_save_after_calibration (stage3State true (21 / 2)) idleTty rfl rfl rfl a3 5
    (by decide) idleTty
  exact ⟨h1.1, h1.2.1, h1.2.2, h5.1, h5.2.2⟩

/-! ## C11: the simulated shutter and flap countdown -/

/-- The motion part of `TimerHit` writes only azimuth, motion and calibration members. -/
theorem timerMotion_frame (d : State) (t : Tty) :
    ∃ v b g r c2 cs ta, (timerMotion d t).1 =
      { d with DomeAbsPosN_value := v, DomeAbsPosNP_s := b, DomeGotoSP_s := g,
               DomeRelPosNP_s := r, calibrationTarget2 := c2, calibrationStage := cs,
               targetAz := ta } := by
  rw [timerMotion_eq]
  have hS := simAdvance_frame d
  split_ifs
  · obtain ⟨c2, cs, ta, b, h⟩ := calibrationAdvance_frame (arrive (simAdvance d)) t
    obtain ⟨g, r, ha⟩ := arrive_frame (simAdvance d)
    rw [h, ha, hS]
    exact ⟨_, _, _, _, _, _, _, rfl⟩
  · rw [hS]
    exact ⟨_, _, _, _, _, _, _, rfl⟩
  · exact ⟨_, _, _, _, _, _, _, rfl⟩

/-- The state in which `TimerHit` refreshes the shutter has the mode and the shutter and
flap members of the state before the tick. -/
theorem TimerHit_before_actuators (d : State) (t : Tty) :
    ∃ s c cs v b g r c2 ta,
      (timerMotion (UpdatePosition d t).2.1 (UpdatePosition d t).2.2).1 =
        { d with status := s, calibrationStage := c, CalibrateSP_s := cs,
                 DomeAbsPosN_value := v, DomeAbsPosNP_s := b, DomeGotoSP_s := g,
                 DomeRelPosNP_s := r, calibrationTarget2 := c2, targetAz := ta } := by
  obtain ⟨s, c, cs, v, hU⟩ := UpdatePosition_frame d t
  obtain ⟨v1, b, g, r, c2, cs1, ta, hM⟩ :=
    timerMotion_frame (UpdatePosition d t).2.1 (UpdatePosition d t).2.2
  rw [hM, hU]
  exact ⟨_, _, _, _, _, _, _, _, _, rfl⟩

/-- The shutter refresh in simulation mode reports the simulated status; a moving shutter
makes the control busy, a resolved one ok. -/
theorem UpdateShutterStatus_sim (d : State) (t : Tty) (hsim : d.sim = true) :
    (d.simShutterStatus = SHUTTER_MOVING →
      (UpdateShutterStatus d t).2.1.shutterStatus = SHUTTER_MOVING ∧
      (UpdateShutterStatus d t).2.1.DomeShutterSP_s = IPS_BUSY) ∧
    (d.simShutterStatus = SHUTTER_OPENED →
      (UpdateShutterStatus d t).2.1.shutterStatus = SHUTTER_OPENED ∧
      (UpdateShutterStatus d t).2.1.DomeShutterSP_s = IPS_OK) ∧
    (d.simShutterStatus = SHUTTER_CLOSED →
      (UpdateShutterStatus d t).2.1.shutterStatus = SHUTTER_CLOSED ∧
      (UpdateShutterStatus d t).2.1.DomeShutterSP_s = IPS_OK) := by
  refine ⟨fun h => ?_, fun h => ?_, fun h => ?_⟩
  · have hx : (exchange d.sim "d#getshut".toList (simShutterResp d t) t).1 =
        some "d#shutrun".toList := by
      rw [hsim, exchange_sim, simShutterResp, h]
      exact congrArg some (by decide : cstr "d#shutrun".toList = "d#shutrun".toList)
    rw [UpdateShutterStatus_word d t _ "run".toList hx (by decide)]
    exact ⟨rfl, rfl⟩
  · have hx : (exchange d.sim "d#getshut".toList (simShutterResp d t) t).1 =
        some "d#shutope".toList := by
      rw [hsim, exchange_sim, simShutterResp, h]
      exact congrArg some (by decide : cstr "d#shutope".toList = "d#shutope".toList)
    rw [UpdateShutterStatus_word d t _ "ope".toList hx (by decide)]
    exact ⟨rfl, rfl⟩
  · have hx : (exchange d.sim "d#getshut".toList (simShutterResp d t) t).1 =
        some "d#shutclo".toList := by
      rw [hsim, exchange_sim, simShutterResp, h]
      exact congrArg some (by decide : cstr "d#shutclo".toList = "d#shutclo".toList)
    rw [UpdateShutterStatus_word d t _ "clo".toList hx (by decide)]
    exact ⟨rfl, rfl⟩

/-- The flap refresh in simulation mode reports the simulated status; a moving flap makes
the control busy, a resolved one ok. -/
theorem UpdateFlapStatus_sim (d : State) (t : Tty) (hsim : d.sim = true) :
    (d.simFlapStatus = FLAP_MOVING →
      (UpdateFlapStatus d t).2.1.flapStatus = FLAP_MOVING ∧
      (UpdateFlapStatus d t).2.1.DomeFlapSP_s = IPS_BUSY) ∧
    (d.simFlapStatus = FLAP_OPENED →
      (UpdateFlapStatus d t).2.1.flapStatus = FLAP_OPENED ∧
      (UpdateFlapStatus d t).2.1.DomeFlapSP_s = IPS_OK) ∧
    (d.simFlapStatus = FLAP_CLOSED →
      (UpdateFlapStatus d t).2.1.flapStatus = FLAP_CLOSED ∧
      (UpdateFlapStatus d t).2.1.DomeFlapSP_s = IPS_OK) := by
  refine ⟨fun h => ?_, fun h => ?_, fun h => ?_⟩
  · have hx : (exchange d.sim "d#getflap".toList (simFlapResp d t) t).1 =
        some "d#flaprun".toList := by
      rw [hsim, exchange_sim, simFlapResp, h]
      exact congrArg some (by decide : cstr "d#flaprun".toList = "d#flaprun".toList)
    rw [UpdateFlapStatus_word d t _ "run".toList hx (by decide)]
    exact ⟨rfl, rfl⟩
  · have hx : (exchange d.sim "d#getflap".toList (simFlapResp d t) t).1 =
        some "d#flapope".toList := by
      rw [hsim, exchange_sim, simFlapResp, h]
      exact congrArg some (by decide : cstr "d#flapope".toList = "d#flapope".toList)
    rw [UpdateFlapStatus_word d t _ "ope".toList hx (by decide)]
    exact ⟨rfl, rfl⟩
  · have hx : (exchange d.sim "d#getflap".toList (simFlapResp d t) t).1 =
        some "d#flapclo".toList := by
      rw [hsim, exchange_sim, simFlapResp, h]
      exact congrArg some (by decide : cstr "d#flapclo".toList = "d#flapclo".toList)
    rw [UpdateFlapStatus_word d t _ "clo".toList hx (by decide)]
    exact ⟨rfl, rfl⟩

/-- The shutter part of a simulated tick (lines 690-699) on the simulated shutter: while it
is moving, the countdown is tested and then decremented, and it resolves to the target's
terminal state when the value tested is not positive; once resolved nothing changes. -/
theorem shutter_part_sim (m : State) (t : Tty) (hsim : m.sim = true) :
    (timerShutter (UpdateShutterStatus m t).2.1).sim = true ∧
    (timerShutter (UpdateShutterStatus m t).2.1).connected = m.connected ∧
    (timerShutter (UpdateShutterStatus m t).2.1).targetShutter = m.targetShutter ∧
    (timerShutter (UpdateShutterStatus m t).2.1).targetFlap = m.targetFlap ∧
    (timerShutter (UpdateShutterStatus m t).2.1).simFlapStatus = m.simFlapStatus ∧
    (timerShutter (UpdateShutterStatus m t).2.1).simFlapTimer = m.simFlapTimer ∧
    (m.simShutterStatus = SHUTTER_MOVING →
      (timerShutter (UpdateShutterStatus m t).2.1).simShutterStatus =
        (if m.simShutterTimer ≤ 0 then
          (if m.targetShutter = SHUTTER_OPEN then SHUTTER_OPENED else SHUTTER_CLOSED)
         else SHUTTER_MOVING) ∧
      (timerShutter (UpdateShutterStatus m t).2.1).simShutterTimer =
        (if m.simShutterTimer ≤ 0 then 0 else m.simShutterTimer - 1)) ∧
    (m.simShutterStatus = SHUTTER_OPENED ∨ m.simShutterStatus = SHUTTER_CLOSED →
      (timerShutter (UpdateShutterStatus m t).2.1).simShutterStatus = m.simShutterStatus ∧
      (timerShutter (UpdateShutterStatus m t).2.1).simShutterTimer = m.simShutterTimer) := by
  obtain ⟨a, b, c, e, hF⟩ := UpdateShutterStatus_frame m t
  obtain ⟨hM, hO, hC⟩ := UpdateShutterStatus_sim m t hsim
  have hs1 : (UpdateShutterStatus m t).2.1.sim = true := by rw [hF]; exact hsim
  have hb : (UpdateShutterStatus m t).2.1.DomeShutterSP_s = b := by rw [hF]
  obtain ⟨x, y, hT⟩ := timerShutter_frame (UpdateShutterStatus m t).2.1
  refine ⟨by rw [hT, hF]; exact hsim, by rw [hT, hF], by rw [hT, hF], by rw [hT, hF],
    by rw [hT, hF], by rw [hT, hF], ?_, ?_⟩
  · intro h
    have hbusy := (hM h).2
    simp only [timerShutter, hs1, hbusy, and_self, if_true]
    rw [hF]
    simp only []
    split_ifs <;> simp [h]
  · intro h
    have hok : (UpdateShutterStatus m t).2.1.DomeShutterSP_s = IPS_OK := by
      rcases h with h | h
      · exact (hO h).2
      · exact (hC h).2
    simp only [timerShutter, hs1, hok, reduceCtorEq, and_false, if_false]
    rw [hF]
    exact ⟨rfl, rfl⟩

/-- The flap part of a simulated tick (lines 703-712) on the simulated flap. -/
theorem flap_part_sim (m : State) (t : Tty) (hsim : m.sim = true) :
    (timerFlap (UpdateFlapStatus m t).2.1).sim = true ∧
    (timerFlap (UpdateFlapStatus m t).2.1).connected = m.connected ∧
    (timerFlap (UpdateFlapStatus m t).2.1).targetShutter = m.targetShutter ∧
    (timerFlap (UpdateFlapStatus m t).2.1).targetFlap = m.targetFlap ∧
    (timerFlap (UpdateFlapStatus m t).2.1).simShutterStatus = m.simShutterStatus ∧
    (timerFlap (UpdateFlapStatus m t).2.1).simShutterTimer = m.simShutterTimer ∧
    (m.simFlapStatus = FLAP_MOVING →
      (timerFlap (UpdateFlapStatus m t).2.1).simFlapStatus =
        (if m.simFlapTimer ≤ 0 then
          (if m.targetFlap = FLAP_OPEN then FLAP_OPENED else FLAP_CLOSED)
         else FLAP_MOVING) ∧
      (timerFlap (UpdateFlapStatus m t).2.1).simFlapTimer =
        (if m.simFlapTimer ≤ 0 then 0 else m.simFlapTimer - 1)) ∧
    (m.simFlapStatus = FLAP_OPENED ∨ m.simFlapStatus = FLAP_CLOSED →
      (timerFlap (UpdateFlapStatus m t).2.1).simFlapStatus = m.simFlapStatus ∧
      (timerFlap (UpdateFlapStatus m t).2.1).simFlapTimer = m.simFlapTimer) := by
  obtain ⟨a, b, c, e, hF⟩ := UpdateFlapStatus_frame m t
  obtain ⟨hM, hO, hC⟩ := UpdateFlapStatus_sim m t hsim
  have hs1 : (UpdateFlapStatus m t).2.1.sim = true := by rw [hF]; exact hsim
  obtain ⟨x, y, hT⟩ := timerFlap_frame (UpdateFlapStatus m t).2.1
  refine ⟨by rw [hT, hF]; exact hsim, by rw [hT, hF], by rw [hT, hF], by rw [hT, hF],
    by rw [hT, hF], by rw [hT, hF], ?_, ?_⟩
  · intro h
    have hbusy := (hM h).2
    simp only [timerFlap, hs1, hbusy, and_self, if_true]
    rw [hF]
    simp only []
    split_ifs <;> simp [h]
  · intro h
    have hok : (UpdateFlapStatus m t).2.1.DomeFlapSP_s = IPS_OK := by
      rcases h with h | h
      · exact (hO h).2
      · exact (hC h).2
    simp only [timerFlap, hs1, hok, reduceCtorEq, and_false, if_false]
    rw [hF]
    exact ⟨rfl, rfl⟩

/-- One tick of the connected simulated driver, on the simulated shutter and flap. -/
theorem TimerHit_sim_actuators (d : State) (t : Tty) (hc : d.connected = true)
    (hsim : d.sim = true) :
    (TimerHit d t).1.sim = true ∧ (TimerHit d t).1.connected = true ∧
    (TimerHit d t).1.targetShutter = d.targetShutter ∧
    (TimerHit d t).1.targetFlap = d.targetFlap ∧
    (d.simShutterStatus = SHUTTER_MOVING →
      (TimerHit d t).1.simShutterStatus =
        (if d.simShutterTimer ≤ 0 then
          (if d.targetShutter = SHUTTER_OPEN then SHUTTER_OPENED else SHUTTER_CLOSED)
         else SHUTTER_MOVING) ∧
      (TimerHit d t).1.simShutterTimer =
        (if d.simShutterTimer ≤ 0 then 0 else d.simShutterTimer - 1)) ∧
    (d.simShutterStatus = SHUTTER_OPENED ∨ d.simShutterStatus = SHUTTER_CLOSED →
      (TimerHit d t).1.simShutterStatus = d.simShutterStatus) ∧
    (d.simFlapStatus = FLAP_MOVING →
      (TimerHit d t).1.simFlapStatus =
        (if d.simFlapTimer ≤ 0 then
          (if d.targetFlap = FLAP_OPEN then FLAP_OPENED else FLAP_CLOSED)
         else FLAP_MOVING) ∧
      (TimerHit d t).1.simFlapTimer =
        (if d.simFlapTimer ≤ 0 then 0 else d.simFlapTimer - 1)) ∧
    (d.simFlapStatus = FLAP_OPENED ∨ d.simFlapStatus = FLAP_CLOSED →
      (TimerHit d t).1.simFlapStatus = d.simFlapStatus) := by
  obtain ⟨s, c, cs, v, b, g, r, c2, ta, hM⟩ := TimerHit_before_actuators d t
  have hT : (TimerHit d t).1 =
      timerFlap (UpdateFlapStatus
        (timerShutter (UpdateShutterStatus
          (timerMotion (UpdatePosition d t).2.1 (UpdatePosition d t).2.2).1
          (timerMotion (UpdatePosition d t).2.1 (UpdatePosition d t).2.2).2).2.1)
        (UpdateShutterStatus
          (timerMotion (UpdatePosition d t).2.1 (UpdatePosition d t).2.2).1
          (timerMotion (UpdatePosition d t).2.1 (UpdatePosition d t).2.2).2).2.2).2.1 := by
    simp only [TimerHit, hc, Bool.true_eq_false, if_false]
  have m1 : (timerMotion (UpdatePosition d t).2.1 (UpdatePosition d t).2.2).1.sim = true := by
    rw [hM]; exact hsim
  obtain ⟨s1, s2, s3, s4, s5, s6, s7, s8⟩ := shutter_part_sim
    (timerMotion (UpdatePosition d t).2.1 (UpdatePosition d t).2.2).1
    (timerMotion (UpdatePosition d t).2.1 (UpdatePosition d t).2.2).2 m1
  obtain ⟨f1, f2, f3, f4, f5, f6, f7, f8⟩ := flap_part_sim
    (timerShutter (UpdateShutterStatus
      (timerMotion (UpdatePosition d t).2.1 (UpdatePosition d t).2.2).1
      (timerMotion (UpdatePosition d t).2.1 (UpdatePosition d t).2.2).2).2.1)
    (UpdateShutterStatus
      (timerMotion (UpdatePosition d t).2.1 (UpdatePosition d t).2.2).1
      (timerMotion (UpdatePosition d t).2.1 (UpdatePosition d t).2.2).2).2.2 s1
  have e1 : (timerMotion (UpdatePosition d t).2.1 (UpdatePosition d t).2.2).1.connected
      = d.connected := by rw [hM]
  have e2 : (timerMotion (UpdatePosition d t).2.1 (UpdatePosition d t).2.2).1.targetShutter
      = d.targetShutter := by rw [hM]
  have e3 : (timerMotion (UpdatePosition d t).2.1 (UpdatePosition d t).2.2).1.targetFlap
      = d.targetFlap := by rw [hM]
  have e4 : (timerMotion (UpdatePosition d t).2.1 (UpdatePosition d t).2.2).1.simFlapStatus
      = d.simFlapStatus := by rw [hM]
  have e5 : (timerMotion (UpdatePosition d t).2.1 (UpdatePosition d t).2.2).1.simFlapTimer
      = d.simFlapTimer := by rw [hM]
  have e6 : (timerMotion (UpdatePosition d t).2.1 (UpdatePosition d t).2.2).1.simShutterStatus
      = d.simShutterStatus := by rw [hM]
  have e7 : (timerMotion (UpdatePosition d t).2.1 (UpdatePosition d t).2.2).1.simShutterTimer
      = d.simShutterTimer := by rw [hM]
  rw [e1] at s2
  rw [e2] at s3
  rw [e3] at s4
  rw [e4] at s5
  rw [e5] at s6
  rw [e6, e7, e2] at s7
  rw [e6] at s8
  rw [hT]
  refine ⟨f1, (f2.trans s2).trans hc, f3.trans s3, f4.trans s4, ?_, ?_, ?_, ?_⟩
  · intro h
    obtain ⟨a1, a2⟩ := s7 h
    exact ⟨f5.trans a1, f6.trans a2⟩
  · intro h
    exact f5.trans (s8 h).1
  · intro h
    have a := f7 (s5.trans h)
    rw [s4, s6] at a
    exact a
  · intro h
    have a := f8 (by rw [s5]; exact h)
    exact (a.1).trans s5

/-- A resolved simulated shutter stays as it is over any number of ticks. -/
theorem shutter_resolved_stays (n : Nat) : ∀ (d : State) (t : Tty), d.connected = true →
    d.sim = true →
    (d.simShutterStatus = SHUTTER_OPENED ∨ d.simShutterStatus = SHUTTER_CLOSED) →
    (ticks n d t).1.simShutterStatus = d.simShutterStatus := by
  induction n with
  | zero => intro d t _ _ _; rfl
  | succ n ih =>
    intro d t hc hsim h
    obtain ⟨a1, a2, _, _, _, a6, _, _⟩ := TimerHit_sim_actuators d t hc hsim
    have e := a6 h
    show (ticks n (TimerHit d t).1 (TimerHit d t).2).1.simShutterStatus = _
    rw [ih _ _ a2 a1 (by rw [e]; exact h), e]

/-- A resolved simulated flap stays as it is over any number of ticks. -/
theorem flap_resolved_stays (n : Nat) : ∀ (d : State) (t : Tty), d.connected = true →
    d.sim = true →
    (d.simFlapStatus = FLAP_OPENED ∨ d.simFlapStatus = FLAP_CLOSED) →
    (ticks n d t).1.simFlapStatus = d.simFlapStatus := by
  induction n with
  | zero => intro d t _ _ _; rfl
  | succ n ih =>
    intro d t hc hsim h
    obtain ⟨a1, a2, _, _, _, _, _, a8⟩ := TimerHit_sim_actuators d t hc hsim
    have e := a8 h
    show (ticks n (TimerHit d t).1 (TimerHit d t).2).1.simFlapStatus = _
    rw [ih _ _ a2 a1 (by rw [e]; exact h), e]

/-- Ticks keep a connected simulated driver connected and simulated. -/
theorem ticks_sim_connected (n : Nat) : ∀ (d : State) (t : Tty), d.connected = true →
    d.sim = true → (ticks n d t).1.sim = true ∧ (ticks n d t).1.connected = true := by
  induction n with
  | zero => intro d t hc hsim; exact ⟨hsim, hc⟩
  | succ n ih =>
    intro d t hc hsim
    obtain ⟨a1, a2, _⟩ := TimerHit_sim_actuators d t hc hsim
    exact ih _ _ a2 a1

/-- The simulated shutter countdown: with the timer at `k`, the simulated shutter is still
moving after `n ≤ k` ticks and has reached the target state after any `n > k` ticks. -/
theorem shutter_countdown (n : Nat) : ∀ (k : Nat) (d : State) (t : Tty),
    d.connected = true → d.sim = true → d.simShutterStatus = SHUTTER_MOVING →
    d.simShutterTimer = (k : ℚ) →
    (n ≤ k → (ticks n d t).1.simShutterStatus = SHUTTER_MOVING) ∧
    (k < n → (ticks n d t).1.simShutterStatus =
      (if d.targetShutter = SHUTTER_OPEN then SHUTTER_OPENED else SHUTTER_CLOSED)) := by
  induction n with
  | zero =>
    intro k d t _ _ hm _
    exact ⟨fun _ => hm, fun h => absurd h (Nat.not_lt_zero k)⟩
  | succ n ih =>
    intro k d t hc hsim hm hk
    obtain ⟨a1, a2, a3, _, a5, _, _, _⟩ := TimerHit_sim_actuators d t hc hsim
    obtain ⟨b1, b2⟩ := a5 hm
    show (_ → (ticks n (TimerHit d t).1 (TimerHit d t).2).1.simShutterStatus = _) ∧
      (_ → (ticks n (TimerHit d t).1 (TimerHit d t).2).1.simShutterStatus = _)
    rcases k with _ | k
    · have h0 : d.simShutterTimer ≤ 0 := by rw [hk]; norm_num
      rw [if_pos h0] at b1
      refine ⟨fun h => absurd h (by omega), fun _ => ?_⟩
      rw [shutter_resolved_stays n _ _ a2 a1 (by rw [b1]; split_ifs <;> simp), b1]
    · have h0 : ¬ d.simShutterTimer ≤ 0 := by
        rw [hk]; push_cast; have : (0 : ℚ) ≤ (k : ℚ) := Nat.cast_nonneg k; linarith
      rw [if_neg h0] at b1 b2
      have hk1 : (TimerHit d t).1.simShutterTimer = (k : ℚ) := by
        rw [b2, hk]; push_cast; ring
      obtain ⟨c1, c2⟩ := ih k _ _ a2 a1 b1 hk1
      rw [a3] at c2
      exact ⟨fun h => c1 (by omega), fun h => c2 (by omega)⟩

/-- The simulated flap countdown, as for the shutter. -/
theorem flap_countdown (n : Nat) : ∀ (k : Nat) (d : State) (t : Tty),
    d.connected = true → d.sim = true → d.simFlapStatus = FLAP_MOVING →
    d.simFlapTimer = (k : ℚ) →
    (n ≤ k → (ticks n d t).1.simFlapStatus = FLAP_MOVING) ∧
    (k < n → (ticks n d t).1.simFlapStatus =
      (if d.targetFlap = FLAP_OPEN then FLAP_OPENED else FLAP_CLOSED)) := by
  induction n with
  | zero =>
    intro k d t _ _ hm _
    exact ⟨fun _ => hm, fun h => absurd h (Nat.not_lt_zero k)⟩
  | succ n ih =>
    intro k d t hc hsim hm hk
    obtain ⟨a1, a2, _, a4, _, _, a7, _⟩ := TimerHit_sim_actuators d t hc hsim
    obtain ⟨b1, b2⟩ := a7 hm
    show (_ → (ticks n (TimerHit d t).1 (TimerHit d t).2).1.simFlapStatus = _) ∧
      (_ → (ticks n (TimerHit d t).1 (TimerHit d t).2).1.simFlapStatus = _)
    rcases k with _ | k
    · have h0 : d.simFlapTimer ≤ 0 := by rw [hk]; norm_num
      rw [if_pos h0] at b1
      refine ⟨fun h => absurd h (by omega), fun _ => ?_⟩
      rw [flap_resolved_stays n _ _ a2 a1 (by rw [b1]; split_ifs <;> simp), b1]
    · have h0 : ¬ d.simFlapTimer ≤ 0 := by
        rw [hk]; push_cast; have : (0 : ℚ) ≤ (k : ℚ) := Nat.cast_nonneg k; linarith
      rw [if_neg h0] at b1 b2
      have hk1 : (TimerHit d t).1.simFlapTimer = (k : ℚ) := by
        rw [b2, hk]; push_cast; ring
      obtain ⟨c1, c2⟩ := ih k _ _ a2 a1 b1 hk1
      rw [a4] at c2
      exact ⟨fun h => c1 (by omega), fun h => c2 (by omega)⟩

/-- In simulation `ControlDomeShutter` is accepted, starts the countdown at
`SIM_SHUTTER_TIMER` and leaves the line alone. -/
theorem ControlDomeShutter_sim (d : State) (t : Tty) (op : ShutterOperation)
    (hsim : d.sim = true) :
    ControlDomeShutter d t op =
      (1, { d with targetShutter := op, simShutterTimer := SIM_SHUTTER_TIMER,
                   simShutterStatus := SHUTTER_MOVING, shutterStatus := SHUTTER_MOVING }, t) := by
  have hx : ∀ cmd, exchange true cmd "d#gotmess".toList t = (some "d#gotmess".toList, t) := by
    intro cmd
    rw [exchange_sim]
    exact congrArg (fun r => (some r, t))
      (by decide : cstr "d#gotmess".toList = "d#gotmess".toList)
  simp only [ControlDomeShutter, hsim, hx, if_true]

/-- In simulation `ControlDomeFlap` is accepted, starts the countdown at `SIM_FLAP_TIMER`
and leaves the line alone. -/
theorem ControlDomeFlap_sim (d : State) (t : Tty) (op : FlapOperation)
    (hsim : d.sim = true) :
    ControlDomeFlap d t op =
      (1, { d with targetFlap := op, simFlapTimer := SIM_FLAP_TIMER,
                   simFlapStatus := FLAP_MOVING, flapStatus := FLAP_MOVING }, t) := by
  have hx : ∀ cmd, exchange true cmd "d#gotmess".toList t = (some "d#gotmess".toList, t) := by
    intro cmd
    rw [exchange_sim]
    exact congrArg (fun r => (some r, t))
      (by decide : cstr "d#gotmess".toList = "d#gotmess".toList)
  simp only [ControlDomeFlap, hsim, hx, if_true]

/-- In simulation the refresh inside a tick reports the simulated shutter state the tick
started with. -/
theorem tickShutterStatus_sim (d : State) (t : Tty) (hsim : d.sim = true) :
    (d.simShutterStatus = SHUTTER_MOVING → tickShutterStatus d t = SHUTTER_MOVING) ∧
    (d.simShutterStatus = SHUTTER_OPENED → tickShutterStatus d t = SHUTTER_OPENED) ∧
    (d.simShutterStatus = SHUTTER_CLOSED → tickShutterStatus d t = SHUTTER_CLOSED) := by
  obtain ⟨s, c, cs, v, b, g, r, c2, ta, hM⟩ := TimerHit_before_actuators d t
  have m1 : (timerMotion (UpdatePosition d t).2.1 (UpdatePosition d t).2.2).1.sim = true := by
    rw [hM]; exact hsim
  have m2 : (timerMotion (UpdatePosition d t).2.1 (UpdatePosition d t).2.2).1.simShutterStatus
      = d.simShutterStatus := by rw [hM]
  obtain ⟨u1, u2, u3⟩ := UpdateShutterStatus_sim
    (timerMotion (UpdatePosition d t).2.1 (UpdatePosition d t).2.2).1
    (timerMotion (UpdatePosition d t).2.1 (UpdatePosition d t).2.2).2 m1
  rw [m2] at u1 u2 u3
  exact ⟨fun h => (u1 h).1, fun h => (u2 h).1, fun h => (u3 h).1⟩

/-- In simulation the refresh inside a tick reports the simulated flap state the tick
started with. -/
theorem tickFlapStatus_sim (d : State) (t : Tty) (hsim : d.sim = true) :
    (d.simFlapStatus = FLAP_MOVING → tickFlapStatus d t = FLAP_MOVING) ∧
    (d.simFlapStatus = FLAP_OPENED → tickFlapStatus d t = FLAP_OPENED) ∧
    (d.simFlapStatus = FLAP_CLOSED → tickFlapStatus d t = FLAP_CLOSED) := by
  obtain ⟨s, c, cs, v, b, g, r, c2, ta, hM⟩ := TimerHit_before_actuators d t
  have m1 : (timerMotion (UpdatePosition d t).2.1 (UpdatePosition d t).2.2).1.sim = true := by
    rw [hM]; exact hsim
  have m2 : (timerMotion (UpdatePosition d t).2.1 (UpdatePosition d t).2.2).1.simFlapStatus
      = d.simFlapStatus := by rw [hM]
  obtain ⟨s1, _, _, _, s5, _⟩ := shutter_part_sim
    (timerMotion (UpdatePosition d t).2.1 (UpdatePosition d t).2.2).1
    (timerMotion (UpdatePosition d t).2.1 (UpdatePosition d t).2.2).2 m1
  rw [m2] at s5
  obtain ⟨u1, u2, u3⟩ := UpdateFlapStatus_sim
    (timerShutter (UpdateShutterStatus
      (timerMotion (UpdatePosition d t).2.1 (UpdatePosition d t).2.2).1
      (timerMotion (UpdatePosition d t).2.1 (UpdatePosition d t).2.2).2).2.1)
    (UpdateShutterStatus
      (timerMotion (UpdatePosition d t).2.1 (UpdatePosition d t).2.2).1
      (timerMotion (UpdatePosition d t).2.1 (UpdatePosition d t).2.2).2).2.2 s1
  rw [s5] at u1 u2 u3
  exact ⟨fun h => (u1 h).1, fun h => (u2 h).1, fun h => (u3 h).1⟩

/-- The simulated shutter after a control call: moving for the first five ticks, at the
commanded end state from the sixth tick on. -/
theorem shutter_after_control (d : State) (t : Tty) (op : ShutterOperation)
    (hsim : d.sim = true) (hc : d.connected = true) (n : Nat) :
    (afterShutterControl d t op n).1.sim = true ∧
    (n ≤ 5 → (afterShutterControl d t op n).1.simShutterStatus = SHUTTER_MOVING) ∧
    (6 ≤ n → (afterShutterControl d t op n).1.simShutterStatus =
      (if op = SHUTTER_OPEN then SHUTTER_OPENED else SHUTTER_CLOSED)) := by
  simp only [afterShutterControl, ControlDomeShutter_sim d t op hsim]
  obtain ⟨c1, c2⟩ := shutter_countdown n 5
    { d with targetShutter := op, simShutterTimer := SIM_SHUTTER_TIMER,
             simShutterStatus := SHUTTER_MOVING, shutterStatus := SHUTTER_MOVING } t
    hc hsim rfl (by norm_num [SIM_SHUTTER_TIMER])
  have c0 := ticks_sim_connected n
    { d with targetShutter := op, simShutterTimer := SIM_SHUTTER_TIMER,
             simShutterStatus := SHUTTER_MOVING, shutterStatus := SHUTTER_MOVING } t hc hsim
  exact ⟨c0.1, c1, fun h => c2 (by omega)⟩

/-- The simulated flap after a control call: moving for the first five ticks, at the
commanded end state from the sixth tick on. -/
theorem flap_after_control (d : State) (t : Tty) (op : FlapOperation)
    (hsim : d.sim = true) (hc : d.connected = true) (n : Nat) :
    (afterFlapControl d t op n).1.sim = true ∧
    (n ≤ 5 → (afterFlapControl d t op n).1.simFlapStatus = FLAP_MOVING) ∧
    (6 ≤ n → (afterFlapControl d t op n).1.simFlapStatus =
      (if op = FLAP_OPEN then FLAP_OPENED else FLAP_CLOSED)) := by
  simp only [afterFlapControl, ControlDomeFlap_sim d t op hsim]
  obtain ⟨c1, c2⟩ := flap_countdown n 5
    { d with targetFlap := op, simFlapTimer := SIM_FLAP_TIMER,
             simFlapStatus := FLAP_MOVING, flapStatus := FLAP_MOVING } t
    hc hsim rfl (by norm_num [SIM_FLAP_TIMER])
  have c0 := ticks_sim_connected n
    { d with targetFlap := op, simFlapTimer := SIM_FLAP_TIMER,
             simFlapStatus := FLAP_MOVING, flapStatus := FLAP_MOVING } t hc hsim
  exact ⟨c0.1, c1, fun h => c2 (by omega)⟩

/-- What a shutter status refresh reports `n` ticks after an accepted simulated control
call, both as a refresh of its own and as the refresh inside the next tick. -/
theorem shutter_report_after_control (d : State) (t : Tty) (op : ShutterOperation)
    (hsim : d.sim = true) (hc : d.connected = true) (n : Nat) :
    (n ≤ 5 →
      (UpdateShutterStatus (afterShutterControl d t op n).1
        (afterShutterControl d t op n).2).2.1.shutterStatus = SHUTTER_MOVING ∧
      tickShutterStatus (afterShutterControl d t op n).1 (afterShutterControl d t op n).2
        = SHUTTER_MOVING) ∧
    (6 ≤ n →
      (UpdateShutterStatus (afterShutterControl d t op n).1
        (afterShutterControl d t op n).2).2.1.shutterStatus =
          (if op = SHUTTER_OPEN then SHUTTER_OPENED else SHUTTER_CLOSED) ∧
      tickShutterStatus (afterShutterControl d t op n).1 (afterShutterControl d t op n).2
        = (if op = SHUTTER_OPEN then SHUTTER_OPENED else SHUTTER_CLOSED)) := by
  obtain ⟨a1, a2, a3⟩ := shutter_after_control d t op hsim hc n
  obtain ⟨u1, u2, u3⟩ := UpdateShutterStatus_sim (afterShutterControl d t op n).1
    (afterShutterControl d t op n).2 a1
  obtain ⟨v1, v2, v3⟩ := tickShutterStatus_sim (afterShutterControl d t op n).1
    (afterShutterControl d t op n).2 a1
  refine ⟨fun h => ⟨(u1 (a2 h)).1, v1 (a2 h)⟩, fun h => ?_⟩
  have e := a3 h
  by_cases ho : op = SHUTTER_OPEN
  · rw [if_pos ho] at e ⊢
    exact ⟨(u2 e).1, v2 e⟩
  · rw [if_neg ho] at e ⊢
    exact ⟨(u3 e).1, v3 e⟩

/-- What a flap status refresh reports `n` ticks after an accepted simulated control call,
both as a refresh of its own and as the refresh inside the next tick. -/
theorem flap_report_after_control (d : State) (t : Tty) (op : FlapOperation)
    (hsim : d.sim = true) (hc : d.connected = true) (n : Nat) :
    (n ≤ 5 →
      (UpdateFlapStatus (afterFlapControl d t op n).1
        (afterFlapControl d t op n).2).2.1.flapStatus = FLAP_MOVING ∧
      tickFlapStatus (afterFlapControl d t op n).1 (afterFlapControl d t op n).2
        = FLAP_MOVING) ∧
    (6 ≤ n →
      (UpdateFlapStatus (afterFlapControl d t op n).1
        (afterFlapControl d t op n).2).2.1.flapStatus =
          (if op = FLAP_OPEN then FLAP_OPENED else FLAP_CLOSED) ∧
      tickFlapStatus (afterFlapControl d t op n).1 (afterFlapControl d t op n).2
        = (if op = FLAP_OPEN then FLAP_OPENED else FLAP_CLOSED)) := by
  obtain ⟨a1, a2, a3⟩ := flap_after_control d t op hsim hc n
  obtain ⟨u1, u2, u3⟩ := UpdateFlapStatus_sim (afterFlapControl d t op n).1
    (afterFlapControl d t op n).2 a1
  obtain ⟨v1, v2, v3⟩ := tickFlapStatus_sim (afterFlapControl d t op n).1
    (afterFlapControl d t op n).2 a1
  refine ⟨fun h => ⟨(u1 (a2 h)).1, v1 (a2 h)⟩, fun h => ?_⟩
  have e := a3 h
  by_cases ho : op = FLAP_OPEN
  · rw [if_pos ho] at e ⊢
    exact ⟨(u2 e).1, v2 e⟩
  · rw [if_neg ho] at e ⊢
    exact ⟨(u3 e).1, v3 e⟩

/-- C11, as stated, fails: in simulation, from a closed shutter, `ControlDomeShutter(Open)`
is accepted, and a status refresh made once 5 ticks have elapsed still reports Moving, not
Open; the same holds for the flap. -/
theorem C11_moving_after_five_ticks :
    (readyState true 100).simShutterStatus = SHUTTER_CLOSED ∧
    (ControlDomeShutter (readyState true 100) idleTty SHUTTER_OPEN).1 = 1 ∧
    (UpdateShutterStatus (afterShutterControl (readyState true 100) idleTty SHUTTER_OPEN 5).1
      (afterShutterControl (readyState true 100) idleTty SHUTTER_OPEN 5).2).2.1.shutterStatus
        = SHUTTER_MOVING ∧
    (readyState true 100).simFlapStatus = FLAP_CLOSED ∧
    (ControlDomeFlap (readyState true 100) idleTty FLAP_OPEN).1 = 1 ∧
    (UpdateFlapStatus (afterFlapControl (readyState true 100) idleTty FLAP_OPEN 5).1
      (afterFlapControl (readyState true 100) idleTty FLAP_OPEN 5).2).2.1.flapStatus
        = FLAP_MOVING :=
  ⟨rfl, by rw [ControlDomeShutter_sim _ _ _ rfl],
   ((shutter_report_after_control (readyState true 100) idleTty SHUTTER_OPEN rfl rfl 5).1
      (le_refl 5)).1,
   rfl, by rw [ControlDomeFlap_sim _ _ _ rfl],
   ((flap_report_after_control (readyState true 100) idleTty FLAP_OPEN rfl rfl 5).1
      (le_refl 5)).1⟩

/-- C11 (amended): in simulation mode, a connected driver accepts `ControlDomeShutter`
(resp. `ControlDomeFlap`) with result 1; a status refresh made when at most 5 poller ticks
have elapsed since then reports Moving, as does the refresh inside each of the first six
ticks; a status refresh made once 6 or more ticks have elapsed reports Opened after Open and
Closed after Close, as does the refresh inside every tick from the seventh on. -/
theorem C11_simulated_actuator_countdown (d : State) (t : Tty)
    (hsim : d.sim = true) (hc : d.connected = true) (n : Nat) :
    (∀ op, (ControlDomeShutter d t op).1 = 1) ∧ (∀ op, (ControlDomeFlap d t op).1 = 1) ∧
    (n ≤ 5 → ∀ op,
      (UpdateShutterStatus (afterShutterControl d t op n).1
        (afterShutterControl d t op n).2).2.1.shutterStatus = SHUTTER_MOVING ∧
      tickShutterStatus (afterShutterControl d t op n).1 (afterShutterControl d t op n).2
        = SHUTTER_MOVING) ∧
    (n ≤ 5 → ∀ op,
      (UpdateFlapStatus (afterFlapControl d t op n).1
        (afterFlapControl d t op n).2).2.1.flapStatus = FLAP_MOVING ∧
      tickFlapStatus (afterFlapControl d t op n).1 (afterFlapControl d t op n).2
        = FLAP_MOVING) ∧
    (6 ≤ n →
      (UpdateShutterStatus (afterShutterControl d t SHUTTER_OPEN n).1
        (afterShutterControl d t SHUTTER_OPEN n).2).2.1.shutterStatus = SHUTTER_OPENED ∧
      tickShutterStatus (afterShutterControl d t SHUTTER_OPEN n).1
        (afterShutterControl d t SHUTTER_OPEN n).2 = SHUTTER_OPENED ∧
      (UpdateShutterStatus (afterShutterControl d t SHUTTER_CLOSE n).1
        (afterShutterControl d t SHUTTER_CLOSE n).2).2.1.shutterStatus = SHUTTER_CLOSED ∧
      tickShutterStatus (afterShutterControl d t SHUTTER_CLOSE n).1
        (afterShutterControl d t SHUTTER_CLOSE n).2 = SHUTTER_CLOSED) ∧
    (6 ≤ n →
      (UpdateFlapStatus (afterFlapControl d t FLAP_OPEN n).1
        (afterFlapControl d t FLAP_OPEN n).2).2.1.flapStatus = FLAP_OPENED ∧
      tickFlapStatus (afterFlapControl d t FLAP_OPEN n).1
        (afterFlapControl d t FLAP_OPEN n).2 = FLAP_OPENED ∧
      (UpdateFlapStatus (afterFlapControl d t FLAP_CLOSE n).1
        (afterFlapControl d t FLAP_CLOSE n).2).2.1.flapStatus = FLAP_CLOSED ∧
      tickFlapStatus (afterFlapControl d t FLAP_CLOSE n).1
        (afterFlapControl d t FLAP_CLOSE n).2 = FLAP_CLOSED) := by
  refine ⟨fun op => by rw [ControlDomeShutter_sim d t op hsim],
    fun op => by rw [ControlDomeFlap_sim d t op hsim],
    fun h op => (shutter_report_after_control d t op hsim hc n).1 h,
    fun h op => (flap_report_after_control d t op hsim hc n).1 h, fun h => ?_, fun h => ?_⟩
  · have o := (shutter_report_after_control d t SHUTTER_OPEN hsim hc n).2 h
    have c := (shutter_report_after_control d t SHUTTER_CLOSE hsim hc n).2 h
    rw [if_pos rfl] at o
    rw [if_neg (by decide)] at c
    exact ⟨o.1, o.2, c.1, c.2⟩
  · have o := (flap_report_after_control d t FLAP_OPEN hsim hc n).2 h
    have c := (flap_report_after_control d t FLAP_CLOSE hsim hc n).2 h
    rw [if_pos rfl] at o
    rw [if_neg (by decide)] at c
    exact ⟨o.1, o.2, c.1, c.2⟩

/-- C11 witness: the closed simulated driver at azimuth 100, seven ticks after opening the
shutter and three ticks after opening the flap. -/
theorem C11_simulated_actuator_countdown_witness :
    (readyState true 100).sim = true ∧ (readyState true 100).connected = true ∧
    (UpdateShutterStatus (afterShutterControl (readyState true 100) idleTty SHUTTER_OPEN 7).1
      (afterShutterControl (readyState true 100) idleTty SHUTTER_OPEN 7).2).2.1.shutterStatus
        = SHUTTER_OPENED ∧
    (UpdateFlapStatus (afterFlapControl (readyState true 100) idleTty FLAP_OPEN 3).1
      (afterFlapControl (readyState true 100) idleTty FLAP_OPEN 3).2).2.1.flapStatus
        = FLAP_MOVING :=
  ⟨rfl, rfl,
   ((C11_simulated_actuator_countdown (readyState true 100) idleTty rfl rfl 7).2.2.2.2.1
      (by decide)).1,
   ((C11_simulated_actuator_countdown (readyState true 100) idleTty rfl rfl 3).2.2.2.1
      (by decide) FLAP_OPEN).1⟩

/-! ## Entry points: what they write -/

/-- While the dome is not calibrated `MoveAbsDome` returns -1 at its first test. -/
theorem MoveAbsDome_unknown (d : State) (t : Tty) (az : ℚ) (h : d.status = DOME_UNKNOWN) :
    MoveAbsDome d t az = (-1, d, t) := by
  simp [MoveAbsDome, h]

/-- Method `MoveAbsDome` writes no member but `targetAz`. -/
theorem MoveAbsDome_frame (d : State) (t : Tty) (az : ℚ) :
    ∃ ta, (MoveAbsDome d t az).2.1 = { d with targetAz := ta } := by
  by_cases h : d.status = DOME_UNKNOWN
  · rw [MoveAbsDome_unknown d t az h]
    exact ⟨d.targetAz, rfl⟩
  · rw [MoveAbsDome_state d t az h]
    exact ⟨az, rfl⟩

/-- Method `MoveRelDome` writes no member but `targetAz`. -/
theorem MoveRelDome_frame (d : State) (t : Tty) (cw : Bool) (azDiff : ℚ) :
    ∃ ta, (MoveRelDome d t cw azDiff).2.1 = { d with targetAz := ta } := by
  simp only [MoveRelDome]
  split_ifs
  all_goals
    obtain ⟨ta, h⟩ := MoveAbsDome_frame _ t _
    rw [h]
    exact ⟨ta, rfl⟩

/-- Method `ParkDome` writes no member but `targetAz`. -/
theorem ParkDome_frame (d : State) (t : Tty) :
    ∃ ta, (ParkDome d t).2.1 = { d with targetAz := ta } := by
  simp only [ParkDome]
  obtain ⟨ta, h⟩ := MoveAbsDome_frame { d with targetAz := d.DomeParamN_PARK } t
    d.DomeParamN_PARK
  rw [h]
  exact ⟨ta, rfl⟩

/-- Method `HomeDome` writes no member but `targetAz`. -/
theorem HomeDome_frame (d : State) (t : Tty) :
    ∃ ta, (HomeDome d t).2.1 = { d with targetAz := ta } := by
  simp only [HomeDome]
  obtain ⟨ta, h⟩ := MoveAbsDome_frame { d with targetAz := d.DomeParamN_HOME } t
    d.DomeParamN_HOME
  rw [h]
  exact ⟨ta, rfl⟩

/-- Method `AbortDome` writes no member but `targetAz`. -/
theorem AbortDome_frame (d : State) (t : Tty) :
    ∃ ta, (AbortDome d t).2.1 = { d with targetAz := ta } := by
  simp only [AbortDome]
  exact MoveAbsDome_frame d t d.DomeAbsPosN_value

/-- Method `ControlDomeShutter` writes the shutter members only, and the simulated shutter
either stays as it is or starts moving. -/
theorem ControlDomeShutter_frame (d : State) (t : Tty) (op : ShutterOperation) :
    ∃ tm ss st, (ControlDomeShutter d t op).2.1 =
      { d with targetShutter := op, simShutterTimer := tm, simShutterStatus := ss,
               shutterStatus := st } ∧
      (ss = d.simShutterStatus ∨ ss = SHUTTER_MOVING) := by
  simp only [ControlDomeShutter]
  split
  · split_ifs <;> exact ⟨_, _, _, rfl, Or.inl rfl⟩
  · split_ifs <;>
      first | exact ⟨_, _, _, rfl, Or.inl rfl⟩ | exact ⟨_, _, _, rfl, Or.inr rfl⟩

/-- Method `ControlDomeFlap` writes the flap members only, and the simulated flap either
stays as it is or starts moving. -/
theorem ControlDomeFlap_frame (d : State) (t : Tty) (op : FlapOperation) :
    ∃ tm ss st, (ControlDomeFlap d t op).2.1 =
      { d with targetFlap := op, simFlapTimer := tm, simFlapStatus := ss,
               flapStatus := st } ∧
      (ss = d.simFlapStatus ∨ ss = FLAP_MOVING) := by
  simp only [ControlDomeFlap]
  split
  · split_ifs <;> exact ⟨_, _, _, rfl, Or.inl rfl⟩
  · split_ifs <;>
      first | exact ⟨_, _, _, rfl, Or.inl rfl⟩ | exact ⟨_, _, _, rfl, Or.inr rfl⟩

/-- The calibration request writes the calibration members, the target and the state of
the move only. -/
theorem ISNewSwitch_Calibrate_frame (d : State) (t : Tty) :
    ∃ e sp st sg cs c1 ta b, (ISNewSwitch_Calibrate d t).2.1 =
      { d with CalibrateS_0 := e, CalibrateSP_s := sp, status := st, calibrationStage := sg,
               calibrationStart := cs, calibrationTarget1 := c1, targetAz := ta,
               DomeAbsPosNP_s := b } := by
  simp only [ISNewSwitch_Calibrate]
  split_ifs
  · exact ⟨_, _, _, _, _, _, _, _, rfl⟩
  · obtain ⟨ta, h⟩ := AbortDome_frame { d with CalibrateS_0 := ISS_OFF } t
    rw [h]
    exact ⟨_, _, _, _, _, _, _, _, rfl⟩
  all_goals
    obtain ⟨ta, h⟩ := MoveAbsDome_frame _ t _
    rw [h]
    exact ⟨_, _, _, _, _, _, _, _, rfl⟩

/-- The calibration request never sets the status to Ready. -/
theorem ISNewSwitch_Calibrate_status (d : State) (t : Tty) (h : d.status ≠ DOME_READY) :
    (ISNewSwitch_Calibrate d t).2.1.status ≠ DOME_READY := by
  simp only [ISNewSwitch_Calibrate]
  rw [if_neg h]
  split_ifs
  · simp
  all_goals
    obtain ⟨ta, e⟩ := MoveAbsDome_frame _ t _
    rw [e]
    simp

/-! ## C26: the simulated position refresh on multiples of 0.1 -/

/-- The azimuth after a simulated advance, with the azimuth range 0 to 360: the current
azimuth moved toward the target by the speed, when both are in the range and at least the
low speed apart. -/
theorem simAdvance_value (d : State) (hsim : d.sim = true)
    (hmin : d.DomeAbsPosN_min = 0) (hmax : d.DomeAbsPosN_max = 360)
    (hv0 : 0 ≤ d.DomeAbsPosN_value) (hv1 : d.DomeAbsPosN_value ≤ 360)
    (ht0 : 0 ≤ d.targetAz) (ht1 : d.targetAz ≤ 360)
    (hfar : 1 / 2 ≤ |d.targetAz - d.DomeAbsPosN_value|) :
    (simAdvance d).DomeAbsPosN_value =
      (if d.targetAz > d.DomeAbsPosN_value then
         d.DomeAbsPosN_value + (if |d.targetAz - d.DomeAbsPosN_value| > 5 then 5 else 1 / 2)
       else
         d.DomeAbsPosN_value - (if |d.targetAz - d.DomeAbsPosN_value| > 5 then 5 else 1 / 2))
      := by
  simp only [simAdvance, hsim, if_true, hmin, hmax, SIM_DOME_HI_SPEED, SIM_DOME_LO_SPEED]
  by_cases hgt : d.targetAz > d.DomeAbsPosN_value
  · have habs : |d.targetAz - d.DomeAbsPosN_value| = d.targetAz - d.DomeAbsPosN_value :=
      abs_of_pos (by linarith)
    rw [habs] at hfar ⊢
    simp only [hgt, if_true]
    by_cases h5 : d.targetAz - d.DomeAbsPosN_value > 5
    · simp only [h5, if_true]
      split_ifs <;> first | rfl | (exfalso; linarith)
    · simp only [h5, if_false]
      split_ifs <;> first | rfl | (exfalso; linarith)
  · have hlt : d.targetAz < d.DomeAbsPosN_value := by
      rcases lt_or_eq_of_le (not_lt.mp hgt) with h | h
      · exact h
      · rw [h, sub_self, abs_zero] at hfar; norm_num at hfar
    have habs : |d.targetAz - d.DomeAbsPosN_value| = d.DomeAbsPosN_value - d.targetAz := by
      rw [abs_of_neg (by linarith)]; ring
    rw [habs] at hfar ⊢
    simp only [hgt, hlt, if_true, if_false]
    by_cases h5 : d.DomeAbsPosN_value - d.targetAz > 5
    · simp only [h5, if_true]
      split_ifs <;> first | rfl | (exfalso; linarith)
    · simp only [h5, if_false]
      split_ifs <;> first | rfl | (exfalso; linarith)

/-- C23: in simulation mode, with the azimuth range 0 to 360, for a target and a current
azimuth in [0, 360] that are at least 0.5 apart, the simulated advance step moves the
current azimuth toward the target by exactly 5 when they are more than 5 apart and by
exactly 0.5 otherwise; the new azimuth lies between the old one and the target, so it
does not pass the target and stays in [0, 360], and the distance to the target decreases
by the step. -/
theorem C23_simulated_advance_step (d : State) (hsim : d.sim = true)
    (hmin : d.DomeAbsPosN_min = 0) (hmax : d.DomeAbsPosN_max = 360)
    (hv0 : 0 ≤ d.DomeAbsPosN_value) (hv1 : d.DomeAbsPosN_value ≤ 360)
    (ht0 : 0 ≤ d.targetAz) (ht1 : d.targetAz ≤ 360)
    (hfar : 1 / 2 ≤ |d.targetAz - d.DomeAbsPosN_value|) :
    (|d.targetAz - d.DomeAbsPosN_value| > SIM_DOME_HI_SPEED →
      |(simAdvance d).DomeAbsPosN_value - d.DomeAbsPosN_value| = SIM_DOME_HI_SPEED ∧
      |d.targetAz - (simAdvance d).DomeAbsPosN_value| =
        |d.targetAz - d.DomeAbsPosN_value| - SIM_DOME_HI_SPEED) ∧
    (¬ |d.targetAz - d.DomeAbsPosN_value| > SIM_DOME_HI_SPEED →
      |(simAdvance d).DomeAbsPosN_value - d.DomeAbsPosN_value| = SIM_DOME_LO_SPEED ∧
      |d.targetAz - (simAdvance d).DomeAbsPosN_value| =
        |d.targetAz - d.DomeAbsPosN_value| - SIM_DOME_LO_SPEED) ∧
    (d.targetAz > d.DomeAbsPosN_value →
      d.DomeAbsPosN_value < (simAdvance d).DomeAbsPosN_value ∧
      (simAdvance d).DomeAbsPosN_value ≤ d.targetAz) ∧
    (d.targetAz < d.DomeAbsPosN_value →
      d.targetAz ≤ (simAdvance d).DomeAbsPosN_value ∧
      (simAdvance d).DomeAbsPosN_value < d.DomeAbsPosN_value) ∧
    0 ≤ (simAdvance d).DomeAbsPosN_value ∧ (simAdvance d).DomeAbsPosN_value ≤ 360 ∧
    |d.targetAz - (simAdvance d).DomeAbsPosN_value| < |d.targetAz - d.DomeAbsPosN_value| ∧
    (simAdvance d).targetAz = d.targetAz := by
  have hT : (simAdvance d).targetAz = d.targetAz := by rw [simAdvance_frame d]
  rw [hT, simAdvance_value d hsim hmin hmax hv0 hv1 ht0 ht1 hfar]
  simp only [SIM_DOME_HI_SPEED, SIM_DOME_LO_SPEED]
  by_cases hgt : d.targetAz > d.DomeAbsPosN_value
  · have habs : |d.targetAz - d.DomeAbsPosN_value| = d.targetAz - d.DomeAbsPosN_value :=
      abs_of_pos (by linarith)
    rw [habs] at hfar ⊢
    simp only [hgt, if_true]
    by_cases h5 : d.targetAz - d.DomeAbsPosN_value > 5
    · simp only [h5, if_true]
      have a1 : |d.DomeAbsPosN_value + 5 - d.DomeAbsPosN_value| = 5 := by
        rw [add_sub_cancel_left]; norm_num
      have a2 : |d.targetAz - (d.DomeAbsPosN_value + 5)| =
          d.targetAz - d.DomeAbsPosN_value - 5 := by
        rw [abs_of_pos (by linarith)]; ring
      rw [a1, a2]
      refine ⟨fun _ => ⟨rfl, rfl⟩, fun h => absurd trivial h, fun _ => ?_, fun h => ?_,
        ?_, ?_, ?_, trivial⟩
      · constructor <;> linarith
      · exact absurd h (by linarith)
      all_goals linarith
    · simp only [h5, if_false]
      have a1 : |d.DomeAbsPosN_value + 1 / 2 - d.DomeAbsPosN_value| = 1 / 2 := by
        rw [add_sub_cancel_left]; norm_num
      have a2 : |d.targetAz - (d.DomeAbsPosN_value + 1 / 2)| =
          d.targetAz - d.DomeAbsPosN_value - 1 / 2 := by
        rw [abs_of_nonneg (by linarith)]; ring
      rw [a1, a2]
      refine ⟨fun h => absurd h (by simp), fun _ => ⟨rfl, rfl⟩, fun _ => ?_, fun h => ?_,
        ?_, ?_, ?_, trivial⟩
      · constructor <;> linarith
      · exact absurd h (by linarith)
      all_goals linarith
  · have hlt : d.targetAz < d.DomeAbsPosN_value := by
      rcases lt_or_eq_of_le (not_lt.mp hgt) with h | h
      · exact h
      · rw [h, sub_self, abs_zero] at hfar; norm_num at hfar
    have habs : |d.targetAz - d.DomeAbsPosN_value| = d.DomeAbsPosN_value - d.targetAz := by
      rw [abs_of_neg (by linarith)]; ring
    rw [habs] at hfar ⊢
    simp only [hgt, if_false]
    by_cases h5 : d.DomeAbsPosN_value - d.targetAz > 5
    · simp only [h5, if_true]
      have a1 : |d.DomeAbsPosN_value - 5 - d.DomeAbsPosN_value| = 5 := by
        rw [sub_sub_cancel_left]; norm_num
      have a2 : |d.targetAz - (d.DomeAbsPosN_value - 5)| =
          d.DomeAbsPosN_value - d.targetAz - 5 := by
        rw [abs_of_neg (by linarith)]; ring
      rw [a1, a2]
      refine ⟨fun _ => ⟨rfl, rfl⟩, fun h => absurd trivial h, fun h => ?_, fun _ => ?_,
        ?_, ?_, ?_, trivial⟩
      · exact False.elim h
      · constructor <;> linarith
      all_goals linarith
    · simp only [h5, if_false]
      have a1 : |d.DomeAbsPosN_value - 1 / 2 - d.DomeAbsPosN_value| = 1 / 2 := by
        rw [sub_sub_cancel_left]; norm_num
      have a2 : |d.targetAz - (d.DomeAbsPosN_value - 1 / 2)| =
          d.DomeAbsPosN_value - d.targetAz - 1 / 2 := by
        rw [abs_of_nonpos (by linarith)]; ring
      rw [a1, a2]
      refine ⟨fun h => absurd h (by simp), fun _ => ⟨rfl, rfl⟩, fun h => ?_, fun _ => ?_,
        ?_, ?_, ?_, trivial⟩
      · exact False.elim h
      · constructor <;> linarith
      all_goals linarith

/-- C23 for the calibrated simulated driver standing at azimuth 10 and moving to 100. -/
theorem C23_simulated_advance_step_witness :
    (movingState true 10 100).sim = true ∧
    1 / 2 ≤ |(movingState true 10 100).targetAz - (movingState true 10 100).DomeAbsPosN_value| ∧
    |(movingState true 10 100).targetAz -
        (simAdvance (movingState true 10 100)).DomeAbsPosN_value| <
      |(movingState true 10 100).targetAz - (movingState true 10 100).DomeAbsPosN_value| :=
  have hfar : 1 / 2 ≤
      |(movingState true 10 100).targetAz - (movingState true 10 100).DomeAbsPosN_value| := by
    norm_num [movingState, initialState, abs_of_pos]
  ⟨rfl, hfar,
   (C23_simulated_advance_step (movingState true 10 100) rfl rfl rfl
      (by norm_num [movingState, initialState]) (by norm_num [movingState, initialState])
      (by norm_num [movingState, initialState]) (by norm_num [movingState, initialState])
      hfar).2.2.2.2.2.2.1⟩

/-! ## C25: motion requests while the dome is not calibrated -/

/-- The requests built on `MoveAbsDome`, made while the dome is not calibrated: each writes
its target to `targetAz` and then has `MoveAbsDome` return -1 with the line untouched. -/
theorem rejected_requests (d : State) (t : Tty) (h : d.status = DOME_UNKNOWN)
    (cw : Bool) (azDiff : ℚ) :
    (MoveRelDome d t cw azDiff).1 = -1 ∧ (MoveRelDome d t cw azDiff).2.2 = t ∧
    (MoveRelDome d t cw azDiff).2.1 =
      { d with targetAz := (MoveRelDome d t cw azDiff).2.1.targetAz } ∧
    ParkDome d t = (-1, { d with targetAz := d.DomeParamN_PARK }, t) ∧
    HomeDome d t = (-1, { d with targetAz := d.DomeParamN_HOME }, t) := by
  refine ⟨?_, ?_, ?_, ?_, ?_⟩
  · simp only [MoveRelDome, MoveAbsDome]
    split_ifs <;> simp [h]
  · simp only [MoveRelDome, MoveAbsDome]
    split_ifs <;> simp [h]
  · obtain ⟨ta, e⟩ := MoveRelDome_frame d t cw azDiff
    rw [e]
  · simp [ParkDome, MoveAbsDome, h]
  · simp [HomeDome, MoveAbsDome, h]

/-- C25 (counterexample): the freshly constructed driver (status Unknown, target 0)
standing at azimuth 100 is asked to move 20 degrees clockwise. The request returns -1 and
sends nothing, but `targetAz` is 120 afterwards, not 0 as before the call; with a park
position of 90, `ParkDome` likewise leaves `targetAz` at 90. -/
theorem C25_rejected_request_writes_target :
    (initialState false 100).status = DOME_UNKNOWN ∧
    (initialState false 100).targetAz = 0 ∧
    (MoveRelDome (initialState false 100) idleTty true 20).1 = -1 ∧
    (MoveRelDome (initialState false 100) idleTty true 20).2.2 = idleTty ∧
    (MoveRelDome (initialState false 100) idleTty true 20).2.1.targetAz = 120 ∧
    (MoveRelDome (initialState false 100) idleTty true 20).2.1 ≠ initialState false 100 ∧
    (ParkDome { initialState false 100 with DomeParamN_PARK := 90 } idleTty).1 = -1 ∧
    (ParkDome { initialState false 100 with DomeParamN_PARK := 90 } idleTty).2.1.targetAz
      = 90 := by
  have r := rejected_requests (initialState false 100) idleTty rfl true 20
  have p := rejected_requests { initialState false 100 with DomeParamN_PARK := 90 } idleTty
    rfl true 20
  have e : (MoveRelDome (initialState false 100) idleTty true 20).2.1.targetAz = 120 := by
    rw [MoveRelDome_target]
    norm_num [initialState]
  refine ⟨rfl, rfl, r.1, r.2.1, e, ?_, ?_, ?_⟩
  · intro hc
    rw [hc] at e
    norm_num [initialState] at e
  · rw [p.2.2.2.1]
  · rw [p.2.2.2.1]

/-- C25 (amended): a motion request made while `DomeStatus = Unknown` is rejected:
`MoveRelDome`, `ParkDome` and `HomeDome` each return -1, send no command (the line is as
before) and leave every member other than `targetAz` as it was; `targetAz` is overwritten
with the requested target - the wrapped sum for a relative move, the park position, the
home position. `MoveAbsDome` itself leaves `targetAz` unchanged as well. -/
theorem C25_rejected_motion_request (d : State) (t : Tty) (cw : Bool) (azDiff az : ℚ)
    (h : d.status = DOME_UNKNOWN) :
    MoveAbsDome d t az = (-1, d, t) ∧
    (MoveRelDome d t cw azDiff).1 = -1 ∧ (MoveRelDome d t cw azDiff).2.2 = t ∧
    (MoveRelDome d t cw azDiff).2.1 =
      { d with targetAz := (MoveRelDome d t cw azDiff).2.1.targetAz } ∧
    (MoveRelDome d t cw azDiff).2.1.targetAz =
      (if (if d.DomeAbsPosN_value + azDiff * (if cw then 1 else -1) < d.DomeAbsPosN_min
           then d.DomeAbsPosN_value + azDiff * (if cw then 1 else -1) + d.DomeAbsPosN_max
           else d.DomeAbsPosN_value + azDiff * (if cw then 1 else -1)) > d.DomeAbsPosN_max
       then (if d.DomeAbsPosN_value + azDiff * (if cw then 1 else -1) < d.DomeAbsPosN_min
           then d.DomeAbsPosN_value + azDiff * (if cw then 1 else -1) + d.DomeAbsPosN_max
           else d.DomeAbsPosN_value + azDiff * (if cw then 1 else -1)) - d.DomeAbsPosN_max
       else (if d.DomeAbsPosN_value + azDiff * (if cw then 1 else -1) < d.DomeAbsPosN_min
           then d.DomeAbsPosN_value + azDiff * (if cw then 1 else -1) + d.DomeAbsPosN_max
           else d.DomeAbsPosN_value + azDiff * (if cw then 1 else -1))) ∧
    ParkDome d t = (-1, { d with targetAz := d.DomeParamN_PARK }, t) ∧
    HomeDome d t = (-1, { d with targetAz := d.DomeParamN_HOME }, t) := by
  obtain ⟨r1, r2, r3, r4, r5⟩ := rejected_requests d t h cw azDiff
  exact ⟨MoveAbsDome_unknown d t az h, r1, r2, r3, MoveRelDome_target d t cw azDiff, r4, r5⟩

/-- C25 witness: the freshly constructed driver asked to go home. -/
theorem C25_rejected_motion_request_witness :
    (initialState false 100).status = DOME_UNKNOWN ∧
    HomeDome (initialState false 100) idleTty =
      (-1, { initialState false 100 with
             targetAz := (initialState false 100).DomeParamN_HOME }, idleTty) :=
  ⟨rfl, (C25_rejected_motion_request (initialState false 100) idleTty true 0 0
    rfl).2.2.2.2.2.2⟩

/-! ## C21: abort -/

/-- In simulation the position refresh gives an azimuth in [0, 360) and writes no other
member the motion part reads. -/
theorem UpdatePosition_sim_range (d : State) (t : Tty) (hsim : d.sim = true) :
    0 ≤ (UpdatePosition d t).2.1.DomeAbsPosN_value ∧
    (UpdatePosition d t).2.1.DomeAbsPosN_value < 360 ∧
    (UpdatePosition d t).2.1.sim = true ∧
    (UpdatePosition d t).2.1.targetAz = d.targetAz ∧
    (UpdatePosition d t).2.1.DomeAbsPosN_min = d.DomeAbsPosN_min ∧
    (UpdatePosition d t).2.1.DomeAbsPosN_max = d.DomeAbsPosN_max := by
  obtain ⟨r0, r1, -⟩ := DomeAzToMountAz_range (MountAzToDomeAz d.DomeAbsPosN_value)
    (MountAzToDomeAz_le _)
  by_cases hs : d.status = DOME_READY ∨ d.calibrationStage = CALIBRATION_COMPLETE
  · rw [UpdatePosition_sim_synced d t hsim hs]
    refine ⟨r0, r1, ?_, ?_, ?_, ?_⟩ <;> (simp only []; split_ifs <;> first | exact hsim | rfl)
  · rw [UpdatePosition_sim_unsynced d t hsim hs]
    exact ⟨r0, r1, hsim, rfl, rfl, rfl⟩

/-- In simulation, with the azimuth range 0 to 360, the azimuth a tick compares with the
target lies in [0, 360]. -/
theorem tickAzimuth_sim_range (d : State) (t : Tty) (hsim : d.sim = true)
    (hmin : d.DomeAbsPosN_min = 0) (hmax : d.DomeAbsPosN_max = 360) :
    0 ≤ tickAzimuth d t ∧ tickAzimuth d t ≤ 360 := by
  obtain ⟨u0, u1, u2, -, u4, u5⟩ := UpdatePosition_sim_range d t hsim
  rw [hmin] at u4
  rw [hmax] at u5
  simp only [tickAzimuth, simAdvance, u2, u4, u5, if_true, SIM_DOME_HI_SPEED,
    SIM_DOME_LO_SPEED]
  constructor <;> split_ifs <;> linarith

/-- In simulation, with the azimuth range 0 to 360, a target at least the tolerance above
360 is never found reached. -/
theorem no_arrival_above_range (d : State) (t : Tty) (hsim : d.sim = true)
    (hmin : d.DomeAbsPosN_min = 0) (hmax : d.DomeAbsPosN_max = 360)
    (h : 360 + d.DomeParamN_AUTOSYNC ≤ d.targetAz) :
    ¬ |d.targetAz - tickAzimuth d t| < d.DomeParamN_AUTOSYNC := by
  obtain ⟨-, a1⟩ := tickAzimuth_sim_range d t hsim hmin hmax
  intro hc
  have := (abs_lt.mp hc).2
  linarith

/-- A simulated Stage2 move to a target at least the tolerance above 360: a tick leaves the
driver in the same situation. -/
theorem stage2_stuck_tick (d : State) (t : Tty) (hsim : d.sim = true)
    (hc : d.connected = true) (hb : d.DomeAbsPosNP_s = IPS_BUSY)
    (hmin : d.DomeAbsPosN_min = 0) (hmax : d.DomeAbsPosN_max = 360)
    (h : 360 + d.DomeParamN_AUTOSYNC ≤ d.targetAz)
    (hs : d.status = DOME_CALIBRATING) (hst : d.calibrationStage = CALIBRATION_STAGE2) :
    (TimerHit d t).1.sim = true ∧ (TimerHit d t).1.connected = true ∧
    (TimerHit d t).1.DomeAbsPosNP_s = IPS_BUSY ∧
    (TimerHit d t).1.DomeAbsPosN_min = 0 ∧ (TimerHit d t).1.DomeAbsPosN_max = 360 ∧
    (TimerHit d t).1.DomeParamN_AUTOSYNC = d.DomeParamN_AUTOSYNC ∧
    (TimerHit d t).1.targetAz = d.targetAz ∧
    (TimerHit d t).1.status = DOME_CALIBRATING ∧
    (TimerHit d t).1.calibrationStage = CALIBRATION_STAGE2 := by
  have hu : ¬ (d.status = DOME_READY ∨ d.calibrationStage = CALIBRATION_COMPLETE) := by
    rw [hs, hst]; decide
  obtain ⟨a1, a2, a3, a4, a5, a6, b1, b2, b3, b4, b5, b6, hT⟩ := TimerHit_frame d t hc
  rw [hT, timerMotion_tick, if_pos hb, if_neg (no_arrival_above_range d t hsim hmin hmax h),
    simAdvance_frame, UpdatePosition_sim_unsynced d t hsim hu]
  exact ⟨hsim, hc, hb, hmin, hmax, rfl, rfl, hs, hst⟩

/-- A simulated Stage2 move to a target at least the tolerance above 360 never ends: after
any number of ticks the driver is still calibrating in Stage2 with the move in progress. -/
theorem stage2_stuck (n : Nat) : ∀ (d : State) (t : Tty), d.sim = true →
    d.connected = true → d.DomeAbsPosNP_s = IPS_BUSY →
    d.DomeAbsPosN_min = 0 → d.DomeAbsPosN_max = 360 →
    360 + d.DomeParamN_AUTOSYNC ≤ d.targetAz →
    d.status = DOME_CALIBRATING → d.calibrationStage = CALIBRATION_STAGE2 →
    (ticks n d t).1.status = DOME_CALIBRATING ∧
    (ticks n d t).1.calibrationStage = CALIBRATION_STAGE2 ∧
    (ticks n d t).1.DomeAbsPosNP_s = IPS_BUSY ∧
    (ticks n d t).1.targetAz = d.targetAz := by
  induction n with
  | zero => intro d t _ _ hb _ _ _ hs hst; exact ⟨hs, hst, hb, rfl⟩
  | succ n ih =>
    intro d t hsim hc hb hmin hmax h hs hst
    obtain ⟨c1, c2, c3, c4, c5, c6, c7, c8, c9⟩ :=
      stage2_stuck_tick d t hsim hc hb hmin hmax h hs hst
    obtain ⟨i1, i2, i3, i4⟩ := ih (TimerHit d t).1 (TimerHit d t).2 c1 c2 c3 c4 c5
      (by rw [c6, c7]; exact h) c8 c9
    exact ⟨i1, i2, i3, i4.trans c7⟩

/-- The calibration request made of the freshly constructed simulated driver. -/
theorem calibrate_initial_sim (start : ℚ) :
    ISNewSwitch_Calibrate (initialState true start) idleTty =
      (true,
       { calibrationSetup (initialState true start) with
         targetAz := (calibrationSetup (initialState true start)).calibrationTarget1,
         DomeAbsPosNP_s := IPS_BUSY, CalibrateSP_s := IPS_BUSY }, idleTty) := by
  have h1 : (initialState true start).status ≠ DOME_READY :=
    fun hc => absurd (show DOME_UNKNOWN = DOME_READY from hc) (by decide)
  have h2 : (initialState true start).CalibrateSP_s ≠ IPS_BUSY :=
    fun hc => absurd (show IPS_IDLE = IPS_BUSY from hc) (by decide)
  have h3 : (calibrationSetup (initialState true start)).status ≠ DOME_UNKNOWN :=
    fun hc => absurd (show DOME_CALIBRATING = DOME_UNKNOWN from hc) (by decide)
  rw [ISNewSwitch_Calibrate_eq _ _ h1 h2, MoveAbsDome_sim _ _ _ h3 rfl]
  rfl

/-- The tick that detects Stage1 arrival sets the target to the Stage1 target plus 2 and
marks the move busy again. -/
theorem stage1_arrival_tick (d : State) (t : Tty) (harr : arrivalDetected d t)
    (hcal : (UpdatePosition d t).2.1.status = DOME_CALIBRATING)
    (hst : (UpdatePosition d t).2.1.calibrationStage = CALIBRATION_STAGE1) :
    (TimerHit d t).1.targetAz = d.targetAz + 2 ∧
    (TimerHit d t).1.calibrationStage = CALIBRATION_STAGE2 ∧
    (TimerHit d t).1.status = DOME_CALIBRATING ∧
    (TimerHit d t).1.DomeAbsPosNP_s = IPS_BUSY := by
  obtain ⟨m1, m2, m3, -, m5, -, -⟩ := TimerHit_motion_members d t harr.1
  obtain ⟨e1, e2, e3, -, -, -, -, -⟩ := arrive_simAdvance_status (UpdatePosition d t).2.1
  obtain ⟨k1, -, -, -⟩ := UpdatePosition_keeps d t
  rw [timerMotion_arrival d t harr] at m1 m2 m3 m5
  rw [calibrationAdvance_stage1 _ _ (e1.trans hcal) (e2.trans hst)] at m1 m2 m3 m5
  refine ⟨?_, m2, ?_, m5⟩
  · rw [m3]
    show (arrive (simAdvance (UpdatePosition d t).2.1)).DomeAbsPosN_value + 2 = _
    rw [e3, k1]
  · rw [m1]
    exact e1.trans hcal

/-- A tick writes neither the azimuth range nor the tolerance. -/
theorem TimerHit_keeps_range (d : State) (t : Tty) :
    (TimerHit d t).1.DomeAbsPosN_min = d.DomeAbsPosN_min ∧
    (TimerHit d t).1.DomeAbsPosN_max = d.DomeAbsPosN_max ∧
    (TimerHit d t).1.DomeParamN_AUTOSYNC = d.DomeParamN_AUTOSYNC := by
  by_cases hc : d.connected = true
  · obtain ⟨a1, a2, a3, a4, a5, a6, b1, b2, b3, b4, b5, b6, hT⟩ := TimerHit_frame d t hc
    obtain ⟨s, c, cs, v, b, g, r, c2, ta, hM⟩ := TimerHit_before_actuators d t
    rw [hT, hM]
    exact ⟨rfl, rfl, rfl⟩
  · have hT : TimerHit d t = (d, t) := by
      simp only [TimerHit, Bool.not_eq_true] at hc ⊢
      rw [if_pos hc]
    rw [hT]
    exact ⟨rfl, rfl, rfl⟩

/-- The simulated driver in Stage1 of a calibration requested at azimuth 180, at 358.5. -/
theorem simStage1_180 :
    simStage1 180 (717 / 2) =
      { calibrationSetup (initialState true 180) with
        targetAz := 359, DomeAbsPosNP_s := IPS_BUSY, CalibrateSP_s := IPS_BUSY,
        DomeAbsPosN_value := 717 / 2 } := by
  have h : (calibrationSetup (initialState true 180)).calibrationTarget1 = 359 := by
    norm_num [calibrationSetup, initialState]
  simp only [simStage1, calibrate_initial_sim, h]

/-- The tick of that driver compares the target 359 with the azimuth 359. -/
theorem tickAzimuth_simStage1_180 : tickAzimuth (simStage1 180 (717 / 2)) idleTty = 359 := by
  have hu : ¬ ((simStage1 180 (717 / 2)).status = DOME_READY ∨
      (simStage1 180 (717 / 2)).calibrationStage = CALIBRATION_COMPLETE) := by
    rw [simStage1_180]; decide
  have hsim : (simStage1 180 (717 / 2)).sim = true := by rw [simStage1_180]; rfl
  have hv : (simStage1 180 (717 / 2)).DomeAbsPosN_value = ((3585 : Nat) : ℚ) / 10 := by
    rw [simStage1_180]; norm_num
  rw [tickAzimuth_sim_unsynced _ _ hsim hu, hv,
    (DomeAzToMountAz_MountAzToDomeAz_tenths 3585 (by decide)).1, simStage1_180]
  norm_num [simAdvance, calibrationSetup, initialState, SIM_DOME_HI_SPEED,
    SIM_DOME_LO_SPEED, abs_of_pos]

/-- The Stage1 target of a calibration requested at `start` in [0, 360) lies in [0, 360],
and the Stage2 target, 2 above it, exceeds 360 exactly for `start` in (179, 181]. -/
theorem stage1_target_range (start : ℚ) (h0 : 0 ≤ start) (h1 : start < 360) :
    (ISNewSwitch_Calibrate (initialState true start) idleTty).2.1.targetAz =
      (if start + 179 > 360 then start + 179 - 360 else start + 179) ∧
    0 ≤ (ISNewSwitch_Calibrate (initialState true start) idleTty).2.1.targetAz ∧
    (ISNewSwitch_Calibrate (initialState true start) idleTty).2.1.targetAz ≤ 360 ∧
    (360 < (ISNewSwitch_Calibrate (initialState true start) idleTty).2.1.targetAz + 2 ↔
      179 < start ∧ start ≤ 181) := by
  have e : (ISNewSwitch_Calibrate (initialState true start) idleTty).2.1.targetAz =
      (if start + 179 > 360 then start + 179 - 360 else start + 179) := by
    rw [calibrate_initial_sim]
    rfl
  rw [e]
  refine ⟨rfl, ?_, ?_, ?_⟩
  · split_ifs <;> linarith
  · split_ifs <;> linarith
  · split_ifs with h
    · constructor
      · intro hc; exfalso; linarith
      · intro hc; exfalso; linarith [hc.2]
    · constructor
      · intro hc; exact ⟨by linarith, by linarith⟩
      · intro hc; linarith [hc.1]

/-- C22 (the code at the failing input): the simulated calibration requested at azimuth
180. The Stage1 target is 359. The tick that detects Stage1 arrival (the dome having come
to 358.5) commands the Stage2 target 359 + 2 = 361, which is not in [0, 360): line 665
adds 2 without the wrap that lines 289-290 apply to the Stage1 target. The move command
carries the device value 1810, the position of azimuth 1, and the simulated driver, whose
azimuth stays in [0, 360], never finds 361 reached: after any number of further ticks it is
still calibrating in Stage2 with the move in progress. -/
theorem C22_stage2_target_above_360 :
    (ISNewSwitch_Calibrate (initialState true 180) idleTty).1 = true ∧
    (ISNewSwitch_Calibrate (initialState true 180) idleTty).2.1.calibrationStart = 180 ∧
    (ISNewSwitch_Calibrate (initialState true 180) idleTty).2.1.targetAz = 359 ∧
    arrivalDetected (simStage1 180 (717 / 2)) idleTty ∧
    (TimerHit (simStage1 180 (717 / 2)) idleTty).1.calibrationStage = CALIBRATION_STAGE2 ∧
    (TimerHit (simStage1 180 (717 / 2)) idleTty).1.targetAz = 361 ∧
    ¬ ((TimerHit (simStage1 180 (717 / 2)) idleTty).1.targetAz < 360) ∧
    (TimerHit (simStage1 180 (717 / 2)) idleTty).1.DomeAbsPosNP_s = IPS_BUSY ∧
    MountAzToDomeAz 361 = 1810 ∧ DomeAzToMountAz 1810 = 1 ∧
    ∀ n : Nat,
      (ticks n (TimerHit (simStage1 180 (717 / 2)) idleTty).1
        (TimerHit (simStage1 180 (717 / 2)) idleTty).2).1.status = DOME_CALIBRATING ∧
      (ticks n (TimerHit (simStage1 180 (717 / 2)) idleTty).1
        (TimerHit (simStage1 180 (717 / 2)) idleTty).2).1.calibrationStage
          = CALIBRATION_STAGE2 ∧
      (ticks n (TimerHit (simStage1 180 (717 / 2)) idleTty).1
        (TimerHit (simStage1 180 (717 / 2)) idleTty).2).1.DomeAbsPosNP_s = IPS_BUSY := by
  have hS := simStage1_180
  have f1 : (simStage1 180 (717 / 2)).connected = true := by rw [hS]; rfl
  have f2 : (simStage1 180 (717 / 2)).DomeAbsPosNP_s = IPS_BUSY := by rw [hS]
  have f3 : (simStage1 180 (717 / 2)).targetAz = 359 := by rw [hS]
  have f4 : (simStage1 180 (717 / 2)).DomeParamN_AUTOSYNC = 1 / 2 := by rw [hS]; rfl
  have f5 : (simStage1 180 (717 / 2)).sim = true := by rw [hS]; rfl
  have f6 : (simStage1 180 (717 / 2)).DomeAbsPosN_min = 0 := by rw [hS]; rfl
  have f7 : (simStage1 180 (717 / 2)).DomeAbsPosN_max = 360 := by rw [hS]; rfl
  have harr : arrivalDetected (simStage1 180 (717 / 2)) idleTty := by
    refine ⟨f1, f2, ?_⟩
    rw [tickAzimuth_simStage1_180, f3, f4]
    norm_num
  have hu : ¬ ((simStage1 180 (717 / 2)).status = DOME_READY ∨
      (simStage1 180 (717 / 2)).calibrationStage = CALIBRATION_COMPLETE) := by
    rw [hS]; decide
  have hU := UpdatePosition_sim_unsynced (simStage1 180 (717 / 2)) idleTty f5 hu
  have p1 : (UpdatePosition (simStage1 180 (717 / 2)) idleTty).2.1.status =
      DOME_CALIBRATING := by rw [hU, hS]; rfl
  have p2 : (UpdatePosition (simStage1 180 (717 / 2)) idleTty).2.1.calibrationStage =
      CALIBRATION_STAGE1 := by rw [hU, hS]; rfl
  obtain ⟨t1, t2, t3, t4⟩ := stage1_arrival_tick _ _ harr p1 p2
  rw [f3] at t1
  have t1' : (TimerHit (simStage1 180 (717 / 2)) idleTty).1.targetAz = 361 := by
    rw [t1]; norm_num
  obtain ⟨-, s2, s3⟩ := TimerHit_status (simStage1 180 (717 / 2)) idleTty f1
  obtain ⟨r1, r2, r3⟩ := TimerHit_keeps_range (simStage1 180 (717 / 2)) idleTty
  obtain ⟨c1, c2, c3, c4⟩ := stage1_target_range 180 (by norm_num) (by norm_num)
  have hm : MountAzToDomeAz 361 = 1810 := by
    have h := MountAzToDomeAz_tenths 3610
    have e : ((3610 : Int) : ℚ) / 10 = 361 := by norm_num
    rw [e] at h
    rw [h]
    decide
  refine ⟨by rw [calibrate_initial_sim], ?_, ?_, harr, t2, t1', ?_, t4, hm, ?_, fun n => ?_⟩
  · rw [calibrate_initial_sim]; rfl
  · rw [c1]; norm_num
  · rw [t1']; norm_num
  · norm_num [DomeAzToMountAz]
  · obtain ⟨i1, i2, i3, -⟩ := stage2_stuck n _ (TimerHit (simStage1 180 (717 / 2)) idleTty).2
      (s2.trans f5) s3 t4 (r1.trans f6) (r2.trans f7)
      (by rw [r3, f4, t1']; norm_num) t3 t2
    exact ⟨i1, i2, i3⟩

/-! ## C24: the simulated actuators are never Unknown -/

/-- The shutter countdown leaves the simulated shutter as it is or resolves it to Opened
or Closed, and does not touch the simulated flap. -/
theorem timerShutter_simStatus (d : State) :
    ((timerShutter d).simShutterStatus = d.simShutterStatus ∨
      (timerShutter d).simShutterStatus = SHUTTER_OPENED ∨
      (timerShutter d).simShutterStatus = SHUTTER_CLOSED) ∧
    (timerShutter d).simFlapStatus = d.simFlapStatus := by
  simp only [timerShutter]
  split_ifs
  · exact ⟨Or.inr (Or.inl rfl), rfl⟩
  · exact ⟨Or.inr (Or.inr rfl), rfl⟩
  · exact ⟨Or.inl rfl, rfl⟩
  · exact ⟨Or.inl rfl, rfl⟩

/-- The flap countdown leaves the simulated flap as it is or resolves it to Opened or
Closed, and does not touch the simulated shutter. -/
theorem timerFlap_simStatus (d : State) :
    ((timerFlap d).simFlapStatus = d.simFlapStatus ∨
      (timerFlap d).simFlapStatus = FLAP_OPENED ∨
      (timerFlap d).simFlapStatus = FLAP_CLOSED) ∧
    (timerFlap d).simShutterStatus = d.simShutterStatus := by
  simp only [timerFlap]
  split_ifs
  · exact ⟨Or.inr (Or.inl rfl), rfl⟩
  · exact ⟨Or.inr (Or.inr rfl), rfl⟩
  · exact ⟨Or.inl rfl, rfl⟩
  · exact ⟨Or.inl rfl, rfl⟩

/-- A refresh of the shutter status writes neither simulated actuator. -/
theorem UpdateShutterStatus_simStatus (d : State) (t : Tty) :
    (UpdateShutterStatus d t).2.1.simShutterStatus = d.simShutterStatus ∧
    (UpdateShutterStatus d t).2.1.simFlapStatus = d.simFlapStatus := by
  obtain ⟨a, b, c, e, h⟩ := UpdateShutterStatus_frame d t
  rw [h]
  exact ⟨rfl, rfl⟩

/-- A refresh of the flap status writes neither simulated actuator. -/
theorem UpdateFlapStatus_simStatus (d : State) (t : Tty) :
    (UpdateFlapStatus d t).2.1.simShutterStatus = d.simShutterStatus ∧
    (UpdateFlapStatus d t).2.1.simFlapStatus = d.simFlapStatus := by
  obtain ⟨a, b, c, e, h⟩ := UpdateFlapStatus_frame d t
  rw [h]
  exact ⟨rfl, rfl⟩

/-- A tick leaves each simulated actuator as it is or resolves it to Opened or Closed. -/
theorem TimerHit_simStatus (d : State) (t : Tty) :
    ((TimerHit d t).1.simShutterStatus = d.simShutterStatus ∨
      (TimerHit d t).1.simShutterStatus = SHUTTER_OPENED ∨
      (TimerHit d t).1.simShutterStatus = SHUTTER_CLOSED) ∧
    ((TimerHit d t).1.simFlapStatus = d.simFlapStatus ∨
      (TimerHit d t).1.simFlapStatus = FLAP_OPENED ∨
      (TimerHit d t).1.simFlapStatus = FLAP_CLOSED) := by
  by_cases hc : d.connected = true
  · obtain ⟨s, c, cs, v, b, g, r, c2, ta, hM⟩ := TimerHit_before_actuators d t
    have hT : (TimerHit d t).1 =
        timerFlap (UpdateFlapStatus
          (timerShutter (UpdateShutterStatus
            (timerMotion (UpdatePosition d t).2.1 (UpdatePosition d t).2.2).1
            (timerMotion (UpdatePosition d t).2.1 (UpdatePosition d t).2.2).2).2.1)
          (UpdateShutterStatus
            (timerMotion (UpdatePosition d t).2.1 (UpdatePosition d t).2.2).1
            (timerMotion (UpdatePosition d t).2.1 (UpdatePosition d t).2.2).2).2.2).2.1 := by
      simp only [TimerHit, hc, Bool.true_eq_false, if_false]
    have m1 : (timerMotion (UpdatePosition d t).2.1
        (UpdatePosition d t).2.2).1.simShutterStatus = d.simShutterStatus := by rw [hM]
    have m2 : (timerMotion (UpdatePosition d t).2.1
        (UpdatePosition d t).2.2).1.simFlapStatus = d.simFlapStatus := by rw [hM]
    obtain ⟨u1, u2⟩ := UpdateShutterStatus_simStatus
      (timerMotion (UpdatePosition d t).2.1 (UpdatePosition d t).2.2).1
      (timerMotion (UpdatePosition d t).2.1 (UpdatePosition d t).2.2).2
    obtain ⟨s1, s2⟩ := timerShutter_simStatus (UpdateShutterStatus
      (timerMotion (UpdatePosition d t).2.1 (UpdatePosition d t).2.2).1
      (timerMotion (UpdatePosition d t).2.1 (UpdatePosition d t).2.2).2).2.1
    obtain ⟨v1, v2⟩ := UpdateFlapStatus_simStatus
      (timerShutter (UpdateShutterStatus
        (timerMotion (UpdatePosition d t).2.1 (UpdatePosition d t).2.2).1
        (timerMotion (UpdatePosition d t).2.1 (UpdatePosition d t).2.2).2).2.1)
      (UpdateShutterStatus
        (timerMotion (UpdatePosition d t).2.1 (UpdatePosition d t).2.2).1
        (timerMotion (UpdatePosition d t).2.1 (UpdatePosition d t).2.2).2).2.2
    obtain ⟨f1, f2⟩ := timerFlap_simStatus (UpdateFlapStatus
      (timerShutter (UpdateShutterStatus
        (timerMotion (UpdatePosition d t).2.1 (UpdatePosition d t).2.2).1
        (timerMotion (UpdatePosition d t).2.1 (UpdatePosition d t).2.2).2).2.1)
      (UpdateShutterStatus
        (timerMotion (UpdatePosition d t).2.1 (UpdatePosition d t).2.2).1
        (timerMotion (UpdatePosition d t).2.1 (UpdatePosition d t).2.2).2).2.2).2.1
    rw [hT]
    rw [u1, m1] at s1
    rw [u2, m2] at s2
    rw [v1] at f2
    rw [v2, s2] at f1
    refine ⟨?_, f1⟩
    rw [f2]
    exact s1
  · have hT : TimerHit d t = (d, t) := by
      simp only [TimerHit, Bool.not_eq_true] at hc ⊢
      rw [if_pos hc]
    rw [hT]
    exact ⟨Or.inl rfl, Or.inl rfl⟩

/-- Method `SetupParms` writes neither simulated actuator. -/
theorem SetupParms_simStatus (d : State) (t : Tty) :
    (SetupParms d t).2.1.simShutterStatus = d.simShutterStatus ∧
    (SetupParms d t).2.1.simFlapStatus = d.simFlapStatus := by
  obtain ⟨s, c, cs, v, hU⟩ := UpdatePosition_frame { d with targetAz := 0 } t
  obtain ⟨u1, u2⟩ := UpdateShutterStatus_simStatus
    (UpdatePosition { d with targetAz := 0 } t).2.1
    (UpdatePosition { d with targetAz := 0 } t).2.2
  obtain ⟨v1, v2⟩ := UpdateFlapStatus_simStatus
    (UpdateShutterStatus (UpdatePosition { d with targetAz := 0 } t).2.1
      (UpdatePosition { d with targetAz := 0 } t).2.2).2.1
    (UpdateShutterStatus (UpdatePosition { d with targetAz := 0 } t).2.1
      (UpdatePosition { d with targetAz := 0 } t).2.2).2.2
  simp only [SetupParms]
  rw [v1, v2, u1, u2, hU]
  exact ⟨rfl, rfl⟩

/-- No request makes a simulated actuator Unknown. -/
theorem step_sim_known (r : Request) (s : State × Tty)
    (h : s.1.simShutterStatus ≠ SHUTTER_UNKNOWN ∧ s.1.simFlapStatus ≠ FLAP_UNKNOWN) :
    (step r s).1.simShutterStatus ≠ SHUTTER_UNKNOWN ∧
    (step r s).1.simFlapStatus ≠ FLAP_UNKNOWN := by
  cases r with
  | tick =>
    obtain ⟨a, b⟩ := TimerHit_simStatus s.1 s.2
    show (TimerHit s.1 s.2).1.simShutterStatus ≠ _ ∧ (TimerHit s.1 s.2).1.simFlapStatus ≠ _
    constructor
    · rcases a with a | a | a
      · rw [a]; exact h.1
      · rw [a]; decide
      · rw [a]; decide
    · rcases b with b | b | b
      · rw [b]; exact h.2
      · rw [b]; decide
      · rw [b]; decide
  | setup =>
    obtain ⟨a, b⟩ := SetupParms_simStatus s.1 s.2
    show (SetupParms s.1 s.2).2.1.simShutterStatus ≠ _ ∧
      (SetupParms s.1 s.2).2.1.simFlapStatus ≠ _
    rw [a, b]
    exact h
  | moveAbs az =>
    obtain ⟨ta, e⟩ := MoveAbsDome_frame s.1 s.2 az
    show (MoveAbsDome s.1 s.2 az).2.1.simShutterStatus ≠ _ ∧
      (MoveAbsDome s.1 s.2 az).2.1.simFlapStatus ≠ _
    rw [e]
    exact h
  | moveRel cw azDiff =>
    obtain ⟨ta, e⟩ := MoveRelDome_frame s.1 s.2 cw azDiff
    show (MoveRelDome s.1 s.2 cw azDiff).2.1.simShutterStatus ≠ _ ∧
      (MoveRelDome s.1 s.2 cw azDiff).2.1.simFlapStatus ≠ _
    rw [e]
    exact h
  | park =>
    obtain ⟨ta, e⟩ := ParkDome_frame s.1 s.2
    show (ParkDome s.1 s.2).2.1.simShutterStatus ≠ _ ∧
      (ParkDome s.1 s.2).2.1.simFlapStatus ≠ _
    rw [e]
    exact h
  | home =>
    obtain ⟨ta, e⟩ := HomeDome_frame s.1 s.2
    show (HomeDome s.1 s.2).2.1.simShutterStatus ≠ _ ∧
      (HomeDome s.1 s.2).2.1.simFlapStatus ≠ _
    rw [e]
    exact h
  | abort =>
    obtain ⟨ta, e⟩ := AbortDome_frame s.1 s.2
    show (AbortDome s.1 s.2).2.1.simShutterStatus ≠ _ ∧
      (AbortDome s.1 s.2).2.1.simFlapStatus ≠ _
    rw [e]
    exact h
  | shutter op =>
    obtain ⟨tm, ss, st, e, hs⟩ := ControlDomeShutter_frame s.1 s.2 op
    show (ControlDomeShutter s.1 s.2 op).2.1.simShutterStatus ≠ _ ∧
      (ControlDomeShutter s.1 s.2 op).2.1.simFlapStatus ≠ _
    rw [e]
    refine ⟨?_, h.2⟩
    rcases hs with hs | hs
    · rw [hs]; exact h.1
    · rw [hs]
      exact fun hc => absurd (show SHUTTER_MOVING = SHUTTER_UNKNOWN from hc) (by decide)
  | flap op =>
    obtain ⟨tm, ss, st, e, hs⟩ := ControlDomeFlap_frame s.1 s.2 op
    show (ControlDomeFlap s.1 s.2 op).2.1.simShutterStatus ≠ _ ∧
      (ControlDomeFlap s.1 s.2 op).2.1.simFlapStatus ≠ _
    rw [e]
    refine ⟨h.1, ?_⟩
    rcases hs with hs | hs
    · rw [hs]; exact h.2
    · rw [hs]
      exact fun hc => absurd (show FLAP_MOVING = FLAP_UNKNOWN from hc) (by decide)
  | calibrate =>
    obtain ⟨e, sp, st, sg, cs, c1, ta, b, hC⟩ := ISNewSwitch_Calibrate_frame s.1 s.2
    show (ISNewSwitch_Calibrate s.1 s.2).2.1.simShutterStatus ≠ _ ∧
      (ISNewSwitch_Calibrate s.1 s.2).2.1.simFlapStatus ≠ _
    rw [hC]
    exact h
  | panel p => exact h

/-- After any run, no simulated actuator that was known is Unknown. -/
theorem run_sim_known (rs : List Request) : ∀ (s : State × Tty),
    s.1.simShutterStatus ≠ SHUTTER_UNKNOWN ∧ s.1.simFlapStatus ≠ FLAP_UNKNOWN →
    (run rs s).1.simShutterStatus ≠ SHUTTER_UNKNOWN ∧
    (run rs s).1.simFlapStatus ≠ FLAP_UNKNOWN := by
  induction rs with
  | nil => intro s h; exact h
  | cons r rs ih => intro s h; exact ih (step r s) (step_sim_known r s h)

/-- No request changes the mode. -/
theorem step_sim (r : Request) (s : State × Tty) : (step r s).1.sim = s.1.sim := by
  cases r with
  | tick =>
    show (TimerHit s.1 s.2).1.sim = _
    by_cases hc : s.1.connected = true
    · exact (TimerHit_status s.1 s.2 hc).2.1
    · have hT : TimerHit s.1 s.2 = (s.1, s.2) := by
        simp only [TimerHit, Bool.not_eq_true] at hc ⊢
        rw [if_pos hc]
      rw [hT]
  | setup =>
    obtain ⟨a, c, cs, v, hU⟩ := UpdatePosition_frame { s.1 with targetAz := 0 } s.2
    obtain ⟨a1, a2, a3, a4, hS⟩ := UpdateShutterStatus_frame
      (UpdatePosition { s.1 with targetAz := 0 } s.2).2.1
      (UpdatePosition { s.1 with targetAz := 0 } s.2).2.2
    obtain ⟨b1, b2, b3, b4, hF⟩ := UpdateFlapStatus_frame
      (UpdateShutterStatus (UpdatePosition { s.1 with targetAz := 0 } s.2).2.1
        (UpdatePosition { s.1 with targetAz := 0 } s.2).2.2).2.1
      (UpdateShutterStatus (UpdatePosition { s.1 with targetAz := 0 } s.2).2.1
        (UpdatePosition { s.1 with targetAz := 0 } s.2).2.2).2.2
    show (SetupParms s.1 s.2).2.1.sim = _
    simp only [SetupParms]
    rw [hF, hS, hU]
  | moveAbs az =>
    obtain ⟨ta, e⟩ := MoveAbsDome_frame s.1 s.2 az
    show (MoveAbsDome s.1 s.2 az).2.1.sim = _
    rw [e]
  | moveRel cw azDiff =>
    obtain ⟨ta, e⟩ := MoveRelDome_frame s.1 s.2 cw azDiff
    show (MoveRelDome s.1 s.2 cw azDiff).2.1.sim = _
    rw [e]
  | park =>
    obtain ⟨ta, e⟩ := ParkDome_frame s.1 s.2
    show (ParkDome s.1 s.2).2.1.sim = _
    rw [e]
  | home =>
    obtain ⟨ta, e⟩ := HomeDome_frame s.1 s.2
    show (HomeDome s.1 s.2).2.1.sim = _
    rw [e]
  | abort =>
    obtain ⟨ta, e⟩ := AbortDome_frame s.1 s.2
    show (AbortDome s.1 s.2).2.1.sim = _
    rw [e]
  | shutter op =>
    obtain ⟨tm, ss, st, e, hs⟩ := ControlDomeShutter_frame s.1 s.2 op
    show (ControlDomeShutter s.1 s.2 op).2.1.sim = _
    rw [e]
  | flap op =>
    obtain ⟨tm, ss, st, e, hs⟩ := ControlDomeFlap_frame s.1 s.2 op
    show (ControlDomeFlap s.1 s.2 op).2.1.sim = _
    rw [e]
  | calibrate =>
    obtain ⟨e, sp, st, sg, cs, c1, ta, b, hC⟩ := ISNewSwitch_Calibrate_frame s.1 s.2
    show (ISNewSwitch_Calibrate s.1 s.2).2.1.sim = _
    rw [hC]
  | panel p => rfl

/-- No run changes the mode. -/
theorem run_sim (rs : List Request) : ∀ (s : State × Tty), (run rs s).1.sim = s.1.sim := by
  induction rs with
  | nil => intro s; rfl
  | cons r rs ih => intro s; exact (ih (step r s)).trans (step_sim r s)

/-- In simulation, with the simulated shutter known, the answer to the status query is one
of the three recognised frames and the refresh returns true with that status. -/
theorem shutter_refresh_sim_known (d : State) (t : Tty) (hsim : d.sim = true)
    (hk : d.simShutterStatus ≠ SHUTTER_UNKNOWN) :
    (simShutterResp d t = "d#shutclo".toList ∨ simShutterResp d t = "d#shutope".toList ∨
      simShutterResp d t = "d#shutrun".toList) ∧
    (UpdateShutterStatus d t).1 = true ∧
    (UpdateShutterStatus d t).2.1.shutterStatus = d.simShutterStatus ∧
    (UpdateShutterStatus d t).2.1.shutterStatus ≠ SHUTTER_UNKNOWN := by
  have key : (simShutterResp d t = "d#shutclo".toList ∨
      simShutterResp d t = "d#shutope".toList ∨ simShutterResp d t = "d#shutrun".toList) ∧
      (UpdateShutterStatus d t).1 = true ∧
      (UpdateShutterStatus d t).2.1.shutterStatus = d.simShutterStatus := by
    rcases hss : d.simShutterStatus with _ | _ | _ | _
    · have hx : (exchange d.sim "d#getshut".toList (simShutterResp d t) t).1 =
          some "d#shutope".toList := by
        rw [hsim, exchange_sim, simShutterResp, hss]
        exact congrArg some (by decide : cstr "d#shutope".toList = "d#shutope".toList)
      rw [UpdateShutterStatus_word d t _ "ope".toList hx (by decide)]
      exact ⟨Or.inr (Or.inl (by rw [simShutterResp, hss])), rfl, rfl⟩
    · have hx : (exchange d.sim "d#getshut".toList (simShutterResp d t) t).1 =
          some "d#shutclo".toList := by
        rw [hsim, exchange_sim, simShutterResp, hss]
        exact congrArg some (by decide : cstr "d#shutclo".toList = "d#shutclo".toList)
      rw [UpdateShutterStatus_word d t _ "clo".toList hx (by decide)]
      exact ⟨Or.inl (by rw [simShutterResp, hss]), rfl, rfl⟩
    · have hx : (exchange d.sim "d#getshut".toList (simShutterResp d t) t).1 =
          some "d#shutrun".toList := by
        rw [hsim, exchange_sim, simShutterResp, hss]
        exact congrArg some (by decide : cstr "d#shutrun".toList = "d#shutrun".toList)
      rw [UpdateShutterStatus_word d t _ "run".toList hx (by decide)]
      exact ⟨Or.inr (Or.inr (by rw [simShutterResp, hss])), rfl, rfl⟩
    · exact absurd hss hk
  exact ⟨key.1, key.2.1, key.2.2, by rw [key.2.2]; exact hk⟩

/-- In simulation, with the simulated flap known, the answer to the status query is one of
the three recognised frames and the refresh returns true with that status. -/
theorem flap_refresh_sim_known (d : State) (t : Tty) (hsim : d.sim = true)
    (hk : d.simFlapStatus ≠ FLAP_UNKNOWN) :
    (simFlapResp d t = "d#flapclo".toList ∨ simFlapResp d t = "d#flapope".toList ∨
      simFlapResp d t = "d#flaprun".toList) ∧
    (UpdateFlapStatus d t).1 = true ∧
    (UpdateFlapStatus d t).2.1.flapStatus = d.simFlapStatus ∧
    (UpdateFlapStatus d t).2.1.flapStatus ≠ FLAP_UNKNOWN := by
  have key : (simFlapResp d t = "d#flapclo".toList ∨
      simFlapResp d t = "d#flapope".toList ∨ simFlapResp d t = "d#flaprun".toList) ∧
      (UpdateFlapStatus d t).1 = true ∧
      (UpdateFlapStatus d t).2.1.flapStatus = d.simFlapStatus := by
    rcases hss : d.simFlapStatus with _ | _ | _ | _
    · have hx : (exchange d.sim "d#getflap".toList (simFlapResp d t) t).1 =
          some "d#flapope".toList := by
        rw [hsim, exchange_sim, simFlapResp, hss]
        exact congrArg some (by decide : cstr "d#flapope".toList = "d#flapope".toList)
      rw [UpdateFlapStatus_word d t _ "ope".toList hx (by decide)]
      exact ⟨Or.inr (Or.inl (by rw [simFlapResp, hss])), rfl, rfl⟩
    · have hx : (exchange d.sim "d#getflap".toList (simFlapResp d t) t).1 =
          some "d#flapclo".toList := by
        rw [hsim, exchange_sim, simFlapResp, hss]
        exact congrArg some (by decide : cstr "d#flapclo".toList = "d#flapclo".toList)
      rw [UpdateFlapStatus_word d t _ "clo".toList hx (by decide)]
      exact ⟨Or.inl (by rw [simFlapResp, hss]), rfl, rfl⟩
    · have hx : (exchange d.sim "d#getflap".toList (simFlapResp d t) t).1 =
          some "d#flaprun".toList := by
        rw [hsim, exchange_sim, simFlapResp, hss]
        exact congrArg some (by decide : cstr "d#flaprun".toList = "d#flaprun".toList)
      rw [UpdateFlapStatus_word d t _ "run".toList hx (by decide)]
      exact ⟨Or.inr (Or.inr (by rw [simFlapResp, hss])), rfl, rfl⟩
    · exact absurd hss hk
  exact ⟨key.1, key.2.1, key.2.2, by rw [key.2.2]; exact hk⟩

/-- C24: in every state reached from the constructor's initial state (in either mode, at
any azimuth, on any line) by any sequence of poller ticks, entry-point calls, calibration
requests and writes of the framework to its own members, `simShutterStatus` is Closed,
Opened or Moving and `simFlapStatus` is Closed, Opened or Moving. In simulation mode the
answer to each status query is therefore one of the three recognised frames, and the
refresh returns true with a status other than Unknown. -/
theorem C24_simulated_actuators_never_unknown (sim : Bool) (az : ℚ) (t : Tty)
    (rs : List Request) :
    ((run rs (initialState sim az, t)).1.simShutterStatus = SHUTTER_CLOSED ∨
      (run rs (initialState sim az, t)).1.simShutterStatus = SHUTTER_OPENED ∨
      (run rs (initialState sim az, t)).1.simShutterStatus = SHUTTER_MOVING) ∧
    ((run rs (initialState sim az, t)).1.simFlapStatus = FLAP_CLOSED ∨
      (run rs (initialState sim az, t)).1.simFlapStatus = FLAP_OPENED ∨
      (run rs (initialState sim az, t)).1.simFlapStatus = FLAP_MOVING) ∧
    (sim = true →
      (simShutterResp (run rs (initialState sim az, t)).1 (run rs (initialState sim az, t)).2
          = "d#shutclo".toList ∨
        simShutterResp (run rs (initialState sim az, t)).1 (run rs (initialState sim az, t)).2
          = "d#shutope".toList ∨
        simShutterResp (run rs (initialState sim az, t)).1 (run rs (initialState sim az, t)).2
          = "d#shutrun".toList) ∧
      (UpdateShutterStatus (run rs (initialState sim az, t)).1
        (run rs (initialState sim az, t)).2).1 = true ∧
      (UpdateShutterStatus (run rs (initialState sim az, t)).1
        (run rs (initialState sim az, t)).2).2.1.shutterStatus ≠ SHUTTER_UNKNOWN ∧
      (simFlapResp (run rs (initialState sim az, t)).1 (run rs (initialState sim az, t)).2
          = "d#flapclo".toList ∨
        simFlapResp (run rs (initialState sim az, t)).1 (run rs (initialState sim az, t)).2
          = "d#flapope".toList ∨
        simFlapResp (run rs (initialState sim az, t)).1 (run rs (initialState sim az, t)).2
          = "d#flaprun".toList) ∧
      (UpdateFlapStatus (run rs (initialState sim az, t)).1
        (run rs (initialState sim az, t)).2).1 = true ∧
      (UpdateFlapStatus (run rs (initialState sim az, t)).1
        (run rs (initialState sim az, t)).2).2.1.flapStatus ≠ FLAP_UNKNOWN) := by
  have h0 : (initialState sim az, t).1.simShutterStatus ≠ SHUTTER_UNKNOWN ∧
      (initialState sim az, t).1.simFlapStatus ≠ FLAP_UNKNOWN :=
    ⟨fun hc => absurd (show SHUTTER_CLOSED = SHUTTER_UNKNOWN from hc) (by decide),
     fun hc => absurd (show FLAP_CLOSED = FLAP_UNKNOWN from hc) (by decide)⟩
  obtain ⟨k1, k2⟩ := run_sim_known rs (initialState sim az, t) h0
  refine ⟨?_, ?_, fun hsim => ?_⟩
  · rcases hss : (run rs (initialState sim az, t)).1.simShutterStatus with _ | _ | _ | _
    · exact Or.inr (Or.inl rfl)
    · exact Or.inl rfl
    · exact Or.inr (Or.inr rfl)
    · exact absurd hss k1
  · rcases hss : (run rs (initialState sim az, t)).1.simFlapStatus with _ | _ | _ | _
    · exact Or.inr (Or.inl rfl)
    · exact Or.inl rfl
    · exact Or.inr (Or.inr rfl)
    · exact absurd hss k2
  · have hs : (run rs (initialState sim az, t)).1.sim = true := by
      rw [run_sim]; exact hsim
    obtain ⟨a1, a2, -, a4⟩ := shutter_refresh_sim_known _
      (run rs (initialState sim az, t)).2 hs k1
    obtain ⟨b1, b2, -, b4⟩ := flap_refresh_sim_known _
      (run rs (initialState sim az, t)).2 hs k2
    exact ⟨a1, a2, a4, b1, b2, b4⟩

/-- C24 witness: the simulated driver after a request to open the shutter and one tick. -/
theorem C24_simulated_actuators_never_unknown_witness :
    (UpdateShutterStatus
      (run [Request.shutter SHUTTER_OPEN, Request.tick] (initialState true 0, idleTty)).1
      (run [Request.shutter SHUTTER_OPEN, Request.tick] (initialState true 0, idleTty)).2).1
        = true ∧
    (UpdateShutterStatus
      (run [Request.shutter SHUTTER_OPEN, Request.tick] (initialState true 0, idleTty)).1
      (run [Request.shutter SHUTTER_OPEN, Request.tick]
        (initialState true 0, idleTty)).2).2.1.shutterStatus ≠ SHUTTER_UNKNOWN :=
  ⟨((C24_simulated_actuators_never_unknown true 0 idleTty
      [Request.shutter SHUTTER_OPEN, Request.tick]).2.2 rfl).2.1,
   ((C24_simulated_actuators_never_unknown true 0 idleTty
      [Request.shutter SHUTTER_OPEN, Request.tick]).2.2 rfl).2.2.1⟩

/-! ## C27: Ready is reached only through a calibration -/

/-- In simulation the position refresh of a driver that is neither Ready nor in the stage
Complete answers with the unsynced frame and writes only the current azimuth. -/
theorem UpdatePosition_sim_not_ready (d : State) (t : Tty) (hsim : d.sim = true)
    (hu : ¬ (d.status = DOME_READY ∨ d.calibrationStage = CALIBRATION_COMPLETE)) :
    simAzimResp d = "d#azi".toList ++ fmt04d (MountAzToDomeAz d.DomeAbsPosN_value) ∧
    (UpdatePosition d t).2.1.status = d.status ∧
    (UpdatePosition d t).2.1.calibrationStage = d.calibrationStage ∧
    (UpdatePosition d t).2.1.sim = true := by
  rw [UpdatePosition_sim_unsynced d t hsim hu]
  refine ⟨?_, rfl, rfl, hsim⟩
  simp only [simAzimResp, hu, if_false]

/-- In simulation a tick of a driver that is neither Ready nor in the stage Complete
leaves the status as it is. -/
theorem TimerHit_sim_not_ready (d : State) (t : Tty) (hsim : d.sim = true)
    (hu : ¬ (d.status = DOME_READY ∨ d.calibrationStage = CALIBRATION_COMPLETE)) :
    (TimerHit d t).1.status = d.status := by
  by_cases hc : d.connected = true
  · obtain ⟨h1, -, -⟩ := TimerHit_status d t hc
    rw [h1, (UpdatePosition_sim_not_ready d t hsim hu).2.1]
  · have hT : TimerHit d t = (d, t) := by
      simp only [TimerHit, Bool.not_eq_true] at hc ⊢
      rw [if_pos hc]
    rw [hT]

/-- In simulation a tick of an uncalibrated driver that is not calibrating leaves the
stage Unknown. -/
theorem TimerHit_sim_uncalibrated (d : State) (t : Tty) (hsim : d.sim = true)
    (hs : d.status = DOME_UNKNOWN) (hst : d.calibrationStage = CALIBRATION_UNKNOWN) :
    (TimerHit d t).1.status = DOME_UNKNOWN ∧
    (TimerHit d t).1.calibrationStage = CALIBRATION_UNKNOWN := by
  have hu : ¬ (d.status = DOME_READY ∨ d.calibrationStage = CALIBRATION_COMPLETE) := by
    rw [hs, hst]; decide
  refine ⟨(TimerHit_sim_not_ready d t hsim hu).trans hs, ?_⟩
  by_cases hc : d.connected = true
  · obtain ⟨-, m2, -, -, -, -, -⟩ := TimerHit_motion_members d t hc
    obtain ⟨-, p1, p2, -⟩ := UpdatePosition_sim_not_ready d t hsim hu
    rw [m2, timerMotion_stage_idle _ _ (by rw [p1, hs]; decide), p2, hst]
  · have hT : TimerHit d t = (d, t) := by
      simp only [TimerHit, Bool.not_eq_true] at hc ⊢
      rw [if_pos hc]
    rw [hT]
    exact hst

/-- Method `SetupParms` changes the status and the stage as its position refresh does. -/
theorem SetupParms_status (d : State) (t : Tty) :
    (SetupParms d t).2.1.status = (UpdatePosition { d with targetAz := 0 } t).2.1.status ∧
    (SetupParms d t).2.1.calibrationStage =
      (UpdatePosition { d with targetAz := 0 } t).2.1.calibrationStage := by
  obtain ⟨a1, a2, a3, a4, hS⟩ := UpdateShutterStatus_frame
    (UpdatePosition { d with targetAz := 0 } t).2.1
    (UpdatePosition { d with targetAz := 0 } t).2.2
  obtain ⟨b1, b2, b3, b4, hF⟩ := UpdateFlapStatus_frame
    (UpdateShutterStatus (UpdatePosition { d with targetAz := 0 } t).2.1
      (UpdatePosition { d with targetAz := 0 } t).2.2).2.1
    (UpdateShutterStatus (UpdatePosition { d with targetAz := 0 } t).2.1
      (UpdatePosition { d with targetAz := 0 } t).2.2).2.2
  simp only [SetupParms]
  rw [hF, hS]
  exact ⟨rfl, rfl⟩

/-- In simulation no request makes a driver Ready that is neither Ready nor in the stage
Complete. -/
theorem step_status_not_ready (r : Request) (s : State × Tty) (hsim : s.1.sim = true)
    (hu : ¬ (s.1.status = DOME_READY ∨ s.1.calibrationStage = CALIBRATION_COMPLETE)) :
    (step r s).1.status ≠ DOME_READY := by
  have hn : s.1.status ≠ DOME_READY := fun hc => hu (Or.inl hc)
  cases r with
  | tick =>
    show (TimerHit s.1 s.2).1.status ≠ _
    rw [TimerHit_sim_not_ready s.1 s.2 hsim hu]
    exact hn
  | setup =>
    show (SetupParms s.1 s.2).2.1.status ≠ _
    rw [(SetupParms_status s.1 s.2).1,
      (UpdatePosition_sim_not_ready { s.1 with targetAz := 0 } s.2 hsim hu).2.1]
    exact hn
  | moveAbs az =>
    obtain ⟨ta, e⟩ := MoveAbsDome_frame s.1 s.2 az
    show (MoveAbsDome s.1 s.2 az).2.1.status ≠ _
    rw [e]
    exact hn
  | moveRel cw azDiff =>
    obtain ⟨ta, e⟩ := MoveRelDome_frame s.1 s.2 cw azDiff
    show (MoveRelDome s.1 s.2 cw azDiff).2.1.status ≠ _
    rw [e]
    exact hn
  | park =>
    obtain ⟨ta, e⟩ := ParkDome_frame s.1 s.2
    show (ParkDome s.1 s.2).2.1.status ≠ _
    rw [e]
    exact hn
  | home =>
    obtain ⟨ta, e⟩ := HomeDome_frame s.1 s.2
    show (HomeDome s.1 s.2).2.1.status ≠ _
    rw [e]
    exact hn
  | abort =>
    obtain ⟨ta, e⟩ := AbortDome_frame s.1 s.2
    show (AbortDome s.1 s.2).2.1.status ≠ _
    rw [e]
    exact hn
  | shutter op =>
    obtain ⟨tm, ss, st, e, -⟩ := ControlDomeShutter_frame s.1 s.2 op
    show (ControlDomeShutter s.1 s.2 op).2.1.status ≠ _
    rw [e]
    exact hn
  | flap op =>
    obtain ⟨tm, ss, st, e, -⟩ := ControlDomeFlap_frame s.1 s.2 op
    show (ControlDomeFlap s.1 s.2 op).2.1.status ≠ _
    rw [e]
    exact hn
  | calibrate => exact ISNewSwitch_Calibrate_status s.1 s.2 hn
  | panel p => exact hn

/-- In simulation every request other than a calibration request leaves an uncalibrated
driver uncalibrated: status Unknown, stage Unknown. -/
theorem step_uncalibrated (r : Request) (s : State × Tty) (hr : r ≠ Request.calibrate)
    (hsim : s.1.sim = true) (hs : s.1.status = DOME_UNKNOWN)
    (hst : s.1.calibrationStage = CALIBRATION_UNKNOWN) :
    (step r s).1.sim = true ∧ (step r s).1.status = DOME_UNKNOWN ∧
    (step r s).1.calibrationStage = CALIBRATION_UNKNOWN := by
  have hu : ¬ (s.1.status = DOME_READY ∨ s.1.calibrationStage = CALIBRATION_COMPLETE) := by
    rw [hs, hst]; decide
  refine ⟨(step_sim r s).trans hsim, ?_⟩
  cases r with
  | tick => exact TimerHit_sim_uncalibrated s.1 s.2 hsim hs hst
  | setup =>
    obtain ⟨a, b⟩ := SetupParms_status s.1 s.2
    obtain ⟨-, p1, p2, -⟩ := UpdatePosition_sim_not_ready { s.1 with targetAz := 0 } s.2
      hsim hu
    show (SetupParms s.1 s.2).2.1.status = _ ∧ (SetupParms s.1 s.2).2.1.calibrationStage = _
    rw [a, b, p1, p2]
    exact ⟨hs, hst⟩
  | moveAbs az =>
    obtain ⟨ta, e⟩ := MoveAbsDome_frame s.1 s.2 az
    show (MoveAbsDome s.1 s.2 az).2.1.status = _ ∧
      (MoveAbsDome s.1 s.2 az).2.1.calibrationStage = _
    rw [e]
    exact ⟨hs, hst⟩
  | moveRel cw azDiff =>
    obtain ⟨ta, e⟩ := MoveRelDome_frame s.1 s.2 cw azDiff
    show (MoveRelDome s.1 s.2 cw azDiff).2.1.status = _ ∧
      (MoveRelDome s.1 s.2 cw azDiff).2.1.calibrationStage = _
    rw [e]
    exact ⟨hs, hst⟩
  | park =>
    obtain ⟨ta, e⟩ := ParkDome_frame s.1 s.2
    show (ParkDome s.1 s.2).2.1.status = _ ∧ (ParkDome s.1 s.2).2.1.calibrationStage = _
    rw [e]
    exact ⟨hs, hst⟩
  | home =>
    obtain ⟨ta, e⟩ := HomeDome_frame s.1 s.2
    show (HomeDome s.1 s.2).2.1.status = _ ∧ (HomeDome s.1 s.2).2.1.calibrationStage = _
    rw [e]
    exact ⟨hs, hst⟩
  | abort =>
    obtain ⟨ta, e⟩ := AbortDome_frame s.1 s.2
    show (AbortDome s.1 s.2).2.1.status = _ ∧ (AbortDome s.1 s.2).2.1.calibrationStage = _
    rw [e]
    exact ⟨hs, hst⟩
  | shutter op =>
    obtain ⟨tm, ss, st, e, -⟩ := ControlDomeShutter_frame s.1 s.2 op
    show (ControlDomeShutter s.1 s.2 op).2.1.status = _ ∧
      (ControlDomeShutter s.1 s.2 op).2.1.calibrationStage = _
    rw [e]
    exact ⟨hs, hst⟩
  | flap op =>
    obtain ⟨tm, ss, st, e, -⟩ := ControlDomeFlap_frame s.1 s.2 op
    show (ControlDomeFlap s.1 s.2 op).2.1.status = _ ∧
      (ControlDomeFlap s.1 s.2 op).2.1.calibrationStage = _
    rw [e]
    exact ⟨hs, hst⟩
  | calibrate => exact absurd rfl hr
  | panel p => exact ⟨hs, hst⟩

/-- In simulation a run without a calibration request leaves an uncalibrated driver
uncalibrated. -/
theorem run_uncalibrated (rs : List Request) : ∀ (s : State × Tty),
    (∀ r ∈ rs, r ≠ Request.calibrate) → s.1.sim = true → s.1.status = DOME_UNKNOWN →
    s.1.calibrationStage = CALIBRATION_UNKNOWN →
    (run rs s).1.status = DOME_UNKNOWN ∧
    (run rs s).1.calibrationStage = CALIBRATION_UNKNOWN := by
  induction rs with
  | nil => intro s _ _ hs hst; exact ⟨hs, hst⟩
  | cons r rs ih =>
    intro s h hsim hs hst
    obtain ⟨a, b, c⟩ := step_uncalibrated r s (h r (List.mem_cons_self r rs)) hsim hs hst
    exact ih (step r s) (fun q hq => h q (List.mem_cons_of_mem r hq)) a b c

/-- The position refresh sets the status to Ready only when the response parses as a
synced frame "d#azr" with a number. -/
theorem UpdatePosition_ready_only_synced (d : State) (t : Tty)
    (h : (UpdatePosition d t).2.1.status = DOME_READY) (hn : d.status ≠ DOME_READY) :
    ∃ resp n, (exchange d.sim "d#getazim".toList (simAzimResp d) t).1 = some resp ∧
      sscanf_hu "d#azr".toList resp = some n := by
  rcases hx : (exchange d.sim "d#getazim".toList (simAzimResp d) t).1 with _ | resp
  · simp only [UpdatePosition, hx] at h
    exact absurd h hn
  · rcases hr : sscanf_hu "d#azr".toList resp with _ | n
    · simp only [UpdatePosition, hx, hr] at h
      rcases hi : sscanf_hu "d#azi".toList resp with _ | m
      · simp only [hi] at h
        exact absurd h hn
      · simp only [hi] at h
        exact absurd h hn
    · exact ⟨resp, n, rfl, hr⟩

/-- C27: in simulation mode, starting from the constructor's initial state (status Unknown,
stage Unknown) at any azimuth, after every sequence of poller ticks, `SetupParms`,
move, park, home and abort requests, shutter and flap requests and writes of the framework
to its own members that contains no calibration request, the status is Unknown (so not
Ready) and the stage is Unknown. In simulation no request of any kind makes a driver
Ready that is neither Ready nor in the stage Complete; the position refresh sets Ready
only on a response that parses as a synced frame "d#azr", and the simulation answers with
the unsynced frame "d#azi" unless the driver is Ready or in the stage Complete. -/
theorem C27_not_ready_without_calibration (az : ℚ) (t : Tty) (rs : List Request)
    (h : ∀ r ∈ rs, r ≠ Request.calibrate) :
    (run rs (initialState true az, t)).1.status = DOME_UNKNOWN ∧
    (run rs (initialState true az, t)).1.status ≠ DOME_READY ∧
    (run rs (initialState true az, t)).1.calibrationStage = CALIBRATION_UNKNOWN ∧
    (∀ (r : Request) (s : State × Tty), s.1.sim = true →
      (step r s).1.status = DOME_READY →
      s.1.status = DOME_READY ∨ s.1.calibrationStage = CALIBRATION_COMPLETE) ∧
    (∀ (d : State) (l : Tty), (UpdatePosition d l).2.1.status = DOME_READY →
      d.status ≠ DOME_READY →
      ∃ resp n, (exchange d.sim "d#getazim".toList (simAzimResp d) l).1 = some resp ∧
        sscanf_hu "d#azr".toList resp = some n) ∧
    (∀ d : State, ¬ (d.status = DOME_READY ∨ d.calibrationStage = CALIBRATION_COMPLETE) →
      simAzimResp d = "d#azi".toList ++ fmt04d (MountAzToDomeAz d.DomeAbsPosN_value) ∧
      sscanf_hu "d#azr".toList (cstr (simAzimResp d)) = none) := by
  obtain ⟨a, b⟩ := run_uncalibrated rs (initialState true az, t) h rfl rfl rfl
  refine ⟨a, by rw [a]; decide, b, fun r s hsim hr => ?_, fun d l h1 h2 =>
    UpdatePosition_ready_only_synced d l h1 h2, fun d hu => ?_⟩
  · by_contra hu
    exact step_status_not_ready r s hsim hu hr
  · have e : simAzimResp d =
        "d#azi".toList ++ fmt04d (MountAzToDomeAz d.DomeAbsPosN_value) := by
      simp only [simAzimResp, hu, if_false]
    refine ⟨e, ?_⟩
    rw [e]
    exact sscanf_azr_azi _ (lt_of_le_of_lt (MountAzToDomeAz_le _) (by decide))

/-- C27 witness: the simulated driver at azimuth 10 ticks, is asked to park, to open the
shutter, to move by 20 degrees and to abort, and ticks again: it is not Ready. -/
theorem C27_not_ready_without_calibration_witness :
    (run [Request.tick, Request.park, Request.shutter SHUTTER_OPEN,
          Request.moveRel true 20, Request.abort, Request.tick]
      (initialState true 10, idleTty)).1.status ≠ DOME_READY :=
  (C27_not_ready_without_calibration 10 idleTty
    [Request.tick, Request.park, Request.shutter SHUTTER_OPEN,
     Request.moveRel true 20, Request.abort, Request.tick]
    (by
      intro r hr
      simp only [List.mem_cons, List.mem_singleton, List.not_mem_nil, or_false] at hr
      rcases hr with h | h | h | h | h | h <;> rw [h] <;> exact Request.noConfusion)).2.1

end BaaderDome
